import Mathlib

/-!
Verification of the Terraria world-save decoder and rasterizer found in
`src/handlers/canvasToBlob.ts` (classes `TerrariaFileParser` and
`TerrariaWorldParser`, and the per-cell color logic of `WldHandler.doConvert`).

The byte buffer is modelled as a `List Nat` of byte values; the mutable
parser object (`this.offset`, `this.buffer`, `this.options.ignoreBounds`,
`this.RLE`) becomes an explicit state record.  JavaScript exceptions thrown
by `DataView` accessors become `Except.error` results; crucially, field
mutations performed before a throw persist, so every operation returns the
resulting state alongside an `Except` value.

The progress-callback mechanism of `parse` (an intercepted property setter
on `offset` that bumps a percentage counter) is modelled by routing every
assignment of `offset` through `setOff`, which updates the
percentage-threshold bookkeeping exactly as the installed setter does when a
callback is present (`hasCb`).  The decoding logic never reads those
bookkeeping fields.

Floating-point reads (`readFloat32`, `readFloat64`) are modelled as
returning the raw little-endian bit pattern as a `Nat`; no decoded claim
depends on float arithmetic, and the "zero value" returned in lenient mode
corresponds to the all-zero bit pattern.
-/

set_option synthInstance.maxSize 4000

set_option maxHeartbeats 4000000

set_option maxRecDepth 8000

namespace Wld

/-- Parser state: the immutable byte buffer, the mutable read offset, the
`ignoreBounds` option, the shared `RLE` field, and the progress-callback
bookkeeping installed by `parse` (`hasCb` records whether a
`progressCallback` was supplied). -/
structure PState where
  buf : List Nat
  off : Nat
  ignoreBounds : Bool
  rle : Int
  hasCb : Bool
  onePct : Nat
  nextPct : Nat
  percent : Nat
  plog : List Nat
deriving Repr, DecidableEq

/-- The decode-relevant core of a state: everything except the
write-only progress bookkeeping. -/
def coreOf (s : PState) : List Nat × Nat × Bool × Int :=
  (s.buf, s.off, s.ignoreBounds, s.rle)

/-- Assigning to `this.offset`.  When a progress callback is installed,
the intercepting setter additionally checks the next percentage threshold
and reports (here: logs) the new percentage. -/
def setOff (n : Nat) (s : PState) : PState :=
  if s.hasCb then
    if n ≥ s.nextPct then
      { s with off := n, percent := s.percent + 1, nextPct := s.nextPct + s.onePct,
               plog := s.plog ++ [s.percent + 1] }
    else { s with off := n }
  else { s with off := n }

/-- Computations over the parser object: a result (or a thrown error) plus
the state as left behind, including by a throw. -/
abbrev M (α : Type) : Type := PState → Except String α × PState

/-- Sequencing: run `x`; on success continue with `f`, on a thrown error
propagate it, keeping the state mutations made so far. -/
def mbind {α β : Type} (x : M α) (f : α → M β) : M β := fun s =>
  match x s with
  | (Except.ok a, s') => f a s'
  | (Except.error e, s') => (Except.error e, s')

instance : Monad M where
  pure a := fun s => (Except.ok a, s)
  bind := mbind

instance {ε α : Type} [DecidableEq ε] [DecidableEq α] : DecidableEq (Except ε α) := fun x y =>
  match x, y with
  | Except.ok a, Except.ok b =>
    if h : a = b then Decidable.isTrue (by rw [h])
    else Decidable.isFalse (by intro hc; cases hc; exact h rfl)
  | Except.ok _, Except.error _ => Decidable.isFalse (by intro hc; cases hc)
  | Except.error _, Except.ok _ => Decidable.isFalse (by intro hc; cases hc)
  | Except.error e, Except.error f =>
    if h : e = f then Decidable.isTrue (by rw [h])
    else Decidable.isFalse (by intro hc; cases hc; exact h rfl)

/-- The message of the `RangeError` thrown by `DataView` accessors on an
out-of-bounds read. -/
def rangeErr : String := "RangeError: Offset is outside the bounds of the DataView"

/-- Little-endian unsigned integer: `w` bytes of `buf` starting at `i`. -/
def leU (buf : List Nat) (i w : Nat) : Nat :=
  match w with
  | 0 => 0
  | w + 1 => buf.getD i 0 + 256 * leU buf (i + 1) w

/-- Two's-complement reinterpretation of a `w*8`-bit unsigned value. -/
def toSigned (w : Nat) (n : Nat) : Int :=
  if n < 2 ^ (8 * w - 1) then (n : Int) else (n : Int) - 2 ^ (8 * w)

/-- Common body of every fixed-width read: advance `offset` by the declared
width first (this mutation survives a throw), then either return the
decoded bytes, return 0 in `ignoreBounds` mode, or throw past the end. -/
def readPrim (w : Nat) (s : PState) : Except String Nat × PState :=
  let s' := setOff (s.off + w) s
  if s.ignoreBounds ∧ s.buf.length < s.off + w then (Except.ok 0, s')
  else if s.buf.length < s.off + w then (Except.error rangeErr, s')
  else (Except.ok (leU s.buf s.off w), s')

def readUInt8 : M Nat := readPrim 1
def readUInt16 : M Nat := readPrim 2
def readUInt32 : M Nat := readPrim 4
def readInt16 : M Int := fun s =>
  match readPrim 2 s with
  | (Except.ok n, s') => (Except.ok (toSigned 2 n), s')
  | (Except.error e, s') => (Except.error e, s')
def readInt32 : M Int := fun s =>
  match readPrim 4 s with
  | (Except.ok n, s') => (Except.ok (toSigned 4 n), s')
  | (Except.error e, s') => (Except.error e, s')
/-- Modelled as the raw 32-bit little-endian pattern (see file comment). -/
def readFloat32 : M Nat := readPrim 4
/-- Modelled as the raw 64-bit little-endian pattern (see file comment). -/
def readFloat64 : M Nat := readPrim 8

def readBoolean : M Bool := do
  let b ← readUInt8
  pure (b ≠ 0)

def skipBytes (n : Nat) : M Unit := fun s =>
  (Except.ok (), setOff (s.off + n) s)

def jumpTo (n : Nat) : M Unit := fun s =>
  (Except.ok (), setOff n s)

def getRLE : M Int := fun s => (Except.ok s.rle, s)

def setRLE (v : Int) : M Unit := fun s => (Except.ok (), { s with rle := v })

/-- `readBytes(count)`: `count` single-byte reads collected in order. -/
def readBytes : Nat → M (List Nat)
  | 0 => pure []
  | n + 1 => do
    let b ← readUInt8
    let rest ← readBytes n
    pure (b :: rest)

/-- The 7-bit-per-byte variable-length length prefix of `readString()`.
The loop advances the offset on every iteration, so it runs at most
`buf.length + 1` times before a read throws (strict) or yields 0
(lenient); `fuel` is initialised accordingly and can never run out. -/
def readVarLenAux : Nat → Nat → Nat → M Nat
  | 0, _, _ => fun s => (Except.error "varint: no fuel", s)
  | fuel + 1, acc, shift => do
    let b ← readUInt8
    let acc := acc ||| ((b &&& 127) <<< shift)
    if b &&& 128 ≠ 0 then readVarLenAux fuel acc (shift + 7) else pure acc

def readVarLen : M Nat := fun s => readVarLenAux (s.buf.length + 2) 0 0 s

/-- `readString(length)`: the decoded string is kept as its byte list
(UTF-8 decoding is irrelevant to every claim; on the one string the
validator compares, the ASCII bytes determine the decoded string). -/
def readStringLen (len : Nat) : M (List Nat) := readBytes len

/-- `readString()` with the variable-length prefix. -/
def readStringVar : M (List Nat) := do
  let len ← readVarLen
  readBytes len

/-- `parseBitsByte(size)`: read `ceil(size/8)` bytes (none if `size ≤ 0`)
and unpack `size` booleans, least-significant bit first in each byte. -/
def parseBitsByte (size : Int) : M (List Bool) := do
  let nbytes := (size.toNat + 7) / 8
  let bytes ← readBytes nbytes
  pure ((List.range size.toNat).map fun i => bytes.getD (i / 8) 0 &&& (1 <<< (i % 8)) ≠ 0)

/-- `("00" + byte.toString(16)).slice(-2)` for byte values below 256:
two lowercase hex digits (`Nat.digitChar` maps 0-15 to exactly those). -/
def byteHex (b : Nat) : String :=
  String.mk [Nat.digitChar (b / 16 % 16), Nat.digitChar (b % 16)]

/-- `parseGuid`: reorder the 16 bytes and render them in hex with dashes
appended after the elements at indices 4, 6, 8 and 10. -/
def parseGuid (bytes : List Nat) : String :=
  let b := (bytes.take 4).reverse
    ++ ((bytes.drop 4).take 2).reverse
    ++ ((bytes.drop 6).take 2).reverse
    ++ bytes.drop 8
  String.join (b.enum.map fun p =>
    byteHex p.2 ++ (if p.1 = 4 ∨ p.1 = 6 ∨ p.1 = 8 ∨ p.1 = 10 then "-" else ""))

theorem bind_def {α β : Type} (x : M α) (f : α → M β) : x >>= f = mbind x f := rfl

theorem pure_def {α : Type} (a : α) : (pure a : M α) = fun s => (Except.ok a, s) := rfl

theorem bind_ok {α β : Type} {x : M α} {f : α → M β} {s sf : PState} {b : β}
    (h : (x >>= f) s = (Except.ok b, sf)) :
    ∃ a s₁, x s = (Except.ok a, s₁) ∧ f a s₁ = (Except.ok b, sf) := by
  rw [bind_def] at h
  unfold mbind at h
  rcases hx : x s with ⟨v, s₁⟩
  rw [hx] at h
  cases v with
  | ok a => exact ⟨a, s₁, rfl, h⟩
  | error e => exact absurd h (by simp)

theorem bind_ok_fwd {α β : Type} {x : M α} {s s₁ : PState} {a : α} (f : α → M β)
    (h : x s = (Except.ok a, s₁)) : (x >>= f) s = f a s₁ := by
  rw [bind_def]; unfold mbind; rw [h]

theorem bind_err_fwd {α β : Type} {x : M α} {s s₁ : PState} {e : String} (f : α → M β)
    (h : x s = (Except.error e, s₁)) : (x >>= f) s = (Except.error e, s₁) := by
  rw [bind_def]; unfold mbind; rw [h]

theorem setOff_off (n : Nat) (s : PState) : (setOff n s).off = n := by
  unfold setOff; split
  · split <;> rfl
  · rfl

theorem setOff_buf (n : Nat) (s : PState) : (setOff n s).buf = s.buf := by
  unfold setOff; split
  · split <;> rfl
  · rfl

theorem setOff_ignoreBounds (n : Nat) (s : PState) :
    (setOff n s).ignoreBounds = s.ignoreBounds := by
  unfold setOff; split
  · split <;> rfl
  · rfl

theorem setOff_rle (n : Nat) (s : PState) : (setOff n s).rle = s.rle := by
  unfold setOff; split
  · split <;> rfl
  · rfl

theorem setOff_core (n : Nat) (s : PState) :
    coreOf (setOff n s) = (s.buf, n, s.ignoreBounds, s.rle) := by
  unfold coreOf
  rw [setOff_off, setOff_buf, setOff_ignoreBounds, setOff_rle]

/-- The common contract of a fixed-width typed read of width `w`: the
offset advances by exactly `w` whether or not the read succeeds, nothing
else of the decode-relevant state changes (in particular the bounds mode,
which is part of the constructed state rather than a per-call choice), and
the returned value is the decoded in-range value, the zero value of the
type in `ignoreBounds` mode, or a thrown `RangeError`. -/
def ReadContract {α : Type} (w : Nat) (read : M α) (val : PState → α) (zero : α) : Prop :=
  ∀ s : PState,
    (read s).2.off = s.off + w ∧
    (read s).2.buf = s.buf ∧
    (read s).2.ignoreBounds = s.ignoreBounds ∧
    (read s).2.rle = s.rle ∧
    (read s).1 = (if s.buf.length < s.off + w then
        (if s.ignoreBounds then Except.ok zero else Except.error rangeErr)
      else Except.ok (val s))

theorem readPrim_contract (w : Nat) : ReadContract w (readPrim w) (fun s => leU s.buf s.off w) 0 := by
  intro s
  unfold readPrim
  by_cases hb : s.buf.length < s.off + w
  · by_cases hib : s.ignoreBounds = true
    · simp [hb, hib, setOff_off, setOff_buf, setOff_ignoreBounds, setOff_rle]
    · simp [hb, hib, setOff_off, setOff_buf, setOff_ignoreBounds, setOff_rle]
  · simp [hb, setOff_off, setOff_buf, setOff_ignoreBounds, setOff_rle]

theorem readSignedPrim_contract (w : Nat) (rd : M Int)
    (h : rd = fun s => match readPrim w s with
      | (Except.ok n, s') => (Except.ok (toSigned w n), s')
      | (Except.error e, s') => (Except.error e, s')) :
    ReadContract w rd (fun s => toSigned w (leU s.buf s.off w)) 0 := by
  intro s
  have hp := readPrim_contract w s
  subst h
  simp only []
  obtain ⟨h1, h2, h3, h4, h5⟩ := hp
  have hz : toSigned w 0 = 0 := by
    unfold toSigned
    have : (0 : Nat) < 2 ^ (8 * w - 1) := Nat.pos_pow_of_pos _ (by norm_num)
    simp [this]
  rcases hr : readPrim w s with ⟨v, s'⟩
  rw [hr] at h1 h2 h3 h4 h5
  cases v with
  | ok n =>
    simp only [] at h1 h2 h3 h4 h5 ⊢
    refine ⟨h1, h2, h3, h4, ?_⟩
    by_cases hb : s.buf.length < s.off + w
    · simp [hb] at h5 ⊢
      by_cases hib : s.ignoreBounds
      · simp [hib] at h5 ⊢; rw [h5, hz]
      · simp [hib] at h5
    · simp [hb] at h5 ⊢; rw [h5]
  | error e =>
    simp only [] at h1 h2 h3 h4 h5 ⊢
    refine ⟨h1, h2, h3, h4, ?_⟩
    by_cases hb : s.buf.length < s.off + w
    · simp [hb] at h5 ⊢
      by_cases hib : s.ignoreBounds
      · simp [hib] at h5
      · simp [hib] at h5 ⊢; exact h5
    · simp [hb] at h5

/-- C8. Byte-cursor out-of-bounds semantics: each of the seven typed reads
advances the offset by exactly its declared width whether or not the read
succeeds, leaves the buffer, the bounds mode and the RLE field untouched
(the mode is state fixed at construction, not a per-call argument), and
yields the in-range decoded value, `Except.ok 0` (the zero value of the
requested type) in `ignoreBounds` mode, or a `RangeError` in strict mode. -/
theorem c8_cursor_bounds :
    ReadContract 1 readUInt8 (fun s => leU s.buf s.off 1) 0 ∧
    ReadContract 2 readUInt16 (fun s => leU s.buf s.off 2) 0 ∧
    ReadContract 4 readUInt32 (fun s => leU s.buf s.off 4) 0 ∧
    ReadContract 2 readInt16 (fun s => toSigned 2 (leU s.buf s.off 2)) 0 ∧
    ReadContract 4 readInt32 (fun s => toSigned 4 (leU s.buf s.off 4)) 0 ∧
    ReadContract 4 readFloat32 (fun s => leU s.buf s.off 4) 0 ∧
    ReadContract 8 readFloat64 (fun s => leU s.buf s.off 8) 0 :=
  ⟨readPrim_contract 1, readPrim_contract 2, readPrim_contract 4,
   readSignedPrim_contract 2 readInt16 rfl,
   readSignedPrim_contract 4 readInt32 rfl,
   readPrim_contract 4, readPrim_contract 8⟩

/-! ## Format validator (`parseNecessaryData`) -/

/-- The `WorldNecessary` record returned by `parseNecessaryData`. -/
structure WorldNecessary where
  version : Int
  pointers : List Int
  importants : List Bool
  width : Int
  height : Int
deriving Repr, DecidableEq

/-- The bytes of the magic string "relogic" (pure ASCII, so the decoded
string equals "relogic" exactly when the bytes are these). -/
def relogicBytes : List Nat := [114, 101, 108, 111, 103, 105, 99]

/-- The pointer-table loop: `for (let i = readInt16(); i > 0; i--)
pointers.push(readInt32())`, with the iteration count already taken. -/
def readPtrLoop : Nat → M (List Int)
  | 0 => pure []
  | n + 1 => do
    let p ← readInt32
    let rest ← readPtrLoop n
    pure (p :: rest)

/-- The preamble reads after version, magic and file type: reserved bytes,
pointer table (prefixed with the implicit 0), important-tile bit set, two
discarded strings, 44 skippable bytes, then height before width. -/
def parseNecessaryTail : M (List Int × List Bool × Int × Int) := do
  skipBytes 12
  let n ← readInt16
  let ptrs ← readPtrLoop n.toNat
  let m ← readInt16
  let importants ← parseBitsByte m
  let _ ← readStringVar
  let _ ← readStringVar
  skipBytes 44
  let height ← readInt32
  let width ← readInt32
  pure (0 :: ptrs, importants, height, width)

/-- The body of `parseNecessaryData`'s `try` block. -/
def parseNecessaryBody : M (Int × List Nat × Nat × (List Int × List Bool × Int × Int)) := do
  let version ← readInt32
  let magicNumber ← readStringLen 7
  let fileType ← readUInt8
  let rest ← parseNecessaryTail
  pure (version, magicNumber, fileType, rest)

/-- `parseNecessaryData`: reset the offset, run the preamble reads with any
thrown error re-raised as "Invalid file type", reset the offset again, then
check magic/type (FormatError) and the minimum version
(UnsupportedVersionError).  The source distinguishes the two rejection
kinds by their message strings, which we preserve verbatim. -/
def parseNecessaryData : M WorldNecessary := fun s =>
  match parseNecessaryBody (setOff 0 s) with
  | (Except.ok (v, m, ft, ptrs, imps, h, w), s') =>
    let s2 := setOff 0 s'
    if m ≠ relogicBytes ∨ ft ≠ 2 then (Except.error "Invalid file type", s2)
    else if v < 194 then
      (Except.error "Map version is older than 1.3.5.3 and cannot be parsed", s2)
    else (Except.ok ⟨v, ptrs, imps, w, h⟩, s2)
  | (Except.error _, s') => (Except.error "Invalid file type", s')

/-- The structural version as laid out in the file: signed 32-bit
little-endian at offset 0. -/
def versionOf (buf : List Nat) : Int := toSigned 4 (leU buf 0 4)

/-- The magic string bytes as laid out in the file: bytes 4 through 10. -/
def magicOf (buf : List Nat) : List Nat :=
  (List.range 7).map fun i => buf.getD (4 + i) 0

/-- The file-type tag as laid out in the file: byte 11. -/
def fileTypeOf (buf : List Nat) : Nat := buf.getD 11 0

theorem parseNecessaryData_ok_case {s s₁ : PState} {v : Int} {m : List Nat} {ft : Nat}
    {ptrs : List Int} {imps : List Bool} {hh ww : Int}
    (hbody : parseNecessaryBody (setOff 0 s) = (Except.ok (v, m, ft, (ptrs, imps, hh, ww)), s₁)) :
    parseNecessaryData s =
      (if m ≠ relogicBytes ∨ ft ≠ 2 then (Except.error "Invalid file type", setOff 0 s₁)
       else if v < 194 then
         (Except.error "Map version is older than 1.3.5.3 and cannot be parsed", setOff 0 s₁)
       else (Except.ok ⟨v, ptrs, imps, ww, hh⟩, setOff 0 s₁)) := by
  unfold parseNecessaryData
  rw [hbody]

theorem parseNecessaryData_err_case {s s₁ : PState} {e : String}
    (hbody : parseNecessaryBody (setOff 0 s) = (Except.error e, s₁)) :
    parseNecessaryData s = (Except.error "Invalid file type", s₁) := by
  unfold parseNecessaryData
  rw [hbody]

theorem readPrim_strict_ok {w : Nat} {s s' : PState} {n : Nat}
    (hib : s.ignoreBounds = false) (h : readPrim w s = (Except.ok n, s')) :
    n = leU s.buf s.off w ∧ s' = setOff (s.off + w) s ∧ s.off + w ≤ s.buf.length := by
  unfold readPrim at h
  by_cases hb : s.buf.length < s.off + w
  · simp [hb, hib] at h
  · simp [hb, hib] at h
    exact ⟨h.1.symm, h.2.symm, Nat.not_lt.mp hb⟩

theorem readUInt8_strict_ok {s s' : PState} {n : Nat}
    (hib : s.ignoreBounds = false) (h : readUInt8 s = (Except.ok n, s')) :
    n = s.buf.getD s.off 0 ∧ s' = setOff (s.off + 1) s ∧ s.off + 1 ≤ s.buf.length := by
  have := readPrim_strict_ok hib h
  simpa [leU] using this

theorem readInt32_strict_ok {s s' : PState} {n : Int}
    (hib : s.ignoreBounds = false) (h : readInt32 s = (Except.ok n, s')) :
    n = toSigned 4 (leU s.buf s.off 4) ∧ s' = setOff (s.off + 4) s := by
  unfold readInt32 at h
  rcases hp : readPrim 4 s with ⟨v, s₁⟩
  rw [hp] at h
  cases v with
  | ok k =>
    simp only [] at h
    obtain ⟨h1, h2⟩ := Prod.mk.injEq .. ▸ h
    obtain ⟨hv, hs, _⟩ := readPrim_strict_ok hib hp
    cases h1
    exact ⟨by rw [hv], by rw [← h2, hs]⟩
  | error e => simp at h

theorem readBytes_strict {n : Nat} : ∀ {s s' : PState} {l : List Nat},
    s.ignoreBounds = false → readBytes n s = (Except.ok l, s') →
    l = (List.range n).map (fun i => s.buf.getD (s.off + i) 0) ∧
    s'.buf = s.buf ∧ s'.off = s.off + n ∧ s'.ignoreBounds = false ∧ s'.rle = s.rle := by
  induction n with
  | zero =>
    intro s s' l hib h
    rw [readBytes, pure_def] at h
    cases h
    simpa using hib
  | succ k ih =>
    intro s s' l hib h
    rw [readBytes] at h
    obtain ⟨b, s₁, h1, h2⟩ := bind_ok h
    obtain ⟨rest, s₂, h3, h4⟩ := bind_ok h2
    rw [pure_def] at h4
    cases h4
    obtain ⟨hb, hs, _⟩ := readUInt8_strict_ok hib h1
    have hib₁ : s₁.ignoreBounds = false := by rw [hs, setOff_ignoreBounds]; exact hib
    obtain ⟨hrest, hbuf, hoff, hib₂, hrle⟩ := ih hib₁ h3
    have hbuf₁ : s₁.buf = s.buf := by rw [hs, setOff_buf]
    have hoff₁ : s₁.off = s.off + 1 := by rw [hs, setOff_off]
    have hrle₁ : s₁.rle = s.rle := by rw [hs, setOff_rle]
    refine ⟨?_, by rw [hbuf, hbuf₁], by rw [hoff, hoff₁]; omega, hib₂, by rw [hrle, hrle₁]⟩
    rw [List.range_succ_eq_map, List.map_cons, List.map_map]
    have : ∀ i, s₁.buf.getD (s₁.off + i) 0 = s.buf.getD (s.off + (i + 1)) 0 := by
      intro i; rw [hbuf₁, hoff₁]; congr 1; omega
    rw [hb, hrest]
    refine congrArg₂ _ (by rw [Nat.add_zero]) ?_
    exact List.map_congr_left fun i _ => (this i).trans rfl

/-- Under strict bounds and a cursor at offset 0, a successful preamble
body read returns exactly the version, magic bytes and file-type tag laid
out at their fixed offsets in the buffer. -/
theorem necessaryBody_head {s sf : PState}
    {v : Int} {m : List Nat} {ft : Nat} {r : List Int × List Bool × Int × Int}
    (hib : s.ignoreBounds = false) (hoff : s.off = 0)
    (h : parseNecessaryBody s = (Except.ok (v, m, ft, r), sf)) :
    v = versionOf s.buf ∧ m = magicOf s.buf ∧ ft = fileTypeOf s.buf := by
  unfold parseNecessaryBody at h
  obtain ⟨v', s₁, h1, h2⟩ := bind_ok h
  obtain ⟨m', s₂, h3, h4⟩ := bind_ok h2
  obtain ⟨ft', s₃, h5, h6⟩ := bind_ok h4
  obtain ⟨r', s₄, h7, h8⟩ := bind_ok h6
  rw [pure_def] at h8
  cases h8
  obtain ⟨hv, hs1⟩ := readInt32_strict_ok hib h1
  have hib₁ : s₁.ignoreBounds = false := by rw [hs1, setOff_ignoreBounds]; exact hib
  have hbuf₁ : s₁.buf = s.buf := by rw [hs1, setOff_buf]
  have hoff₁ : s₁.off = 4 := by rw [hs1, setOff_off, hoff]
  obtain ⟨hm, hbuf₂, hoff₂, hib₂, _⟩ := readBytes_strict hib₁ h3
  obtain ⟨hft, _, _⟩ := readUInt8_strict_ok hib₂ h5
  constructor
  · rw [hv, hoff, versionOf]
  constructor
  · rw [hm, hbuf₁, hoff₁, magicOf]
  · rw [hft, hbuf₂, hbuf₁, hoff₂, hoff₁, fileTypeOf]

/-- C5. Format rejection contract of the validator: when the preamble body
reads succeed, a correct magic with a wrong file-type tag yields the
FormatError ("Invalid file type"), and a correct magic and type with a
version below 194 yields the UnsupportedVersionError message; when any
read of the preamble body throws (in particular on a truncated buffer),
the error is caught and re-raised as the FormatError rather than the raw
cursor RangeError propagating. -/
theorem c5_format_rejection (s : PState) :
    (∀ (v : Int) (m : List Nat) (ft : Nat) (r : List Int × List Bool × Int × Int)
       (s₁ : PState),
      parseNecessaryBody (setOff 0 s) = (Except.ok (v, m, ft, r), s₁) →
      ((m = relogicBytes ∧ ft ≠ 2) →
        ∃ sf, parseNecessaryData s = (Except.error "Invalid file type", sf)) ∧
      ((m = relogicBytes ∧ ft = 2 ∧ v < 194) →
        ∃ sf, parseNecessaryData s =
          (Except.error "Map version is older than 1.3.5.3 and cannot be parsed", sf))) ∧
    (∀ (e : String) (s₁ : PState),
      parseNecessaryBody (setOff 0 s) = (Except.error e, s₁) →
      ∃ sf, parseNecessaryData s = (Except.error "Invalid file type", sf)) := by
  constructor
  · intro v m ft r s₁ hbody
    constructor
    · rintro ⟨hm, hft⟩
      refine ⟨setOff 0 s₁, ?_⟩
      unfold parseNecessaryData
      rw [hbody]
      simp [hft]
    · rintro ⟨hm, hft, hv⟩
      refine ⟨setOff 0 s₁, ?_⟩
      unfold parseNecessaryData
      rw [hbody]
      simp [hm, hft, hv, Int.not_le.mpr hv]
  · intro e s₁ hbody
    refine ⟨s₁, ?_⟩
    unfold parseNecessaryData
    rw [hbody]

/-- A strict-mode initial parser state over a buffer (no progress callback
installed). -/
def st0 (buf : List Nat) : PState :=
  { buf := buf, off := 0, ignoreBounds := false, rle := 0,
    hasCb := false, onePct := 0, nextPct := 0, percent := 0, plog := [] }

/-- A well-formed 82-byte preamble: version 200, magic "relogic", type 2,
empty pointer table, empty important set, empty strings, height 16,
width 8. -/
def validPreamble : List Nat :=
  [200, 0, 0, 0] ++ relogicBytes ++ [2] ++ List.replicate 12 0 ++ [0, 0] ++ [0, 0]
    ++ [0] ++ [0] ++ List.replicate 44 0 ++ [16, 0, 0, 0] ++ [8, 0, 0, 0]

/-- Same preamble with file-type tag 3 instead of 2. -/
def wrongTypeBuf : List Nat :=
  [200, 0, 0, 0] ++ relogicBytes ++ [3] ++ List.replicate 12 0 ++ [0, 0] ++ [0, 0]
    ++ [0] ++ [0] ++ List.replicate 44 0 ++ [16, 0, 0, 0] ++ [8, 0, 0, 0]

/-- Same preamble with version 100 (below the minimum 194). -/
def oldVersionBuf : List Nat :=
  [100, 0, 0, 0] ++ relogicBytes ++ [2] ++ List.replicate 12 0 ++ [0, 0] ++ [0, 0]
    ++ [0] ++ [0] ++ List.replicate 44 0 ++ [16, 0, 0, 0] ++ [8, 0, 0, 0]

/-- The parser state left by a successful full-preamble body read over
`buf` (82 bytes consumed), starting from `st0 buf`. -/
def stAfterBody (buf : List Nat) : PState :=
  { buf := buf, off := 82, ignoreBounds := false, rle := 0,
    hasCb := false, onePct := 0, nextPct := 0, percent := 0, plog := [] }

theorem c5_witness :
    (∃ sf, parseNecessaryData (st0 wrongTypeBuf) = (Except.error "Invalid file type", sf)) ∧
    (∃ sf, parseNecessaryData (st0 oldVersionBuf) =
      (Except.error "Map version is older than 1.3.5.3 and cannot be parsed", sf)) ∧
    (∃ sf, parseNecessaryData (st0 [1, 2, 3]) = (Except.error "Invalid file type", sf)) := by
  refine ⟨?_, ?_, ?_⟩
  · exact ((c5_format_rejection (st0 wrongTypeBuf)).1 200 relogicBytes 3 ([0], [], 16, 8)
      (stAfterBody wrongTypeBuf) (by decide)).1 ⟨rfl, by omega⟩
  · exact ((c5_format_rejection (st0 oldVersionBuf)).1 100 relogicBytes 2 ([0], [], 16, 8)
      (stAfterBody oldVersionBuf) (by decide)).2 ⟨rfl, rfl, by omega⟩
  · exact (c5_format_rejection (st0 [1, 2, 3])).2 rangeErr
      { buf := [1, 2, 3], off := 4, ignoreBounds := false, rle := 0,
        hasCb := false, onePct := 0, nextPct := 0, percent := 0, plog := [] } (by decide)

/-- C10. Implicit acceptance constants of the validator: in strict mode,
`parseNecessaryData` succeeds only on buffers whose magic bytes (offsets
4-10) spell "relogic", whose file-type byte (offset 11) is 2, and whose
signed 32-bit version (offset 0) is at least 194; any buffer violating one
of the three conditions is rejected with an error. -/
theorem c10_acceptance_constants (s : PState) (hib : s.ignoreBounds = false) :
    ((∃ w sf, parseNecessaryData s = (Except.ok w, sf)) →
      magicOf s.buf = relogicBytes ∧ fileTypeOf s.buf = 2 ∧ 194 ≤ versionOf s.buf) ∧
    ((magicOf s.buf ≠ relogicBytes ∨ fileTypeOf s.buf ≠ 2 ∨ versionOf s.buf < 194) →
      ∃ e sf, parseNecessaryData s = (Except.error e, sf)) := by
  have hib0 : (setOff 0 s).ignoreBounds = false := by rw [setOff_ignoreBounds]; exact hib
  have hoff0 : (setOff 0 s).off = 0 := setOff_off 0 s
  have hbuf0 : (setOff 0 s).buf = s.buf := setOff_buf 0 s
  constructor
  · rintro ⟨w, sf, h⟩
    rcases hEq : parseNecessaryBody (setOff 0 s) with ⟨r0, s₁⟩
    cases r0 with
    | error e =>
      rw [parseNecessaryData_err_case hEq] at h
      simp at h
    | ok t =>
      obtain ⟨v, m, ft, ptrs, imps, hh, ww⟩ := t
      rw [parseNecessaryData_ok_case hEq] at h
      obtain ⟨hv, hm, hft⟩ := necessaryBody_head hib0 hoff0 hEq
      rw [hbuf0] at hv hm hft
      by_cases hc1 : m ≠ relogicBytes ∨ ft ≠ 2
      · rw [if_pos hc1] at h; simp at h
      · push_neg at hc1
        rw [if_neg (by simp [hc1.1, hc1.2])] at h
        by_cases hc2 : v < 194
        · rw [if_pos hc2] at h; simp at h
        · exact ⟨hm ▸ hc1.1 ▸ rfl, hft ▸ hc1.2 ▸ rfl, hv ▸ Int.not_lt.mp hc2⟩
  · intro hviol
    rcases hEq : parseNecessaryBody (setOff 0 s) with ⟨r0, s₁⟩
    cases r0 with
    | error e => exact ⟨"Invalid file type", s₁, parseNecessaryData_err_case hEq⟩
    | ok t =>
      obtain ⟨v, m, ft, ptrs, imps, hh, ww⟩ := t
      obtain ⟨hv, hm, hft⟩ := necessaryBody_head hib0 hoff0 hEq
      rw [hbuf0] at hv hm hft
      by_cases hc1 : m ≠ relogicBytes ∨ ft ≠ 2
      · exact ⟨"Invalid file type", setOff 0 s₁,
          by rw [parseNecessaryData_ok_case hEq, if_pos hc1]⟩
      · push_neg at hc1
        have hvlt : v < 194 := by
          rcases hviol with h1 | h2 | h3
          · exact absurd (hm ▸ hc1.1) h1
          · exact absurd (hft ▸ hc1.2) h2
          · rw [hv]; exact h3
        refine ⟨"Map version is older than 1.3.5.3 and cannot be parsed", setOff 0 s₁, ?_⟩
        rw [parseNecessaryData_ok_case hEq, if_neg (by simp [hc1.1, hc1.2]), if_pos hvlt]

theorem c10_witness :
    (magicOf validPreamble = relogicBytes ∧ fileTypeOf validPreamble = 2 ∧
      194 ≤ versionOf validPreamble) ∧
    (∃ e sf, parseNecessaryData (st0 [5, 5]) = (Except.error e, sf)) := by
  constructor
  · exact (c10_acceptance_constants (st0 validPreamble) rfl).1
      ⟨⟨200, [0], [], 8, 16⟩, st0 validPreamble, by decide⟩
  · exact (c10_acceptance_constants (st0 [5, 5]) rfl).2 (Or.inl (by decide))

/-! ## Tile decoder (`parseTileData`, lines 515-589)

`parseTileData` is transcribed as a sequential composition of stage
functions mirroring the blocks of the source function: the flag-byte
chain, the `flags1 > 1` block (block, wall, liquid), the `flags2` block
(wires, slope, flags3/flags4 extras including the wall high byte), and
the trailing run-length switch.  The TypeScript `Tile` record's optional
fields become `Option` fields; `flags2`/`flags3`/`flags4` are kept as
`Nat` with 0 for "absent", which is faithful because every use is a
truthiness or bit test, and an absent flag byte behaves identically to a
zero one in all of them. -/

structure Tile where
  blockId : Option Nat := none
  frameX : Option Int := none
  frameY : Option Int := none
  blockColor : Option Nat := none
  wallId : Option Nat := none
  wallColor : Option Nat := none
  liquidAmount : Option Nat := none
  liquidType : Option String := none
  wireRed : Option Bool := none
  wireBlue : Option Bool := none
  wireGreen : Option Bool := none
  wireYellow : Option Bool := none
  slope : Option String := none
  actuator : Option Bool := none
  actuated : Option Bool := none
  invisibleBlock : Option Bool := none
  invisibleWall : Option Bool := none
  fullBrightBlock : Option Bool := none
  fullBrightWall : Option Bool := none
deriving Repr, DecidableEq

/-- The freshly created `const tile: Tile = {}`. -/
def emptyTile : Tile := {}

/-- Lines 517-526: the 1-to-4-byte flag chain; each extension byte is
read only if the previous byte's bit 0 is set. -/
def readTileFlags : M (Nat × Nat × Nat × Nat) := do
  let flags1 ← readUInt8
  if flags1 &&& 1 ≠ 0 then do
    let flags2 ← readUInt8
    if flags2 &&& 1 ≠ 0 then do
      let flags3 ← readUInt8
      if flags3 &&& 1 ≠ 0 then do
        let flags4 ← readUInt8
        pure (flags1, flags2, flags3, flags4)
      else pure (flags1, flags2, flags3, 0)
    else pure (flags1, flags2, 0, 0)
  else pure (flags1, 0, 0, 0)

/-- Lines 529-537: the `flags1 & 2` block: block id (8- or 16-bit), frame
coordinates for important ids (id 144 forces frameY to 0), optional
block color when flag byte 3 bit 3 is set. -/
def blockStep (imps : List Bool) (f1 f3 : Nat) (t : Tile) : M Tile :=
  if f1 &&& 2 ≠ 0 then
    (if f1 &&& 32 ≠ 0 then readUInt16 else readUInt8) >>= fun bid =>
    (if imps.getD bid false then
        readInt16 >>= fun fx =>
        readInt16 >>= fun fy =>
        pure { t with blockId := some bid, frameX := some fx,
                      frameY := some (if bid = 144 then 0 else fy) }
      else pure { t with blockId := some bid }) >>= fun t =>
    (if f3 ≠ 0 ∧ f3 &&& 8 ≠ 0 then
        readUInt8 >>= fun bc => pure { t with blockColor := some bc }
      else pure t)
  else pure t

/-- Lines 538-541: the `flags1 & 4` block: 8-bit wall id, optional wall
color when flag byte 3 bit 4 is set. -/
def wallStep (f1 f3 : Nat) (t : Tile) : M Tile :=
  if f1 &&& 4 ≠ 0 then do
    let w ← readUInt8
    if f3 ≠ 0 ∧ f3 &&& 16 ≠ 0 then do
      let wc ← readUInt8
      pure { t with wallId := some w, wallColor := some wc }
    else pure { t with wallId := some w }
  else pure t

/-- Lines 542-554: the 2-bit liquid field; when nonzero an 8-bit depth is
read, and the kind is shimmer when flag byte 3 bit 7 is set, else
water/lava/honey by the field's value (the switch has no default). -/
def liquidStep (f1 f3 : Nat) (t : Tile) : M Tile :=
  let lt := (f1 &&& 24) >>> 3
  if lt ≠ 0 then do
    let amt ← readUInt8
    if f3 ≠ 0 ∧ f3 &&& 128 ≠ 0 then
      pure { t with liquidAmount := some amt, liquidType := some "shimmer" }
    else
      pure { t with liquidAmount := some amt,
                    liquidType := match lt with
                      | 1 => some "water"
                      | 2 => some "lava"
                      | 3 => some "honey"
                      | _ => t.liquidType }
  else pure t

/-- Lines 528-555: the whole `flags1 > 1` block. -/
def mainStep (imps : List Bool) (f1 f3 : Nat) (t : Tile) : M Tile :=
  if 1 < f1 then do
    let t ← blockStep imps f1 f3 t
    let t ← wallStep f1 f3 t
    liquidStep f1 f3 t
  else pure t

/-- Lines 558-560: the three wire bits of flag byte 2. -/
def applyWires (f2 : Nat) (t : Tile) : Tile :=
  { t with
    wireRed := if f2 &&& 2 ≠ 0 then some true else t.wireRed,
    wireBlue := if f2 &&& 4 ≠ 0 then some true else t.wireBlue,
    wireGreen := if f2 &&& 8 ≠ 0 then some true else t.wireGreen }

/-- Lines 561-568: the 3-bit slope field (cases 1-5; 0, 6 and 7 leave the
slope unset, the switch having no default). -/
def applySlope (f2 : Nat) (t : Tile) : Tile :=
  { t with
    slope := match (f2 &&& 112) >>> 4 with
      | 1 => some "half"
      | 2 => some "TR"
      | 3 => some "TL"
      | 4 => some "BR"
      | 5 => some "BL"
      | _ => t.slope }

/-- Lines 570-572: actuator, actuated and yellow-wire bits of flag byte 3. -/
def applyF3Bits (f3 : Nat) (t : Tile) : Tile :=
  { t with
    actuator := if f3 &&& 2 ≠ 0 then some true else t.actuator,
    actuated := if f3 &&& 4 ≠ 0 then some true else t.actuated,
    wireYellow := if f3 &&& 32 ≠ 0 then some true else t.wireYellow }

/-- Line 573: `tile.wallId = (readUInt8() << 8) | (tile.wallId ?? 0)`,
with the byte already read. -/
def wallCombine (hb : Nat) (t : Tile) : Tile :=
  { t with wallId := some ((hb <<< 8) ||| t.wallId.getD 0) }

/-- Lines 574-579: the four visibility bits of flag byte 4. -/
def applyF4Bits (f4 : Nat) (t : Tile) : Tile :=
  { t with
    invisibleBlock := if f4 &&& 2 ≠ 0 then some true else t.invisibleBlock,
    invisibleWall := if f4 &&& 4 ≠ 0 then some true else t.invisibleWall,
    fullBrightBlock := if f4 &&& 8 ≠ 0 then some true else t.fullBrightBlock,
    fullBrightWall := if f4 &&& 16 ≠ 0 then some true else t.fullBrightWall }

def flags2Step (f2 f3 f4 : Nat) (t : Tile) : M Tile :=
  if f2 ≠ 0 then
    if f3 ≠ 0 then
      (if f3 &&& 64 ≠ 0 then
          readUInt8 >>= fun hb =>
          pure (wallCombine hb (applyF3Bits f3 (applySlope f2 (applyWires f2 t))))
        else pure (applyF3Bits f3 (applySlope f2 (applyWires f2 t)))) >>= fun t =>
      (if f4 ≠ 0 then pure (applyF4Bits f4 t) else pure t)
    else pure (applySlope f2 (applyWires f2 t))
  else pure t

/-- Lines 583-586: the run-length switch on bits 6-7 of flag byte 1; a
value of 3 has no case and leaves `RLE` untouched. -/
def rleStep (f1 : Nat) : M Unit :=
  match (f1 &&& 192) >>> 6 with
  | 1 => do
    let v ← readUInt8
    setRLE v
  | 2 => do
    let v ← readInt16
    setRLE v
  | _ => pure ()

/-- `parseTileData`: the sequential composition of the stages above. -/
def parseTileData (imps : List Bool) : M Tile := do
  let fs ← readTileFlags
  let t ← mainStep imps fs.1 fs.2.2.1 emptyTile
  let t ← flags2Step fs.2.1 fs.2.2.1 fs.2.2.2 t
  rleStep fs.1
  pure t

theorem blockStep_preserves {imps : List Bool} {f1 f3 : Nat} {t : Tile} {s s' : PState} {r : Tile}
    (h : blockStep imps f1 f3 t s = (Except.ok r, s')) :
    r.liquidType = t.liquidType ∧ r.liquidAmount = t.liquidAmount ∧ r.wallId = t.wallId := by
  unfold blockStep at h
  split at h
  · obtain ⟨bid, s₁, hb, h⟩ := bind_ok h
    obtain ⟨t₁, s₂, ht, h⟩ := bind_ok h
    have htl : t₁.liquidType = t.liquidType ∧ t₁.liquidAmount = t.liquidAmount ∧
        t₁.wallId = t.wallId := by
      split at ht
      · obtain ⟨fx, sa, hfx, ht⟩ := bind_ok ht
        obtain ⟨fy, sb, hfy, ht⟩ := bind_ok ht
        rw [pure_def] at ht
        cases ht
        exact ⟨rfl, rfl, rfl⟩
      · rw [pure_def] at ht
        cases ht
        exact ⟨rfl, rfl, rfl⟩
    split at h
    · obtain ⟨bc, s₃, hbc, h⟩ := bind_ok h
      rw [pure_def] at h
      cases h
      simpa using htl
    · rw [pure_def] at h
      cases h
      exact htl
  · rw [pure_def] at h
    cases h
    exact ⟨rfl, rfl, rfl⟩

theorem wallStep_spec {f1 f3 : Nat} {t : Tile} {s s' : PState} {r : Tile}
    (h : wallStep f1 f3 t s = (Except.ok r, s')) :
    r.liquidType = t.liquidType ∧ r.liquidAmount = t.liquidAmount ∧
    (f1 &&& 4 = 0 → r.wallId = t.wallId) := by
  unfold wallStep at h
  split at h
  · rename_i h4
    obtain ⟨w, s₁, hw, h⟩ := bind_ok h
    split at h
    · obtain ⟨wc, s₂, hwc, h⟩ := bind_ok h
      rw [pure_def] at h
      cases h
      exact ⟨rfl, rfl, fun h0 => absurd h0 h4⟩
    · rw [pure_def] at h
      cases h
      exact ⟨rfl, rfl, fun h0 => absurd h0 h4⟩
  · rw [pure_def] at h
    cases h
    exact ⟨rfl, rfl, fun _ => rfl⟩

theorem liquidStep_spec {f1 f3 : Nat} {t : Tile} {s s' : PState} {r : Tile}
    (h : liquidStep f1 f3 t s = (Except.ok r, s')) :
    r.wallId = t.wallId ∧
    ((f1 &&& 24) >>> 3 = 0 → r = t) ∧
    ((f1 &&& 24) >>> 3 ≠ 0 →
      r.liquidAmount.isSome ∧
      r.liquidType = (if f3 ≠ 0 ∧ f3 &&& 128 ≠ 0 then some "shimmer"
        else match (f1 &&& 24) >>> 3 with
          | 1 => some "water"
          | 2 => some "lava"
          | 3 => some "honey"
          | _ => t.liquidType)) := by
  unfold liquidStep at h
  split at h
  · rename_i hlt
    obtain ⟨amt, s₁, hamt, h⟩ := bind_ok h
    split at h
    · rename_i hsh
      rw [pure_def] at h
      cases h
      exact ⟨rfl, fun h0 => absurd h0 hlt, fun _ => ⟨rfl, by rw [if_pos hsh]⟩⟩
    · rename_i hsh
      rw [pure_def] at h
      cases h
      exact ⟨rfl, fun h0 => absurd h0 hlt, fun _ => ⟨rfl, by rw [if_neg hsh]⟩⟩
  · rename_i hlt
    rw [pure_def] at h
    cases h
    exact ⟨rfl, fun _ => rfl, fun hc => absurd (Decidable.not_not.mp hlt) hc⟩

theorem mainStep_spec {imps : List Bool} {f1 f3 : Nat} {t : Tile} {s s' : PState} {r : Tile}
    (h : mainStep imps f1 f3 t s = (Except.ok r, s')) :
    (¬ 1 < f1 → r = t) ∧
    (1 < f1 →
      ((f1 &&& 24) >>> 3 = 0 → r.liquidType = t.liquidType ∧ r.liquidAmount = t.liquidAmount) ∧
      ((f1 &&& 24) >>> 3 ≠ 0 →
        r.liquidAmount.isSome ∧
        r.liquidType = (if f3 ≠ 0 ∧ f3 &&& 128 ≠ 0 then some "shimmer"
          else match (f1 &&& 24) >>> 3 with
            | 1 => some "water"
            | 2 => some "lava"
            | 3 => some "honey"
            | _ => t.liquidType)) ∧
      (f1 &&& 4 = 0 → r.wallId = t.wallId)) := by
  unfold mainStep at h
  split at h
  · rename_i hgt
    obtain ⟨t₁, s₁, hb, h⟩ := bind_ok h
    obtain ⟨t₂, s₂, hw, h⟩ := bind_ok h
    obtain ⟨hb1, hb2, hb3⟩ := blockStep_preserves hb
    obtain ⟨hw1, hw2, hw3⟩ := wallStep_spec hw
    obtain ⟨hl0, hl1, hl2⟩ := liquidStep_spec h
    refine ⟨fun hc => absurd hgt hc, fun _ => ⟨?_, ?_, ?_⟩⟩
    · intro hlt
      rw [hl1 hlt]
      exact ⟨hw1.trans hb1, hw2.trans hb2⟩
    · intro hlt
      obtain ⟨ha, hty⟩ := hl2 hlt
      refine ⟨ha, ?_⟩
      rw [hty, hw1, hb1]
    · intro h4
      rw [hl0, hw3 h4, hb3]
  · rw [pure_def] at h
    cases h
    exact ⟨fun _ => rfl, fun hgt => absurd hgt (by assumption)⟩

theorem flags2Step_preserves_liquid {f2 f3 f4 : Nat} {t : Tile} {s s' : PState} {r : Tile}
    (h : flags2Step f2 f3 f4 t s = (Except.ok r, s')) :
    r.liquidType = t.liquidType ∧ r.liquidAmount = t.liquidAmount := by
  unfold flags2Step at h
  split at h
  · split at h
    · obtain ⟨t₁, s₁, hmid, h⟩ := bind_ok h
      have hmidl : t₁.liquidType = t.liquidType ∧ t₁.liquidAmount = t.liquidAmount := by
        split at hmid
        · obtain ⟨hb, sa, hrd, hmid⟩ := bind_ok hmid
          rw [pure_def] at hmid
          cases hmid
          exact ⟨rfl, rfl⟩
        · rw [pure_def] at hmid
          cases hmid
          exact ⟨rfl, rfl⟩
      split at h
      · rw [pure_def] at h
        cases h
        exact ⟨hmidl.1, hmidl.2⟩
      · rw [pure_def] at h
        cases h
        exact hmidl
    · rw [pure_def] at h
      cases h
      exact ⟨rfl, rfl⟩
  · rw [pure_def] at h
    cases h
    exact ⟨rfl, rfl⟩

theorem flags2Step_wallHigh {f2 f3 f4 : Nat} {t : Tile} {s s' : PState} {r : Tile}
    (hf2 : f2 ≠ 0) (h64 : f3 &&& 64 ≠ 0)
    (h : flags2Step f2 f3 f4 t s = (Except.ok r, s')) :
    ∃ hb s₁, readUInt8 s = (Except.ok hb, s₁) ∧
      r.wallId = some ((hb <<< 8) ||| t.wallId.getD 0) := by
  have hf3 : f3 ≠ 0 := by
    intro h0
    rw [h0] at h64
    simp at h64
  unfold flags2Step at h
  rw [if_pos hf2, if_pos hf3, if_pos h64] at h
  obtain ⟨t₁, s₁, hmid, h⟩ := bind_ok h
  obtain ⟨hb, sa, hrd, hmid⟩ := bind_ok hmid
  rw [pure_def] at hmid
  cases hmid
  refine ⟨hb, _, hrd, ?_⟩
  split at h
  · rw [pure_def] at h
    cases h
    rfl
  · rw [pure_def] at h
    cases h
    rfl

/-- From the flag-chain result and a successful whole-record decode,
recover the runs of the two middle stages. -/
theorem parseTileData_stages {imps : List Bool} {s s₁ s' : PState}
    {f1 f2 f3 f4 : Nat} {t : Tile}
    (hf : readTileFlags s = (Except.ok (f1, f2, f3, f4), s₁))
    (hp : parseTileData imps s = (Except.ok t, s')) :
    ∃ t₁ s₂ s₃, mainStep imps f1 f3 emptyTile s₁ = (Except.ok t₁, s₂) ∧
      flags2Step f2 f3 f4 t₁ s₂ = (Except.ok t, s₃) := by
  unfold parseTileData at hp
  rw [bind_ok_fwd _ hf] at hp
  dsimp only at hp
  obtain ⟨t₁, s₂, hm, hp⟩ := bind_ok hp
  obtain ⟨t₂, s₃, hfl, hp⟩ := bind_ok hp
  obtain ⟨u, s₄, hr, hp⟩ := bind_ok hp
  rw [pure_def] at hp
  cases hp
  exact ⟨t₁, s₂, s₃, hm, hfl⟩

/-- C2 (counterexample). The record `[1, 1, 128]` reads flag bytes
`(1, 1, 128, 0)`: flag byte 3 exists and its bit 7 is set, yet the decoded
liquid kind is `none`, not the fourth special kind, because the 2-bit
liquid field is 0.  This refutes the claim's "regardless of the 2-bit
field's value". -/
theorem c2_counterexample :
    (match readTileFlags (st0 [1, 1, 128]) with
      | (Except.ok fs, _) => fs
      | (Except.error _, _) => (0, 0, 0, 0)) = (1, 1, 128, 0) ∧
    (128 : Nat) &&& 128 ≠ 0 ∧
    (match parseTileData [] (st0 [1, 1, 128]) with
      | (Except.ok t, _) => t.liquidType
      | (Except.error _, _) => some "unreached") = none := by
  decide

/-- C2 (amended). Liquid decoding of a tile record: when the record's
2-bit liquid field (bits 3-4 of flag byte 1) is 0 — or the whole
`flags1 > 1` block is skipped — no liquid kind and no depth are decoded,
even if flag byte 3 exists with bit 7 set; when the field is nonzero an
8-bit depth is read, and the kind is shimmer whenever flag byte 3 exists
and its bit 7 is set (regardless of which nonzero value the field has),
else water/lava/honey for field values 1/2/3. -/
theorem c2_liquid_amended {imps : List Bool} {s s₁ s' : PState}
    {f1 f2 f3 f4 : Nat} {t : Tile}
    (hf : readTileFlags s = (Except.ok (f1, f2, f3, f4), s₁))
    (hp : parseTileData imps s = (Except.ok t, s')) :
    (¬ 1 < f1 → t.liquidType = none ∧ t.liquidAmount = none) ∧
    (1 < f1 → (f1 &&& 24) >>> 3 = 0 → t.liquidType = none ∧ t.liquidAmount = none) ∧
    (1 < f1 → (f1 &&& 24) >>> 3 ≠ 0 →
      t.liquidAmount.isSome ∧
      t.liquidType = (if f3 ≠ 0 ∧ f3 &&& 128 ≠ 0 then some "shimmer"
        else match (f1 &&& 24) >>> 3 with
          | 1 => some "water"
          | 2 => some "lava"
          | 3 => some "honey"
          | _ => none)) := by
  obtain ⟨t₁, s₂, s₃, hm, hfl⟩ := parseTileData_stages hf hp
  obtain ⟨hflt, hfla⟩ := flags2Step_preserves_liquid hfl
  obtain ⟨hnone, hmain⟩ := mainStep_spec hm
  refine ⟨?_, ?_, ?_⟩
  · intro hle
    rw [hflt, hfla, hnone hle]
    exact ⟨rfl, rfl⟩
  · intro hgt hlt
    obtain ⟨hq, _, _⟩ := hmain hgt
    obtain ⟨h1, h2⟩ := hq hlt
    rw [hflt, hfla, h1, h2]
    exact ⟨rfl, rfl⟩
  · intro hgt hlt
    obtain ⟨_, hq, _⟩ := hmain hgt
    obtain ⟨ha, hty⟩ := hq hlt
    rw [hflt, hfla, hty]
    exact ⟨ha, rfl⟩

/-- The state after reading the four flag bytes of `[9, 1, 128, 7]`. -/
def stF9 : PState :=
  { buf := [9, 1, 128, 7], off := 3, ignoreBounds := false, rle := 0,
    hasCb := false, onePct := 0, nextPct := 0, percent := 0, plog := [] }

theorem c2_witness :
    (match parseTileData [] (st0 [9, 1, 128, 7]) with
      | (Except.ok t, _) => t.liquidType
      | (Except.error _, _) => none) = some "shimmer" := by
  have hok : (match parseTileData [] (st0 [9, 1, 128, 7]) with
      | (Except.ok _, _) => true
      | (Except.error _, _) => false) = true := by decide
  rcases hEq : parseTileData [] (st0 [9, 1, 128, 7]) with ⟨r0, s'⟩
  rw [hEq] at hok
  cases r0 with
  | error e => simp at hok
  | ok t =>
    have hf : readTileFlags (st0 [9, 1, 128, 7]) = (Except.ok (9, 1, 128, 0), stF9) := by decide
    have := (c2_liquid_amended hf hEq).2.2 (by omega) (by decide)
    show t.liquidType = some "shimmer"
    rw [this.2]
    decide

/-- C3 (counterexample). The record `[1, 1, 64, 5]` reads flag bytes
`(1, 1, 64, 0)`: bit 1 ("has wall") of flag byte 1 is clear, so no wall
was present, yet because flag byte 3's bit 6 is set the record gains
`wallId = (5 <<< 8) ||| 0 = 1280`.  This refutes the claim's "a record
with no wall field gains no wall-type id from this step". -/
theorem c3_counterexample :
    (match readTileFlags (st0 [1, 1, 64, 5]) with
      | (Except.ok fs, _) => fs
      | (Except.error _, _) => (0, 0, 0, 0)) = (1, 1, 64, 0) ∧
    (1 : Nat) &&& 4 = 0 ∧
    (match parseTileData [] (st0 [1, 1, 64, 5]) with
      | (Except.ok t, _) => t.wallId
      | (Except.error _, _) => none) = some 1280 := by
  decide

/-- C3 (amended). Wall-id high-byte combination: whenever flag byte 2 is
nonzero and flag byte 3 was read with bit 6 set, one additional byte is
read and combined as the high byte of the 16-bit wall id, the low byte
being the wall id read earlier in the record if a wall was present and 0
otherwise — the combination is applied regardless of wall presence, so a
record with no wall field gains wall id `hb <<< 8`. -/
theorem c3_wall_high_byte_amended {imps : List Bool} {s s₁ s' : PState}
    {f1 f2 f3 f4 : Nat} {t : Tile}
    (hf : readTileFlags s = (Except.ok (f1, f2, f3, f4), s₁))
    (hp : parseTileData imps s = (Except.ok t, s'))
    (hf2 : f2 ≠ 0) (h64 : f3 &&& 64 ≠ 0) :
    ∃ t₁ s₂ hb s₃, mainStep imps f1 f3 emptyTile s₁ = (Except.ok t₁, s₂) ∧
      readUInt8 s₂ = (Except.ok hb, s₃) ∧
      t.wallId = some ((hb <<< 8) ||| t₁.wallId.getD 0) ∧
      (f1 &&& 4 = 0 → t₁.wallId = none) := by
  obtain ⟨t₁, s₂, s₃, hm, hfl⟩ := parseTileData_stages hf hp
  obtain ⟨hb, sa, hrd, hwall⟩ := flags2Step_wallHigh hf2 h64 hfl
  refine ⟨t₁, s₂, hb, sa, hm, hrd, hwall, ?_⟩
  intro h4
  obtain ⟨hnone, hmain⟩ := mainStep_spec hm
  by_cases hgt : 1 < f1
  · obtain ⟨_, _, hw⟩ := hmain hgt
    rw [hw h4]
    rfl
  · rw [hnone hgt]
    rfl

/-- The state after reading the four flag bytes of `[1, 1, 64, 5]`. -/
def stF64 : PState :=
  { buf := [1, 1, 64, 5], off := 3, ignoreBounds := false, rle := 0,
    hasCb := false, onePct := 0, nextPct := 0, percent := 0, plog := [] }

theorem c3_witness :
    (match parseTileData [] (st0 [1, 1, 64, 5]) with
      | (Except.ok t, _) => t.wallId
      | (Except.error _, _) => none) = some ((5 <<< 8) ||| 0) := by
  have hok : (match parseTileData [] (st0 [1, 1, 64, 5]) with
      | (Except.ok _, _) => true
      | (Except.error _, _) => false) = true := by decide
  rcases hEq : parseTileData [] (st0 [1, 1, 64, 5]) with ⟨r0, s'⟩
  rw [hEq] at hok
  cases r0 with
  | error e => simp at hok
  | ok t =>
    have hf : readTileFlags (st0 [1, 1, 64, 5]) = (Except.ok (1, 1, 64, 0), stF64) := by decide
    obtain ⟨t₁, s₂, hb, s₃, hm, hrd, hwall, hnone⟩ :=
      c3_wall_high_byte_amended hf hEq (by omega) (by decide)
    have hm' : mainStep [] 1 64 emptyTile stF64 = (Except.ok emptyTile, stF64) := by decide
    rw [hm'] at hm
    have ht₁ : t₁ = emptyTile := by
      have := congrArg (fun p => match p.1 with | Except.ok v => v | _ => emptyTile) hm
      simpa using this.symm
    have hs₂ : s₂ = stF64 := by
      have := congrArg (fun p => p.2) hm
      simpa using this.symm
    have hrd' : readUInt8 stF64 = (Except.ok 5,
      { buf := [1, 1, 64, 5], off := 4, ignoreBounds := false, rle := 0,
        hasCb := false, onePct := 0, nextPct := 0, percent := 0, plog := [] }) := by decide
    rw [hs₂, hrd'] at hrd
    show t.wallId = some ((5 <<< 8) ||| 0)
    have hb5 : hb = 5 := by
      have := congrArg (fun p => match p.1 with | Except.ok v => v | _ => 0) hrd
      simpa using this.symm
    rw [hwall, ht₁, hb5]
    rfl

/-! ## Grid fill (`parseWorldTiles`, lines 591-606)

A column (`data[x] = new Array(height)`) is a `List (Option Tile)` of
`none` holes; a JavaScript assignment `data[x][i] = tile` either sets an
existing slot or extends the array with holes up to index `i`
(`colWrite`).  `colFill` is the `for (y …)` loop with its inner
`while (this.RLE > 0)` copy loop: the while loop performs
`RLE.toNat` copies and leaves `RLE - RLE.toNat` (0 when it was positive,
unchanged when not).  Besides the column, `colFill` returns the decode
log — one entry `(y, tile, runCount)` per physical record — and the final
`y` value, both ghost observations of the loop that the claims quantify
over.  The loop advances `y` by at least one per record, so a fuel of
`height` suffices and the no-fuel branch (a hard error) is unreachable. -/

def colWrite (l : List (Option Tile)) (i : Nat) (t : Tile) : List (Option Tile) :=
  if i < l.length then l.set i (some t)
  else l ++ List.replicate (i - l.length) none ++ [some t]

def colGet (l : List (Option Tile)) (j : Nat) : Option Tile := l[j]?.getD none

/-- The `while (this.RLE > 0)` body, iterated `n` times: copy `t` into
`y + 1`, advance `y`. -/
def rleCopy (t : Tile) : List (Option Tile) → Nat → Nat → List (Option Tile) × Nat
  | col, y, 0 => (col, y)
  | col, y, n + 1 => rleCopy t (colWrite col (y + 1) t) (y + 1) n

def colFill (imps : List Bool) (hh : Nat) :
    Nat → List (Option Tile) → Nat → M (List (Option Tile) × List (Nat × Tile × Nat) × Nat)
  | fuel, col, y =>
    if hh ≤ y then pure (col, [], y)
    else
      match fuel with
      | 0 => fun s => (Except.error "tile column: no fuel", s)
      | fuel' + 1 =>
        parseTileData imps >>= fun t =>
        getRLE >>= fun r =>
        setRLE (r - r.toNat) >>= fun _ =>
        (match rleCopy t (colWrite col y t) y r.toNat with
         | (col2, y2) =>
           colFill imps hh fuel' col2 (y2 + 1) >>= fun res =>
           pure (res.1, (y, t, r.toNat) :: res.2.1, res.2.2))

/-- The `for (x …)` loop: one fresh hole column per x. -/
def worldFill (imps : List Bool) (hh : Nat) :
    Nat → M (List (List (Option Tile) × List (Nat × Tile × Nat) × Nat))
  | 0 => pure []
  | n + 1 =>
    colFill imps hh hh (List.replicate hh none) 0 >>= fun c =>
    worldFill imps hh n >>= fun rest =>
    pure (c :: rest)

/-- `parseWorldTiles`: reset `RLE` to 0, then fill `width` columns. -/
def parseWorldTiles (imps : List Bool) (w hh : Nat) :
    M (List (List (Option Tile) × List (Nat × Tile × Nat) × Nat)) :=
  setRLE 0 >>= fun _ => worldFill imps hh w

theorem colGet_colWrite (l : List (Option Tile)) (i : Nat) (t : Tile) (j : Nat) :
    colGet (colWrite l i t) j = if j = i then some t else colGet l j := by
  unfold colWrite colGet
  by_cases hi : i < l.length
  · rw [if_pos hi]
    by_cases hj : j = i
    · subst hj
      rw [if_pos rfl, List.getElem?_set_eq_of_lt _ hi]
      rfl
    · rw [if_neg hj, List.getElem?_set_ne (fun h => hj h.symm)]
  · rw [if_neg hi]
    by_cases hj : j = i
    · subst hj
      rw [if_pos rfl, List.append_assoc, List.getElem?_append_right (by omega),
        List.getElem?_append_right (by simp)]
      simp
    · rw [if_neg hj]
      by_cases hjl : j < l.length
      · rw [List.append_assoc, List.getElem?_append_left hjl]
      · have h1 : l[j]? = none := List.getElem?_eq_none (by omega)
        rw [h1, List.append_assoc, List.getElem?_append_right (by omega)]
        by_cases hjr : j - l.length < i - l.length
        · rw [List.getElem?_append_left (by simp; omega), List.getElem?_replicate,
            if_pos (by omega)]
          rfl
        · rw [List.getElem?_eq_none (by simp; omega)]

theorem rleCopy_snd (t : Tile) :
    ∀ (n : Nat) (col : List (Option Tile)) (y : Nat), (rleCopy t col y n).2 = y + n := by
  intro n
  induction n with
  | zero => intro col y; rfl
  | succ k ih =>
    intro col y
    rw [rleCopy, ih]
    omega

theorem rleCopy_get (t : Tile) :
    ∀ (n : Nat) (col : List (Option Tile)) (y j : Nat),
      colGet (rleCopy t col y n).1 j =
        if y + 1 ≤ j ∧ j ≤ y + n then some t else colGet col j := by
  intro n
  induction n with
  | zero =>
    intro col y j
    rw [rleCopy, if_neg (by omega)]
  | succ k ih =>
    intro col y j
    rw [rleCopy, ih, colGet_colWrite]
    by_cases h1 : y + 1 + 1 ≤ j ∧ j ≤ y + 1 + k
    · rw [if_pos h1, if_pos (by omega)]
    · rw [if_neg h1]
      by_cases h2 : j = y + 1
      · rw [if_pos h2, if_pos (by omega)]
      · rw [if_neg h2, if_neg (by omega)]

theorem colFill_spec {imps : List Bool} {hh : Nat} :
    ∀ {fuel : Nat} {col : List (Option Tile)} {y : Nat} {s s' : PState}
      {col' : List (Option Tile)} {log : List (Nat × Tile × Nat)} {fy : Nat},
    colFill imps hh fuel col y s = (Except.ok (col', log, fy), s') →
    (∀ j, j < y → colGet col' j = colGet col j) ∧
    (∀ e ∈ log, y ≤ e.1) ∧
    fy = y + log.length + (log.map fun e => e.2.2).sum ∧
    (∀ e ∈ log, ∀ k, 1 ≤ k → k ≤ e.2.2 → colGet col' (e.1 + k) = some e.2.1) ∧
    hh ≤ fy := by
  intro fuel
  induction fuel with
  | zero =>
    intro col y s s' col' log fy hp
    rw [colFill] at hp
    split at hp
    · rw [pure_def] at hp
      cases hp
      refine ⟨fun j _ => rfl, by simp, by simp, by simp, by assumption⟩
    · cases hp
  | succ fuel ih =>
    intro col y s s' col' log fy hp
    rw [colFill] at hp
    split at hp
    · rw [pure_def] at hp
      cases hp
      refine ⟨fun j _ => rfl, by simp, by simp, by simp, by assumption⟩
    · rename_i hylt
      obtain ⟨t, s₁, hparse, hp⟩ := bind_ok hp
      obtain ⟨r, s₂, hget, hp⟩ := bind_ok hp
      obtain ⟨u, s₃, hset, hp⟩ := bind_ok hp
      rcases hrc : rleCopy t (colWrite col y t) y r.toNat with ⟨col2, y2⟩
      rw [hrc] at hp
      obtain ⟨res, s₄, hrec, hp⟩ := bind_ok hp
      rw [pure_def] at hp
      cases hp
      obtain ⟨p1, p2, p3, p4, p5⟩ := ih hrec
      have hy2 : y2 = y + r.toNat := by
        have hsnd := congrArg Prod.snd hrc
        simp only [] at hsnd
        rw [rleCopy_snd] at hsnd
        exact hsnd.symm
      have hcol2 : ∀ j, colGet col2 j =
          if y + 1 ≤ j ∧ j ≤ y + r.toNat then some t else colGet (colWrite col y t) j := by
        intro j
        have hfst := congrArg Prod.fst hrc
        simp only [] at hfst
        rw [← hfst, rleCopy_get]
      refine ⟨?_, ?_, ?_, ?_, p5⟩
      · intro j hj
        rw [p1 j (by omega), hcol2 j, if_neg (by omega), colGet_colWrite, if_neg (by omega)]
      · intro e he
        rcases List.mem_cons.mp he with he | he
        · subst he; exact le_refl y
        · have := p2 e he
          omega
      · rw [p3, hy2]
        simp only [List.length_cons, List.map_cons, List.sum_cons]
        ring
      · intro e he k hk1 hk2
        rcases List.mem_cons.mp he with he | he
        · subst he
          simp only [] at hk2 ⊢
          rw [p1 (y + k) (by omega), hcol2 (y + k), if_pos (by omega)]
        · exact p4 e he k hk1 hk2

theorem sum_map_add_nat {α : Type} (l : List α) (f g : α → Nat) :
    (l.map f).sum + (l.map g).sum = (l.map fun x => f x + g x).sum := by
  induction l with
  | nil => rfl
  | cons a l ih =>
    simp only [List.map_cons, List.sum_cons]
    rw [← ih]
    ring

theorem sum_map_congr_const {α : Type} (l : List α) (f : α → Nat) (c : Nat)
    (h : ∀ x ∈ l, f x = c) : (l.map f).sum = l.length * c := by
  induction l with
  | nil => simp
  | cons a l ih =>
    simp only [List.map_cons, List.sum_cons, List.length_cons]
    rw [h a (List.mem_cons_self a l), ih fun x hx => h x (List.mem_cons_of_mem a hx)]
    ring

theorem worldFill_spec {imps : List Bool} {hh : Nat} :
    ∀ {n : Nat} {s s' : PState}
      {cols : List (List (Option Tile) × List (Nat × Tile × Nat) × Nat)},
    worldFill imps hh n s = (Except.ok cols, s') →
    cols.length = n ∧
    ∀ c ∈ cols,
      (∀ e ∈ c.2.1, ∀ k, 1 ≤ k → k ≤ e.2.2 → colGet c.1 (e.1 + k) = some e.2.1) ∧
      c.2.2 = c.2.1.length + (c.2.1.map fun e => e.2.2).sum ∧
      hh ≤ c.2.2 := by
  intro n
  induction n with
  | zero =>
    intro s s' cols hp
    rw [worldFill, pure_def] at hp
    cases hp
    exact ⟨rfl, by simp⟩
  | succ k ih =>
    intro s s' cols hp
    rw [worldFill] at hp
    obtain ⟨c, s₁, hc, hp⟩ := bind_ok hp
    obtain ⟨rest, s₂, hrest, hp⟩ := bind_ok hp
    rw [pure_def] at hp
    cases hp
    obtain ⟨hlen, hall⟩ := ih hrest
    refine ⟨by simp [hlen], ?_⟩
    intro cc hcc
    rcases List.mem_cons.mp hcc with hcc | hcc
    · subst hcc
      obtain ⟨_, _, p3, p4, p5⟩ := colFill_spec hc
      exact ⟨p4, by simpa using p3, p5⟩
    · exact hall cc hcc

/-- C1. Run-length expansion invariant: in a fully successful grid decode
in which every column's fill loop lands exactly on `height` (i.e. no run
overshoots its column), every record `(y, tile, R)` of the decode log with
`R > 0` has the `R` column entries `(y+1) … (y+R)` equal, field for field,
to the record's tile, and the number of physical records (the total log
length) equals `width * height` minus the sum of all decoded run counts. -/
theorem c1_run_length_expansion {imps : List Bool} {w hh : Nat} {s s' : PState}
    {cols : List (List (Option Tile) × List (Nat × Tile × Nat) × Nat)}
    (hp : parseWorldTiles imps w hh s = (Except.ok cols, s'))
    (hexact : ∀ c ∈ cols, c.2.2 = hh) :
    (∀ c ∈ cols, ∀ e ∈ c.2.1, 0 < e.2.2 →
      ∀ k, 1 ≤ k → k ≤ e.2.2 → colGet c.1 (e.1 + k) = some e.2.1) ∧
    (cols.map fun c => c.2.1.length).sum +
      (cols.map fun c => (c.2.1.map fun e => e.2.2).sum).sum = w * hh ∧
    (cols.map fun c => c.2.1.length).sum =
      w * hh - (cols.map fun c => (c.2.1.map fun e => e.2.2).sum).sum := by
  unfold parseWorldTiles at hp
  obtain ⟨u, s₁, hset, hp⟩ := bind_ok hp
  obtain ⟨hlen, hall⟩ := worldFill_spec hp
  have hsum : ∀ c ∈ cols, c.2.1.length + (c.2.1.map fun e => e.2.2).sum = hh := by
    intro c hc
    have h1 := (hall c hc).2.1
    have h2 := hexact c hc
    rw [h1] at h2
    exact h2
  have key : (cols.map fun c => c.2.1.length).sum +
      (cols.map fun c => (c.2.1.map fun e => e.2.2).sum).sum = w * hh := by
    rw [sum_map_add_nat,
      sum_map_congr_const cols (fun c => c.2.1.length + (c.2.1.map fun e => e.2.2).sum) hh hsum,
      hlen]
  refine ⟨?_, key, by omega⟩
  intro c hc e he _ k hk1 hk2
  exact (hall c hc).1 e he k hk1 hk2

/-- A one-column two-row world whose single record `[64, 1]` carries a
run count of 1 (flag byte 1 = 64 selects an 8-bit run count, which is 1):
one physical record expands into both rows of the column. -/
theorem c1_witness :
    (∀ c ∈ [([some emptyTile, some emptyTile], [(0, emptyTile, 1)], 2)],
      ∀ e ∈ c.2.1, 0 < e.2.2 → ∀ k, 1 ≤ k → k ≤ e.2.2 →
        colGet c.1 (e.1 + k) = some e.2.1) ∧
    ([([some emptyTile, some emptyTile], [(0, emptyTile, 1)], 2)].map
        fun c => c.2.1.length).sum +
      ([([some emptyTile, some emptyTile], [(0, emptyTile, 1)], 2)].map
        fun c => (c.2.1.map fun e => e.2.2).sum).sum = 1 * 2 ∧
    ([([some emptyTile, some emptyTile], [(0, emptyTile, 1)], 2)].map
        fun c => c.2.1.length).sum =
      1 * 2 - ([([some emptyTile, some emptyTile], [(0, emptyTile, 1)], 2)].map
        fun c => (c.2.1.map fun e => e.2.2).sum).sum := by
  have hp : parseWorldTiles [] 1 2 (st0 [64, 1]) =
      (Except.ok [([some emptyTile, some emptyTile], [(0, emptyTile, 1)], 2)],
        { buf := [64, 1], off := 2, ignoreBounds := false, rle := 0,
          hasCb := false, onePct := 0, nextPct := 0, percent := 0, plog := [] }) := by
    decide
  exact c1_run_length_expansion hp (by decide)

/-! ## Rasterizer (`WldHandler.doConvert`, lines 1592-1619)

The per-cell color choice of the render loop, `cellColor`, is the direct
transcription of lines 1599-1612; the color tables are transcribed in
full.  JavaScript string truthiness (`else if (tile.liquidType)`) is
`strTruthy`; `TILE_COLORS[id] ?? [255,0,255]` is an association-list
lookup with a magenta default. -/

/-- `TILE_COLORS`: the static block-color table (all 478 entries). -/
def tileColorsList : List (Nat × Nat × Nat × Nat) := [
  (0, (151, 107, 75)),
  (1, (128, 128, 128)),
  (2, (28, 216, 94)),
  (3, (27, 197, 109)),
  (4, (253, 221, 3)),
  (5, (151, 107, 75)),
  (6, (140, 101, 80)),
  (7, (150, 67, 22)),
  (8, (185, 164, 23)),
  (9, (185, 194, 195)),
  (10, (119, 105, 79)),
  (11, (119, 105, 79)),
  (12, (174, 24, 69)),
  (13, (133, 213, 247)),
  (14, (191, 142, 111)),
  (15, (191, 142, 111)),
  (16, (140, 130, 116)),
  (17, (144, 148, 144)),
  (18, (191, 142, 111)),
  (19, (191, 142, 111)),
  (20, (163, 116, 81)),
  (21, (233, 207, 94)),
  (22, (98, 95, 167)),
  (23, (141, 137, 223)),
  (24, (122, 116, 218)),
  (25, (109, 90, 128)),
  (26, (119, 101, 125)),
  (27, (226, 196, 49)),
  (28, (151, 79, 80)),
  (29, (175, 105, 128)),
  (30, (170, 120, 84)),
  (31, (141, 120, 168)),
  (32, (151, 135, 183)),
  (33, (253, 221, 3)),
  (34, (235, 166, 135)),
  (35, (197, 216, 219)),
  (36, (230, 89, 92)),
  (37, (104, 86, 84)),
  (38, (144, 144, 144)),
  (39, (181, 62, 59)),
  (40, (146, 81, 68)),
  (41, (66, 84, 109)),
  (42, (251, 235, 127)),
  (43, (84, 100, 63)),
  (44, (107, 68, 99)),
  (45, (185, 164, 23)),
  (46, (185, 194, 195)),
  (47, (150, 67, 22)),
  (48, (128, 128, 128)),
  (49, (43, 143, 255)),
  (50, (170, 48, 114)),
  (51, (192, 202, 203)),
  (52, (23, 177, 76)),
  (53, (255, 218, 56)),
  (54, (200, 246, 254)),
  (55, (191, 142, 111)),
  (56, (43, 40, 84)),
  (57, (68, 68, 76)),
  (58, (142, 66, 66)),
  (59, (92, 68, 73)),
  (60, (143, 215, 29)),
  (61, (135, 196, 26)),
  (62, (121, 176, 24)),
  (63, (110, 140, 182)),
  (64, (196, 96, 114)),
  (65, (56, 150, 97)),
  (66, (160, 118, 58)),
  (67, (140, 58, 166)),
  (68, (125, 191, 197)),
  (69, (190, 150, 92)),
  (70, (93, 127, 255)),
  (71, (182, 175, 130)),
  (72, (182, 175, 130)),
  (73, (27, 197, 109)),
  (74, (96, 197, 27)),
  (75, (36, 36, 36)),
  (76, (142, 66, 66)),
  (77, (238, 85, 70)),
  (78, (121, 110, 97)),
  (79, (191, 142, 111)),
  (80, (73, 120, 17)),
  (81, (245, 133, 191)),
  (82, (255, 120, 0)),
  (83, (255, 120, 0)),
  (84, (255, 120, 0)),
  (85, (192, 192, 192)),
  (86, (191, 142, 111)),
  (87, (191, 142, 111)),
  (88, (191, 142, 111)),
  (89, (191, 142, 111)),
  (90, (144, 148, 144)),
  (91, (13, 88, 130)),
  (92, (213, 229, 237)),
  (93, (253, 221, 3)),
  (94, (191, 142, 111)),
  (95, (255, 162, 31)),
  (96, (144, 148, 144)),
  (97, (144, 148, 144)),
  (98, (253, 221, 3)),
  (99, (144, 148, 144)),
  (100, (253, 221, 3)),
  (101, (191, 142, 111)),
  (102, (229, 212, 73)),
  (103, (141, 98, 77)),
  (104, (191, 142, 111)),
  (105, (144, 148, 144)),
  (106, (191, 142, 111)),
  (107, (11, 80, 143)),
  (108, (91, 169, 169)),
  (109, (78, 193, 227)),
  (110, (48, 186, 135)),
  (111, (128, 26, 52)),
  (112, (103, 98, 122)),
  (113, (48, 208, 234)),
  (114, (191, 142, 111)),
  (115, (33, 171, 207)),
  (116, (238, 225, 218)),
  (117, (181, 172, 190)),
  (118, (238, 225, 218)),
  (119, (107, 92, 108)),
  (120, (92, 68, 73)),
  (121, (11, 80, 143)),
  (122, (91, 169, 169)),
  (123, (106, 107, 118)),
  (124, (73, 51, 36)),
  (125, (141, 175, 255)),
  (126, (159, 209, 229)),
  (127, (128, 204, 230)),
  (128, (191, 142, 111)),
  (129, (255, 117, 224)),
  (130, (160, 160, 160)),
  (131, (52, 52, 52)),
  (132, (144, 148, 144)),
  (133, (231, 53, 56)),
  (134, (166, 187, 153)),
  (135, (253, 114, 114)),
  (136, (213, 203, 204)),
  (137, (144, 148, 144)),
  (138, (96, 96, 96)),
  (139, (191, 142, 111)),
  (140, (98, 95, 167)),
  (141, (192, 59, 59)),
  (142, (144, 148, 144)),
  (143, (144, 148, 144)),
  (144, (144, 148, 144)),
  (145, (192, 30, 30)),
  (146, (43, 192, 30)),
  (147, (211, 236, 241)),
  (148, (181, 211, 210)),
  (149, (220, 50, 50)),
  (150, (128, 26, 52)),
  (151, (190, 171, 94)),
  (152, (128, 133, 184)),
  (153, (239, 141, 126)),
  (154, (190, 171, 94)),
  (155, (131, 162, 161)),
  (156, (170, 171, 157)),
  (157, (104, 100, 126)),
  (158, (145, 81, 85)),
  (159, (148, 133, 98)),
  (160, (0, 0, 200)),
  (161, (144, 195, 232)),
  (162, (184, 219, 240)),
  (163, (174, 145, 214)),
  (164, (218, 182, 204)),
  (165, (100, 100, 100)),
  (166, (129, 125, 93)),
  (167, (62, 82, 114)),
  (168, (132, 157, 127)),
  (169, (152, 171, 198)),
  (170, (228, 219, 162)),
  (171, (33, 135, 85)),
  (172, (181, 194, 217)),
  (173, (253, 221, 3)),
  (174, (253, 221, 3)),
  (175, (129, 125, 93)),
  (176, (132, 157, 127)),
  (177, (152, 171, 198)),
  (178, (255, 0, 255)),
  (179, (49, 134, 114)),
  (180, (126, 134, 49)),
  (181, (134, 59, 49)),
  (182, (43, 86, 140)),
  (183, (121, 49, 134)),
  (184, (100, 100, 100)),
  (185, (149, 149, 115)),
  (186, (255, 0, 255)),
  (187, (255, 0, 255)),
  (188, (73, 120, 17)),
  (189, (223, 255, 255)),
  (190, (182, 175, 130)),
  (191, (151, 107, 75)),
  (192, (26, 196, 84)),
  (193, (56, 121, 255)),
  (194, (157, 157, 107)),
  (195, (134, 22, 34)),
  (196, (147, 144, 178)),
  (197, (97, 200, 225)),
  (198, (62, 61, 52)),
  (199, (208, 80, 80)),
  (200, (216, 152, 144)),
  (201, (203, 61, 64)),
  (202, (213, 178, 28)),
  (203, (128, 44, 45)),
  (204, (125, 55, 65)),
  (205, (186, 50, 52)),
  (206, (124, 175, 201)),
  (207, (144, 148, 144)),
  (208, (88, 105, 118)),
  (209, (144, 148, 144)),
  (210, (192, 59, 59)),
  (211, (191, 233, 115)),
  (212, (144, 148, 144)),
  (213, (137, 120, 67)),
  (214, (103, 103, 103)),
  (215, (254, 121, 2)),
  (216, (191, 142, 111)),
  (217, (144, 148, 144)),
  (218, (144, 148, 144)),
  (219, (144, 148, 144)),
  (220, (144, 148, 144)),
  (221, (239, 90, 50)),
  (222, (231, 96, 228)),
  (223, (57, 85, 101)),
  (224, (107, 132, 139)),
  (225, (227, 125, 22)),
  (226, (141, 56, 0)),
  (227, (255, 255, 255)),
  (228, (144, 148, 144)),
  (229, (255, 156, 12)),
  (230, (131, 79, 13)),
  (231, (224, 194, 101)),
  (232, (145, 81, 85)),
  (233, (255, 0, 255)),
  (234, (53, 44, 41)),
  (235, (214, 184, 46)),
  (236, (149, 232, 87)),
  (237, (255, 241, 51)),
  (238, (225, 128, 206)),
  (239, (224, 194, 101)),
  (240, (99, 50, 30)),
  (241, (77, 74, 72)),
  (242, (99, 50, 30)),
  (243, (140, 179, 254)),
  (244, (200, 245, 253)),
  (245, (99, 50, 30)),
  (246, (99, 50, 30)),
  (247, (140, 150, 150)),
  (248, (219, 71, 38)),
  (249, (249, 52, 243)),
  (250, (76, 74, 83)),
  (251, (235, 150, 23)),
  (252, (153, 131, 44)),
  (253, (57, 48, 97)),
  (254, (248, 158, 92)),
  (255, (107, 49, 154)),
  (256, (154, 148, 49)),
  (257, (49, 49, 154)),
  (258, (49, 154, 68)),
  (259, (154, 49, 77)),
  (260, (85, 89, 118)),
  (261, (154, 83, 49)),
  (262, (221, 79, 255)),
  (263, (250, 255, 79)),
  (264, (79, 102, 255)),
  (265, (79, 255, 89)),
  (266, (255, 79, 79)),
  (267, (240, 240, 247)),
  (268, (255, 145, 79)),
  (269, (191, 142, 111)),
  (270, (122, 217, 232)),
  (271, (122, 217, 232)),
  (272, (121, 119, 101)),
  (273, (128, 128, 128)),
  (274, (190, 171, 94)),
  (275, (122, 217, 232)),
  (276, (122, 217, 232)),
  (277, (122, 217, 232)),
  (278, (122, 217, 232)),
  (279, (122, 217, 232)),
  (280, (122, 217, 232)),
  (281, (122, 217, 232)),
  (282, (122, 217, 232)),
  (283, (128, 128, 128)),
  (284, (150, 67, 22)),
  (285, (122, 217, 232)),
  (286, (122, 217, 232)),
  (287, (79, 128, 17)),
  (288, (122, 217, 232)),
  (289, (122, 217, 232)),
  (290, (122, 217, 232)),
  (291, (122, 217, 232)),
  (292, (122, 217, 232)),
  (293, (122, 217, 232)),
  (294, (122, 217, 232)),
  (295, (122, 217, 232)),
  (296, (122, 217, 232)),
  (297, (122, 217, 232)),
  (298, (122, 217, 232)),
  (299, (122, 217, 232)),
  (300, (144, 148, 144)),
  (301, (144, 148, 144)),
  (302, (144, 148, 144)),
  (303, (144, 148, 144)),
  (304, (144, 148, 144)),
  (305, (144, 148, 144)),
  (306, (144, 148, 144)),
  (307, (144, 148, 144)),
  (308, (144, 148, 144)),
  (309, (122, 217, 232)),
  (310, (122, 217, 232)),
  (311, (117, 61, 25)),
  (312, (204, 93, 73)),
  (313, (87, 150, 154)),
  (314, (181, 164, 125)),
  (315, (235, 114, 80)),
  (316, (122, 217, 232)),
  (317, (122, 217, 232)),
  (318, (122, 217, 232)),
  (319, (96, 68, 48)),
  (320, (203, 185, 151)),
  (321, (96, 77, 64)),
  (322, (198, 170, 104)),
  (323, (182, 141, 86)),
  (324, (228, 213, 173)),
  (325, (129, 125, 93)),
  (326, (9, 61, 191)),
  (327, (253, 32, 3)),
  (328, (200, 246, 254)),
  (329, (15, 15, 15)),
  (330, (226, 118, 76)),
  (331, (161, 172, 173)),
  (332, (204, 181, 72)),
  (333, (190, 190, 178)),
  (334, (191, 142, 111)),
  (335, (217, 174, 137)),
  (336, (253, 62, 3)),
  (337, (144, 148, 144)),
  (338, (85, 255, 160)),
  (339, (122, 217, 232)),
  (340, (96, 248, 2)),
  (341, (105, 74, 202)),
  (342, (29, 240, 255)),
  (343, (254, 202, 80)),
  (344, (131, 252, 245)),
  (345, (255, 156, 12)),
  (346, (149, 212, 89)),
  (347, (236, 74, 79)),
  (348, (44, 26, 233)),
  (349, (144, 148, 144)),
  (350, (55, 97, 155)),
  (351, (31, 31, 31)),
  (352, (238, 97, 94)),
  (353, (28, 216, 94)),
  (354, (141, 107, 89)),
  (355, (141, 107, 89)),
  (356, (233, 203, 24)),
  (357, (168, 178, 204)),
  (358, (122, 217, 232)),
  (359, (122, 217, 232)),
  (360, (122, 217, 232)),
  (361, (122, 217, 232)),
  (362, (122, 217, 232)),
  (363, (122, 217, 232)),
  (364, (122, 217, 232)),
  (365, (146, 136, 205)),
  (366, (223, 232, 233)),
  (367, (168, 178, 204)),
  (368, (50, 46, 104)),
  (369, (50, 46, 104)),
  (370, (127, 116, 194)),
  (371, (249, 101, 189)),
  (372, (252, 128, 201)),
  (373, (9, 61, 191)),
  (374, (253, 32, 3)),
  (375, (255, 156, 12)),
  (376, (160, 120, 92)),
  (377, (191, 142, 111)),
  (378, (160, 120, 100)),
  (379, (251, 209, 240)),
  (380, (191, 142, 111)),
  (381, (254, 121, 2)),
  (382, (28, 216, 94)),
  (383, (221, 136, 144)),
  (384, (131, 206, 12)),
  (385, (87, 21, 144)),
  (386, (127, 92, 69)),
  (387, (127, 92, 69)),
  (388, (127, 92, 69)),
  (389, (127, 92, 69)),
  (390, (253, 32, 3)),
  (391, (122, 217, 232)),
  (392, (122, 217, 232)),
  (393, (122, 217, 232)),
  (394, (122, 217, 232)),
  (395, (191, 142, 111)),
  (396, (198, 124, 78)),
  (397, (212, 192, 100)),
  (398, (100, 82, 126)),
  (399, (77, 76, 66)),
  (400, (96, 68, 117)),
  (401, (68, 60, 51)),
  (402, (174, 168, 186)),
  (403, (205, 152, 186)),
  (404, (140, 84, 60)),
  (405, (140, 140, 140)),
  (406, (120, 120, 120)),
  (407, (255, 227, 132)),
  (408, (85, 83, 82)),
  (409, (85, 83, 82)),
  (410, (75, 139, 166)),
  (411, (227, 46, 46)),
  (412, (75, 139, 166)),
  (413, (122, 217, 232)),
  (414, (122, 217, 232)),
  (415, (249, 75, 7)),
  (416, (0, 160, 170)),
  (417, (160, 87, 234)),
  (418, (22, 173, 254)),
  (419, (117, 125, 151)),
  (420, (255, 255, 255)),
  (421, (73, 70, 70)),
  (422, (73, 70, 70)),
  (423, (255, 255, 255)),
  (424, (146, 155, 187)),
  (425, (174, 195, 215)),
  (426, (77, 11, 35)),
  (427, (119, 22, 52)),
  (428, (255, 255, 255)),
  (429, (63, 63, 63)),
  (430, (23, 119, 79)),
  (431, (23, 54, 119)),
  (432, (119, 68, 23)),
  (433, (74, 23, 119)),
  (434, (78, 82, 109)),
  (435, (39, 168, 96)),
  (436, (39, 94, 168)),
  (437, (168, 121, 39)),
  (438, (111, 39, 168)),
  (439, (150, 148, 174)),
  (440, (255, 255, 255)),
  (441, (255, 255, 255)),
  (442, (3, 144, 201)),
  (443, (123, 123, 123)),
  (444, (191, 176, 124)),
  (445, (55, 55, 73)),
  (446, (255, 66, 152)),
  (447, (179, 132, 255)),
  (448, (0, 206, 180)),
  (449, (91, 186, 240)),
  (450, (92, 240, 91)),
  (451, (240, 91, 147)),
  (452, (255, 150, 181)),
  (453, (255, 255, 255)),
  (454, (174, 16, 176)),
  (455, (48, 255, 110)),
  (456, (179, 132, 255)),
  (457, (255, 255, 255)),
  (458, (211, 198, 111)),
  (459, (190, 223, 232)),
  (460, (141, 163, 181)),
  (461, (255, 222, 100)),
  (462, (231, 178, 28)),
  (463, (155, 214, 240)),
  (464, (233, 183, 128)),
  (465, (51, 84, 195)),
  (466, (205, 153, 73)),
  (467, (233, 207, 94)),
  (468, (255, 255, 255)),
  (469, (191, 142, 111)),
  (583, (113, 113, 113)),
  (584, (113, 113, 113)),
  (585, (113, 113, 113)),
  (587, (113, 113, 113)),
  (588, (113, 113, 113)),
  (589, (113, 113, 113)),
  (596, (110, 91, 77)),
  (616, (133, 79, 77))
]

/-- `WALL_COLORS`: the static wall-color table (all 367 entries). -/
def wallColorsList : List (Nat × Nat × Nat × Nat) := [
  (0, (0, 0, 0)),
  (1, (53, 53, 53)),
  (2, (87, 60, 48)),
  (3, (47, 41, 53)),
  (4, (69, 50, 37)),
  (5, (59, 59, 59)),
  (6, (76, 44, 41)),
  (7, (46, 50, 67)),
  (8, (49, 61, 61)),
  (9, (75, 46, 70)),
  (10, (107, 91, 34)),
  (11, (79, 85, 86)),
  (12, (101, 57, 25)),
  (13, (77, 48, 43)),
  (14, (12, 12, 12)),
  (15, (49, 43, 44)),
  (16, (81, 63, 54)),
  (17, (46, 50, 67)),
  (18, (49, 61, 61)),
  (19, (75, 46, 70)),
  (20, (12, 12, 12)),
  (21, (54, 89, 98)),
  (22, (97, 92, 94)),
  (23, (56, 44, 58)),
  (24, (49, 40, 42)),
  (25, (18, 66, 98)),
  (26, (34, 64, 54)),
  (27, (58, 48, 42)),
  (28, (77, 70, 81)),
  (29, (112, 58, 68)),
  (30, (56, 115, 80)),
  (31, (94, 101, 108)),
  (32, (102, 20, 48)),
  (33, (48, 48, 73)),
  (34, (86, 83, 57)),
  (35, (54, 59, 82)),
  (36, (124, 70, 63)),
  (37, (89, 84, 55)),
  (38, (60, 90, 70)),
  (39, (89, 89, 84)),
  (40, (100, 118, 129)),
  (41, (57, 55, 64)),
  (42, (62, 25, 27)),
  (43, (60, 55, 44)),
  (44, (51, 51, 51)),
  (45, (65, 63, 57)),
  (46, (68, 83, 69)),
  (47, (66, 70, 82)),
  (48, (78, 69, 83)),
  (49, (81, 74, 63)),
  (50, (56, 66, 81)),
  (51, (50, 73, 59)),
  (52, (82, 59, 64)),
  (53, (70, 79, 81)),
  (54, (46, 58, 54)),
  (55, (56, 56, 46)),
  (56, (57, 49, 49)),
  (57, (45, 51, 56)),
  (58, (56, 48, 59)),
  (59, (80, 63, 55)),
  (60, (0, 49, 17)),
  (61, (55, 40, 28)),
  (62, (32, 28, 22)),
  (63, (25, 67, 38)),
  (64, (47, 67, 25)),
  (65, (25, 67, 38)),
  (66, (25, 67, 38)),
  (67, (47, 67, 25)),
  (68, (25, 67, 38)),
  (69, (36, 37, 57)),
  (70, (25, 61, 67)),
  (71, (82, 108, 134)),
  (72, (45, 84, 24)),
  (73, (211, 217, 219)),
  (74, (54, 60, 113)),
  (75, (61, 61, 44)),
  (76, (26, 51, 111)),
  (77, (75, 18, 22)),
  (78, (58, 35, 24)),
  (79, (36, 33, 65)),
  (80, (54, 60, 113)),
  (81, (101, 52, 52)),
  (82, (56, 19, 0)),
  (83, (62, 44, 45)),
  (84, (78, 105, 131)),
  (85, (32, 39, 45)),
  (86, (121, 80, 36)),
  (87, (28, 8, 10)),
  (88, (115, 68, 124)),
  (89, (129, 114, 74)),
  (90, (62, 86, 123)),
  (91, (90, 121, 94)),
  (92, (135, 62, 61)),
  (93, (100, 96, 103)),
  (94, (36, 48, 57)),
  (95, (48, 46, 58)),
  (96, (71, 46, 73)),
  (97, (76, 46, 64)),
  (98, (51, 63, 57)),
  (99, (49, 58, 64)),
  (100, (36, 48, 57)),
  (101, (48, 46, 58)),
  (102, (71, 46, 73)),
  (103, (76, 46, 64)),
  (104, (51, 63, 57)),
  (105, (49, 58, 64)),
  (106, (97, 72, 51)),
  (107, (53, 53, 53)),
  (108, (121, 80, 36)),
  (109, (110, 37, 19)),
  (110, (135, 57, 137)),
  (111, (33, 25, 21)),
  (112, (28, 8, 10)),
  (113, (160, 75, 7)),
  (114, (54, 42, 19)),
  (115, (42, 30, 53)),
  (116, (60, 34, 25)),
  (117, (91, 83, 64)),
  (118, (59, 61, 54)),
  (119, (47, 39, 25)),
  (120, (80, 88, 111)),
  (121, (186, 167, 138)),
  (122, (110, 119, 143)),
  (123, (138, 128, 110)),
  (124, (7, 48, 30)),
  (125, (78, 103, 70)),
  (126, (109, 111, 123)),
  (127, (112, 166, 226)),
  (128, (69, 56, 140)),
  (129, (72, 44, 145)),
  (130, (114, 85, 121)),
  (131, (104, 119, 158)),
  (132, (74, 74, 74)),
  (133, (95, 119, 191)),
  (134, (144, 79, 22)),
  (135, (62, 130, 138)),
  (136, (61, 98, 169)),
  (137, (183, 84, 14)),
  (138, (61, 57, 69)),
  (139, (74, 32, 34)),
  (140, (110, 100, 76)),
  (141, (66, 70, 60)),
  (142, (214, 206, 187)),
  (143, (83, 106, 99)),
  (144, (89, 67, 68)),
  (145, (120, 120, 120)),
  (146, (103, 55, 24)),
  (147, (77, 77, 77)),
  (148, (229, 218, 161)),
  (149, (82, 70, 65)),
  (150, (81, 69, 62)),
  (151, (103, 76, 36)),
  (152, (103, 76, 36)),
  (153, (255, 116, 63)),
  (154, (191, 63, 255)),
  (155, (219, 219, 232)),
  (156, (63, 255, 71)),
  (157, (118, 63, 37)),
  (158, (81, 37, 118)),
  (159, (64, 67, 89)),
  (160, (37, 118, 52)),
  (161, (118, 37, 58)),
  (162, (37, 37, 118)),
  (163, (118, 113, 37)),
  (164, (255, 63, 63)),
  (165, (63, 81, 255)),
  (166, (239, 255, 63)),
  (167, (78, 77, 58)),
  (168, (84, 97, 84)),
  (169, (92, 105, 90)),
  (170, (93, 68, 47)),
  (171, (84, 60, 39)),
  (172, (168, 125, 0)),
  (173, (49, 105, 25)),
  (174, (69, 48, 54)),
  (175, (33, 50, 188)),
  (176, (75, 128, 148)),
  (177, (72, 50, 46)),
  (178, (120, 127, 143)),
  (179, (124, 131, 148)),
  (180, (15, 16, 45)),
  (181, (31, 31, 74)),
  (182, (57, 55, 99)),
  (183, (120, 127, 143)),
  (184, (15, 16, 45)),
  (185, (61, 61, 61)),
  (186, (55, 23, 100)),
  (187, (126, 68, 43)),
  (188, (63, 47, 63)),
  (189, (65, 51, 77)),
  (190, (67, 72, 59)),
  (191, (60, 38, 67)),
  (192, (123, 56, 47)),
  (193, (87, 24, 26)),
  (194, (102, 64, 53)),
  (195, (122, 46, 54)),
  (196, (99, 70, 55)),
  (197, (102, 73, 57)),
  (198, (92, 65, 49)),
  (199, (106, 75, 58)),
  (200, (81, 33, 83)),
  (201, (96, 79, 99)),
  (202, (124, 42, 104)),
  (203, (111, 54, 112)),
  (204, (75, 68, 55)),
  (205, (83, 83, 59)),
  (206, (39, 67, 44)),
  (207, (77, 77, 55)),
  (208, (92, 36, 28)),
  (209, (96, 48, 39)),
  (210, (108, 44, 26)),
  (211, (106, 42, 38)),
  (212, (70, 69, 61)),
  (213, (57, 60, 57)),
  (214, (69, 57, 59)),
  (215, (71, 60, 66)),
  (216, (148, 93, 52)),
  (217, (51, 38, 65)),
  (218, (43, 24, 22)),
  (219, (78, 73, 114)),
  (220, (54, 36, 68)),
  (221, (73, 18, 12)),
  (222, (58, 47, 81)),
  (223, (115, 65, 34)),
  (224, (103, 112, 104)),
  (225, (76, 71, 56)),
  (226, (133, 124, 66)),
  (227, (83, 101, 112)),
  (228, (139, 0, 64)),
  (229, (80, 12, 162)),
  (230, (0, 93, 81)),
  (231, (81, 68, 62)),
  (232, (37, 47, 57)),
  (233, (72, 53, 55)),
  (234, (103, 46, 48)),
  (235, (126, 68, 43)),
  (236, (63, 35, 34)),
  (237, (57, 34, 33)),
  (238, (45, 46, 54)),
  (239, (43, 52, 56)),
  (240, (62, 45, 33)),
  (241, (146, 95, 53)),
  (242, (78, 69, 55)),
  (243, (23, 52, 86)),
  (244, (58, 35, 24)),
  (245, (74, 74, 74)),
  (246, (47, 41, 53)),
  (247, (49, 43, 44)),
  (248, (77, 70, 81)),
  (249, (100, 118, 129)),
  (250, (78, 69, 83)),
  (251, (81, 74, 63)),
  (252, (56, 66, 81)),
  (253, (50, 73, 59)),
  (254, (82, 59, 64)),
  (255, (70, 79, 81)),
  (256, (46, 58, 54)),
  (257, (56, 56, 46)),
  (258, (57, 49, 49)),
  (259, (45, 51, 56)),
  (260, (56, 48, 59)),
  (261, (80, 63, 55)),
  (262, (55, 40, 28)),
  (263, (32, 28, 22)),
  (264, (36, 37, 57)),
  (265, (25, 61, 67)),
  (266, (82, 108, 134)),
  (267, (36, 33, 65)),
  (268, (101, 52, 52)),
  (269, (62, 44, 45)),
  (270, (93, 68, 47)),
  (271, (84, 60, 39)),
  (272, (120, 127, 143)),
  (273, (15, 16, 45)),
  (274, (61, 61, 61)),
  (275, (126, 68, 43)),
  (276, (63, 47, 63)),
  (277, (65, 51, 77)),
  (278, (67, 72, 59)),
  (279, (60, 38, 67)),
  (280, (123, 56, 47)),
  (281, (87, 24, 26)),
  (282, (102, 64, 53)),
  (283, (122, 46, 54)),
  (284, (99, 70, 55)),
  (285, (102, 73, 57)),
  (286, (92, 65, 49)),
  (287, (106, 75, 58)),
  (288, (81, 33, 83)),
  (289, (96, 79, 99)),
  (290, (124, 42, 104)),
  (291, (111, 54, 112)),
  (292, (75, 68, 55)),
  (293, (83, 83, 59)),
  (294, (39, 67, 44)),
  (295, (77, 77, 55)),
  (296, (92, 36, 28)),
  (297, (96, 48, 39)),
  (298, (108, 44, 26)),
  (299, (106, 42, 38)),
  (300, (70, 69, 61)),
  (301, (57, 60, 57)),
  (302, (69, 57, 59)),
  (303, (71, 60, 66)),
  (304, (148, 93, 52)),
  (305, (51, 38, 65)),
  (306, (43, 24, 22)),
  (307, (78, 73, 114)),
  (308, (54, 36, 68)),
  (309, (73, 18, 12)),
  (310, (58, 47, 81)),
  (311, (115, 65, 34)),
  (312, (36, 65, 16)),
  (313, (33, 61, 19)),
  (314, (74, 58, 44)),
  (315, (114, 120, 45)),
  (316, (58, 52, 64)),
  (317, (80, 70, 82)),
  (318, (6, 6, 34)),
  (319, (91, 48, 82)),
  (320, (66, 39, 27)),
  (321, (62, 83, 108)),
  (322, (58, 84, 115)),
  (323, (99, 94, 105)),
  (324, (80, 92, 104)),
  (325, (56, 95, 124)),
  (326, (92, 94, 80)),
  (327, (62, 102, 116)),
  (328, (98, 103, 105)),
  (329, (87, 92, 118)),
  (330, (84, 89, 105)),
  (331, (42, 44, 81)),
  (332, (34, 66, 26)),
  (333, (64, 25, 49)),
  (334, (76, 66, 32)),
  (335, (60, 65, 67)),
  (336, (76, 45, 32)),
  (337, (37, 36, 59)),
  (338, (57, 34, 32)),
  (339, (19, 43, 60)),
  (340, (42, 67, 60)),
  (341, (104, 23, 0)),
  (342, (91, 9, 65)),
  (343, (17, 89, 43)),
  (344, (5, 65, 94)),
  (345, (58, 6, 81)),
  (346, (255, 0, 255)),
  (347, (255, 0, 255)),
  (348, (255, 0, 255)),
  (349, (255, 0, 255)),
  (350, (255, 0, 255)),
  (351, (255, 0, 255)),
  (352, (255, 0, 255)),
  (353, (255, 0, 255)),
  (354, (255, 0, 255)),
  (355, (255, 0, 255)),
  (356, (255, 0, 255)),
  (357, (255, 0, 255)),
  (358, (255, 0, 255)),
  (359, (255, 0, 255)),
  (360, (255, 0, 255)),
  (361, (255, 0, 255)),
  (362, (255, 0, 255)),
  (363, (255, 0, 255)),
  (364, (255, 0, 255)),
  (365, (255, 0, 255)),
  (366, (255, 0, 255))
]

/-- `LIQUID_COLORS`: liquid-kind colors keyed by the kind string. -/
def liquidColorsList : List (String × Nat × Nat × Nat) := [
  ("water", (9, 61, 191)),
  ("lava", (200, 60, 10)),
  ("honey", (180, 140, 20)),
  ("shimmer", (180, 120, 220))
]

/-- The cyclic fallback palette `MOD_TILE_COLORS` for block ids above the
static table's range. -/
def modTileColors : List (Nat × Nat × Nat) :=
  [(160, 120, 120), (120, 160, 120), (120, 120, 160), (160, 160, 100),
   (100, 160, 160), (160, 100, 160), (140, 140, 120), (120, 140, 140)]

def bgSky : Nat × Nat × Nat := (91, 172, 255)

def bgUnderground : Nat × Nat × Nat := (73, 58, 50)

def bgCavern : Nat × Nat × Nat := (52, 40, 32)

def bgHell : Nat × Nat × Nat := (47, 18, 5)

def tileColors (b : Nat) : Option (Nat × Nat × Nat) := tileColorsList.lookup b

def wallColors (w : Nat) : Option (Nat × Nat × Nat) := wallColorsList.lookup w

def liquidColors (k : String) : Option (Nat × Nat × Nat) := liquidColorsList.lookup k

/-- JavaScript truthiness of the optional `liquidType` string. -/
def strTruthy : Option String → Bool
  | none => false
  | some s => !s.isEmpty

/-- Lines 1608-1611: the depth-band background rule. -/
def bgColor (surface rockLayer hellLayer : Int) (y : Nat) : Nat × Nat × Nat :=
  if (y : Int) < surface then bgSky
  else if (y : Int) < rockLayer then bgUnderground
  else if (y : Int) < hellLayer then bgCavern
  else bgHell

/-- Lines 1599-1612: the per-cell color, first match wins: block, liquid,
positive wall id, depth band. -/
def cellColor (surface rockLayer hellLayer : Int) (y : Nat) (t : Tile) : Nat × Nat × Nat :=
  match t.blockId with
  | some b =>
    if 419 < b then modTileColors.getD (b % modTileColors.length) (0, 0, 0)
    else (tileColors b).getD (255, 0, 255)
  | none =>
    if strTruthy t.liquidType then (liquidColors (t.liquidType.getD "")).getD (9, 61, 191)
    else
      match t.wallId with
      | some wid =>
        if 0 < wid then (wallColors wid).getD (60, 60, 60)
        else bgColor surface rockLayer hellLayer y
      | none => bgColor surface rockLayer hellLayer y

def blockRuleFires (t : Tile) : Prop := t.blockId.isSome = true

def liquidRuleFires (t : Tile) : Prop := t.blockId = none ∧ strTruthy t.liquidType = true

def wallRuleFires (t : Tile) : Prop :=
  t.blockId = none ∧ strTruthy t.liquidType = false ∧ ∃ wid, t.wallId = some wid ∧ 0 < wid

def bgRuleFires (t : Tile) : Prop :=
  t.blockId = none ∧ strTruthy t.liquidType = false ∧
    (t.wallId = none ∨ t.wallId = some 0)

/-- C6. Rasterizer precedence: for every cell, exactly one of the four
color rules fires, in strict order (block over liquid over wall over
depth band, with no blending), and `cellColor` returns that rule's color;
in particular a cell with a block id is colored by the block rule
whatever its liquid or wall fields hold. -/
theorem c6_rasterizer_precedence (surface rockLayer hellLayer : Int) (y : Nat) (t : Tile) :
    ((blockRuleFires t ∨ liquidRuleFires t ∨ wallRuleFires t ∨ bgRuleFires t) ∧
      (blockRuleFires t → ¬ liquidRuleFires t ∧ ¬ wallRuleFires t ∧ ¬ bgRuleFires t) ∧
      (liquidRuleFires t → ¬ wallRuleFires t ∧ ¬ bgRuleFires t) ∧
      (wallRuleFires t → ¬ bgRuleFires t)) ∧
    (∀ b, t.blockId = some b →
      cellColor surface rockLayer hellLayer y t =
        (if 419 < b then modTileColors.getD (b % modTileColors.length) (0, 0, 0)
         else (tileColors b).getD (255, 0, 255))) ∧
    (liquidRuleFires t →
      cellColor surface rockLayer hellLayer y t =
        (liquidColors (t.liquidType.getD "")).getD (9, 61, 191)) ∧
    (∀ wid, t.blockId = none → strTruthy t.liquidType = false →
      t.wallId = some wid → 0 < wid →
      cellColor surface rockLayer hellLayer y t = (wallColors wid).getD (60, 60, 60)) ∧
    (bgRuleFires t →
      cellColor surface rockLayer hellLayer y t = bgColor surface rockLayer hellLayer y) := by
  constructor
  · unfold blockRuleFires liquidRuleFires wallRuleFires bgRuleFires
    rcases hbid : t.blockId with _ | b
    · rcases hliq : strTruthy t.liquidType with _ | _
      · rcases hwid : t.wallId with _ | wid
        · simp [hbid, hliq, hwid]
        · by_cases hpos : 0 < wid
          · simp [hbid, hliq, hwid, hpos]
            omega
          · simp [hbid, hliq, hwid]
            omega
      · simp [hbid, hliq]
    · simp [hbid]
  refine ⟨?_, ?_, ?_, ?_⟩
  · intro b hb
    unfold cellColor
    rw [hb]
  · rintro ⟨hbid, hliq⟩
    unfold cellColor
    rw [hbid, if_pos hliq]
  · intro wid hbid hliq hwid hpos
    unfold cellColor
    rw [hbid, hliq, hwid]
    simp [hpos]
  · rintro ⟨hbid, hliq, hwid⟩
    unfold cellColor
    rw [hbid, hliq]
    rcases hwid with hwid | hwid
    · rw [hwid]
      simp
    · rw [hwid]
      simp

theorem c6_witness :
    cellColor 10 20 100 0
      { emptyTile with blockId := some 5, liquidType := some "water", wallId := some 3 } =
      (151, 107, 75) := by
  have := (c6_rasterizer_precedence 10 20 100 0
    { emptyTile with blockId := some 5, liquidType := some "water", wallId := some 3 }).2.1
      5 rfl
  rw [this]
  decide

/-- C7. Fallback palette rule: a cell whose block id exceeds 419 is
deterministically colored from the cyclic 8-entry fallback palette at
`id mod 8`, whose entries are never the magenta sentinel; for ids at most
419 the static table lookup applies, the magenta sentinel being only its
default for absent ids. -/
theorem c7_fallback_palette (surface rockLayer hellLayer : Int) (y : Nat) (t : Tile) (b : Nat)
    (hb : t.blockId = some b) :
    (419 < b →
      cellColor surface rockLayer hellLayer y t =
        modTileColors.getD (b % modTileColors.length) (0, 0, 0) ∧
      modTileColors.getD (b % modTileColors.length) (0, 0, 0) ≠ (255, 0, 255)) ∧
    (b ≤ 419 →
      cellColor surface rockLayer hellLayer y t = (tileColors b).getD (255, 0, 255)) ∧
    (b ≤ 419 → tileColors b = none →
      cellColor surface rockLayer hellLayer y t = (255, 0, 255)) ∧
    modTileColors.length = 8 := by
  have hrule := (c6_rasterizer_precedence surface rockLayer hellLayer y t).2.1 b hb
  refine ⟨?_, ?_, ?_, rfl⟩
  · intro hgt
    rw [hrule, if_pos hgt]
    refine ⟨rfl, ?_⟩
    have hlt : b % modTileColors.length < 8 := Nat.mod_lt _ (by decide)
    have hall : ∀ i, i < 8 → modTileColors.getD i (0, 0, 0) ≠ (255, 0, 255) := by decide
    exact hall _ hlt
  · intro hle
    rw [hrule, if_neg (by omega)]
  · intro hle habs
    rw [hrule, if_neg (by omega), habs]
    rfl

theorem c7_witness :
    cellColor 10 20 100 0 { emptyTile with blockId := some 999 } = (120, 140, 140) ∧
    (120, 140, 140) ≠ (255, 0, 255) := by
  have h := (c7_fallback_palette 10 20 100 0 { emptyTile with blockId := some 999 } 999 rfl).1
    (by omega)
  refine ⟨?_, by decide⟩
  rw [h.1]
  decide

/-! ## Header decoder (`parseHeader`, lines 320-513)

`parseHeader` is transcribed as eleven sequential chunks mirroring the
source's blocks; the `WorldHeader` record nests one sub-record per chunk,
with the three stand-alone version-conditional fields
(`afterPartyOfDoom`, `savedGolfer`, `downedDeerclops`) kept at top level.
Every field whose decoding is guarded by a version test is an `Option`
(`none` when the guard fails); `afterPartyOfDoom` is always assigned
(`false` below version 257), exactly as in the source.  String values are
kept as their byte lists and floats as raw bit patterns, as everywhere in
this file. -/

/-- `n` sequential `readInt32` calls. -/
def readIntList : Nat → M (List Int)
  | 0 => pure []
  | k + 1 => do
    let v ← readInt32
    let rest ← readIntList k
    pure (v :: rest)

/-- `n` sequential `readString()` calls. -/
def readStrList : Nat → M (List (List Nat))
  | 0 => pure []
  | k + 1 => do
    let v ← readStringVar
    let rest ← readStrList k
    pure (v :: rest)

/-- `for (let i = this.readInt32(); i > 0; --i) push(this.readString())`. -/
def readStrListCounted : M (List (List Nat)) := do
  let n ← readInt32
  readStrList n.toNat

/-- `for (let i = this.readInt32(); i > 0; i--) push(this.readInt32())`. -/
def readIntListCounted32 : M (List Int) := do
  let n ← readInt32
  readIntList n.toNat

/-- `for (let i = this.readInt16(); i > 0; i--) push(this.readInt32())`. -/
def readKillCounts : M (List Int) := do
  let n ← readInt16
  readIntList n.toNat

/-- A version-gated field: read it only when the gate holds, else absent. -/
def gatedField {β : Type} (c : Prop) [Decidable c] (x : M β) : M (Option β) :=
  if c then x >>= fun v => pure (some v) else pure none


/-- Lines 322-333. -/
structure HdrPart1 where
  mapName : List Nat
  seedText : List Nat
  worldGeneratorVersion : List Nat
  guid : List Nat
  guidString : String
  worldId : Int
  leftWorld : Int
  rightWorld : Int
  topWorld : Int
  bottomWorld : Int
  maxTilesY : Int
  maxTilesX : Int
deriving Repr, DecidableEq

def hdrPart1 : M HdrPart1 := do
  let mapName ← readStringVar
  let seedText ← readStringVar
  let worldGeneratorVersion ← readBytes 8
  let guid ← readBytes 16
  let guidString := parseGuid guid
  let worldId ← readInt32
  let leftWorld ← readInt32
  let rightWorld ← readInt32
  let topWorld ← readInt32
  let bottomWorld ← readInt32
  let maxTilesY ← readInt32
  let maxTilesX ← readInt32
  pure ⟨mapName, seedText, worldGeneratorVersion, guid, guidString, worldId, leftWorld, rightWorld, topWorld, bottomWorld, maxTilesY, maxTilesX⟩


/-- Lines 335-347: the version-225 game-mode block or the legacy
`expertMode` boolean — mutually exclusive shapes. -/
structure HdrPart2 where
  gameMode : Option Int
  drunkWorld : Option Bool
  getGoodWorld : Option Bool
  getTenthAnniversaryWorld : Option Bool
  dontStarveWorld : Option Bool
  notTheBeesWorld : Option Bool
  remixWorld : Option Bool
  noTrapsWorld : Option Bool
  zenithWorld : Option Bool
  expertMode : Option Bool
deriving Repr, DecidableEq

def hdrPart2 (v : Int) : M HdrPart2 :=
  if 225 ≤ v then do
    let gameMode ← readInt32
    let drunkWorld ← readBoolean
    let getGoodWorld ← gatedField (227 ≤ v) readBoolean
    let getTenthAnniversaryWorld ← gatedField (238 ≤ v) readBoolean
    let dontStarveWorld ← gatedField (239 ≤ v) readBoolean
    let notTheBeesWorld ← gatedField (241 ≤ v) readBoolean
    let remixWorld ← gatedField (249 ≤ v) readBoolean
    let noTrapsWorld ← gatedField (266 ≤ v) readBoolean
    let zenithWorld ← gatedField (267 ≤ v) readBoolean
    pure ⟨some gameMode, some drunkWorld, getGoodWorld, getTenthAnniversaryWorld,
      dontStarveWorld, notTheBeesWorld, remixWorld, noTrapsWorld, zenithWorld, none⟩
  else do
    let expertMode ← readBoolean
    pure ⟨none, none, none, none, none, none, none, none, none, some expertMode⟩


/-- Lines 349-392. -/
structure HdrPart3a where
  creationTime : List Nat
  moonType : Nat
  treeX : List Int
  treeStyle : List Int
  caveBackX : List Int
  caveBackStyle : List Int
  iceBackStyle : Int
  jungleBackStyle : Int
  hellBackStyle : Int
  spawnTileX : Int
  spawnTileY : Int
  worldSurface : Nat
  rockLayer : Nat
  tempTime : Nat
  tempDayTime : Bool
  tempMoonPhase : Int
  tempBloodMoon : Bool
  tempEclipse : Bool
  dungeonX : Int
  dungeonY : Int
  crimson : Bool
  downedBoss1 : Bool
  downedBoss2 : Bool
  downedBoss3 : Bool
  downedQueenBee : Bool
  downedMechBoss1 : Bool
  downedMechBoss2 : Bool
  downedMechBoss3 : Bool
  downedMechBossAny : Bool
  downedPlantBoss : Bool
  downedGolemBoss : Bool
  downedSlimeKing : Bool
  savedGoblin : Bool
  savedWizard : Bool
  savedMech : Bool
  downedGoblins : Bool
  downedClown : Bool
  downedFrost : Bool
  downedPirates : Bool
  shadowOrbSmashed : Bool
  spawnMeteor : Bool
  shadowOrbCount : Nat
  altarCount : Int
  hardMode : Bool
deriving Repr, DecidableEq

def hdrPart3a : M HdrPart3a := do
  let creationTime ← readBytes 8
  let moonType ← readUInt8
  let treeX ← readIntList 3
  let treeStyle ← readIntList 4
  let caveBackX ← readIntList 3
  let caveBackStyle ← readIntList 4
  let iceBackStyle ← readInt32
  let jungleBackStyle ← readInt32
  let hellBackStyle ← readInt32
  let spawnTileX ← readInt32
  let spawnTileY ← readInt32
  let worldSurface ← readFloat64
  let rockLayer ← readFloat64
  let tempTime ← readFloat64
  let tempDayTime ← readBoolean
  let tempMoonPhase ← readInt32
  let tempBloodMoon ← readBoolean
  let tempEclipse ← readBoolean
  let dungeonX ← readInt32
  let dungeonY ← readInt32
  let crimson ← readBoolean
  let downedBoss1 ← readBoolean
  let downedBoss2 ← readBoolean
  let downedBoss3 ← readBoolean
  let downedQueenBee ← readBoolean
  let downedMechBoss1 ← readBoolean
  let downedMechBoss2 ← readBoolean
  let downedMechBoss3 ← readBoolean
  let downedMechBossAny ← readBoolean
  let downedPlantBoss ← readBoolean
  let downedGolemBoss ← readBoolean
  let downedSlimeKing ← readBoolean
  let savedGoblin ← readBoolean
  let savedWizard ← readBoolean
  let savedMech ← readBoolean
  let downedGoblins ← readBoolean
  let downedClown ← readBoolean
  let downedFrost ← readBoolean
  let downedPirates ← readBoolean
  let shadowOrbSmashed ← readBoolean
  let spawnMeteor ← readBoolean
  let shadowOrbCount ← readUInt8
  let altarCount ← readInt32
  let hardMode ← readBoolean
  pure ⟨creationTime, moonType, treeX, treeStyle, caveBackX, caveBackStyle, iceBackStyle, jungleBackStyle, hellBackStyle, spawnTileX, spawnTileY, worldSurface, rockLayer, tempTime, tempDayTime, tempMoonPhase, tempBloodMoon, tempEclipse, dungeonX, dungeonY, crimson, downedBoss1, downedBoss2, downedBoss3, downedQueenBee, downedMechBoss1, downedMechBoss2, downedMechBoss3, downedMechBossAny, downedPlantBoss, downedGolemBoss, downedSlimeKing, savedGoblin, savedWizard, savedMech, downedGoblins, downedClown, downedFrost, downedPirates, shadowOrbSmashed, spawnMeteor, shadowOrbCount, altarCount, hardMode⟩


/-- Line 393: `afterPartyOfDoom` is always assigned — a stream read at or
above version 257, the constant `false` below. -/
def afterPartyStep (v : Int) : M (Option Bool) :=
  (if 257 ≤ v then readBoolean else pure false) >>= fun b => pure (some b)


/-- Lines 394-412. -/
structure HdrPart3b where
  invasionDelay : Int
  invasionSize : Int
  invasionType : Int
  invasionX : Nat
  slimeRainTime : Nat
  sundialCooldown : Nat
  tempRaining : Bool
  tempRainTime : Int
  tempMaxRain : Nat
  oreTier1 : Int
  oreTier2 : Int
  oreTier3 : Int
  setBG0 : Nat
  setBG1 : Nat
  setBG2 : Nat
  setBG3 : Nat
  setBG4 : Nat
  setBG5 : Nat
  setBG6 : Nat
  setBG7 : Nat
  cloudBGActive : Int
  numClouds : Int
  windSpeed : Nat
deriving Repr, DecidableEq

def hdrPart3b : M HdrPart3b := do
  let invasionDelay ← readInt32
  let invasionSize ← readInt32
  let invasionType ← readInt32
  let invasionX ← readFloat64
  let slimeRainTime ← readFloat64
  let sundialCooldown ← readUInt8
  let tempRaining ← readBoolean
  let tempRainTime ← readInt32
  let tempMaxRain ← readFloat32
  let oreTier1 ← readInt32
  let oreTier2 ← readInt32
  let oreTier3 ← readInt32
  let setBG0 ← readUInt8
  let setBG1 ← readUInt8
  let setBG2 ← readUInt8
  let setBG3 ← readUInt8
  let setBG4 ← readUInt8
  let setBG5 ← readUInt8
  let setBG6 ← readUInt8
  let setBG7 ← readUInt8
  let cloudBGActive ← readInt32
  let numClouds ← readInt16
  let windSpeed ← readFloat32
  pure ⟨invasionDelay, invasionSize, invasionType, invasionX, slimeRainTime, sundialCooldown, tempRaining, tempRainTime, tempMaxRain, oreTier1, oreTier2, oreTier3, setBG0, setBG1, setBG2, setBG3, setBG4, setBG5, setBG6, setBG7, cloudBGActive, numClouds, windSpeed⟩


/-- Lines 414-421. -/
structure HdrPart4a where
  anglerWhoFinishedToday : List (List Nat)
  savedAngler : Bool
  anglerQuest : Int
  savedStylist : Bool
  savedTaxCollector : Bool
deriving Repr, DecidableEq

def hdrPart4a : M HdrPart4a := do
  let anglerWhoFinishedToday ← readStrListCounted
  let savedAngler ← readBoolean
  let anglerQuest ← readInt32
  let savedStylist ← readBoolean
  let savedTaxCollector ← readBoolean
  pure ⟨anglerWhoFinishedToday, savedAngler, anglerQuest, savedStylist, savedTaxCollector⟩


/-- Lines 424-427. -/
structure HdrPart4b where
  invasionSizeStart : Int
  tempCultistDelay : Int
  killCount : List Int
deriving Repr, DecidableEq

def hdrPart4b : M HdrPart4b := do
  let invasionSizeStart ← readInt32
  let tempCultistDelay ← readInt32
  let killCount ← readKillCounts
  pure ⟨invasionSizeStart, tempCultistDelay, killCount⟩


/-- Lines 429-462. -/
structure HdrPart5 where
  fastForwardTimeToDawn : Bool
  downedFishron : Bool
  downedMartians : Bool
  downedAncientCultist : Bool
  downedMoonlord : Bool
  downedHalloweenKing : Bool
  downedHalloweenTree : Bool
  downedChristmasIceQueen : Bool
  downedChristmasSantank : Bool
  downedChristmasTree : Bool
  downedTowerSolar : Bool
  downedTowerVortex : Bool
  downedTowerNebula : Bool
  downedTowerStardust : Bool
  TowerActiveSolar : Bool
  TowerActiveVortex : Bool
  TowerActiveNebula : Bool
  TowerActiveStardust : Bool
  LunarApocalypseIsUp : Bool
  tempPartyManual : Bool
  tempPartyGenuine : Bool
  tempPartyCooldown : Int
  tempPartyCelebratingNPCs : List Int
  Temp_Sandstorm_Happening : Bool
  Temp_Sandstorm_TimeLeft : Int
  Temp_Sandstorm_Severity : Nat
  Temp_Sandstorm_IntendedSeverity : Nat
  savedBartender : Bool
  DD2Event_DownedInvasionT1 : Bool
  DD2Event_DownedInvasionT2 : Bool
  DD2Event_DownedInvasionT3 : Bool
deriving Repr, DecidableEq

def hdrPart5 : M HdrPart5 := do
  let fastForwardTimeToDawn ← readBoolean
  let downedFishron ← readBoolean
  let downedMartians ← readBoolean
  let downedAncientCultist ← readBoolean
  let downedMoonlord ← readBoolean
  let downedHalloweenKing ← readBoolean
  let downedHalloweenTree ← readBoolean
  let downedChristmasIceQueen ← readBoolean
  let downedChristmasSantank ← readBoolean
  let downedChristmasTree ← readBoolean
  let downedTowerSolar ← readBoolean
  let downedTowerVortex ← readBoolean
  let downedTowerNebula ← readBoolean
  let downedTowerStardust ← readBoolean
  let TowerActiveSolar ← readBoolean
  let TowerActiveVortex ← readBoolean
  let TowerActiveNebula ← readBoolean
  let TowerActiveStardust ← readBoolean
  let LunarApocalypseIsUp ← readBoolean
  let tempPartyManual ← readBoolean
  let tempPartyGenuine ← readBoolean
  let tempPartyCooldown ← readInt32
  let tempPartyCelebratingNPCs ← readIntListCounted32
  let Temp_Sandstorm_Happening ← readBoolean
  let Temp_Sandstorm_TimeLeft ← readInt32
  let Temp_Sandstorm_Severity ← readFloat32
  let Temp_Sandstorm_IntendedSeverity ← readFloat32
  let savedBartender ← readBoolean
  let DD2Event_DownedInvasionT1 ← readBoolean
  let DD2Event_DownedInvasionT2 ← readBoolean
  let DD2Event_DownedInvasionT3 ← readBoolean
  pure ⟨fastForwardTimeToDawn, downedFishron, downedMartians, downedAncientCultist, downedMoonlord, downedHalloweenKing, downedHalloweenTree, downedChristmasIceQueen, downedChristmasSantank, downedChristmasTree, downedTowerSolar, downedTowerVortex, downedTowerNebula, downedTowerStardust, TowerActiveSolar, TowerActiveVortex, TowerActiveNebula, TowerActiveStardust, LunarApocalypseIsUp, tempPartyManual, tempPartyGenuine, tempPartyCooldown, tempPartyCelebratingNPCs, Temp_Sandstorm_Happening, Temp_Sandstorm_TimeLeft, Temp_Sandstorm_Severity, Temp_Sandstorm_IntendedSeverity, savedBartender, DD2Event_DownedInvasionT1, DD2Event_DownedInvasionT2, DD2Event_DownedInvasionT3⟩


/-- Lines 464-487, gated on version 225 (field values, read when the gate holds). -/
structure HdrPart6Body where
  setBG8 : Nat
  setBG9 : Nat
  setBG10 : Nat
  setBG11 : Nat
  setBG12 : Nat
  combatBookWasUsed : Bool
  lanternNightCooldown : Int
  lanternNightGenuine : Bool
  lanternNightManual : Bool
  lanternNightNextNightIsGenuine : Bool
  treeTopsVariations : List Int
  forceHalloweenForToday : Bool
  forceXMasForToday : Bool
  savedOreTierCopper : Int
  savedOreTierIron : Int
  savedOreTierSilver : Int
  savedOreTierGold : Int
  boughtCat : Bool
  boughtDog : Bool
  boughtBunny : Bool
  downedEmpressOfLight : Bool
  downedQueenSlime : Bool
deriving Repr, DecidableEq

def hdrPart6Body : M HdrPart6Body := do
  let setBG8 ← readUInt8
  let setBG9 ← readUInt8
  let setBG10 ← readUInt8
  let setBG11 ← readUInt8
  let setBG12 ← readUInt8
  let combatBookWasUsed ← readBoolean
  let lanternNightCooldown ← readInt32
  let lanternNightGenuine ← readBoolean
  let lanternNightManual ← readBoolean
  let lanternNightNextNightIsGenuine ← readBoolean
  let treeTopsVariations ← readIntListCounted32
  let forceHalloweenForToday ← readBoolean
  let forceXMasForToday ← readBoolean
  let savedOreTierCopper ← readInt32
  let savedOreTierIron ← readInt32
  let savedOreTierSilver ← readInt32
  let savedOreTierGold ← readInt32
  let boughtCat ← readBoolean
  let boughtDog ← readBoolean
  let boughtBunny ← readBoolean
  let downedEmpressOfLight ← readBoolean
  let downedQueenSlime ← readBoolean
  pure ⟨setBG8, setBG9, setBG10, setBG11, setBG12, combatBookWasUsed, lanternNightCooldown, lanternNightGenuine, lanternNightManual, lanternNightNextNightIsGenuine, treeTopsVariations, forceHalloweenForToday, forceXMasForToday, savedOreTierCopper, savedOreTierIron, savedOreTierSilver, savedOreTierGold, boughtCat, boughtDog, boughtBunny, downedEmpressOfLight, downedQueenSlime⟩

/-- Lines 464-487, gated on version 225: every field gated together. -/
structure HdrPart6 where
  setBG8 : Option (Nat)
  setBG9 : Option (Nat)
  setBG10 : Option (Nat)
  setBG11 : Option (Nat)
  setBG12 : Option (Nat)
  combatBookWasUsed : Option (Bool)
  lanternNightCooldown : Option (Int)
  lanternNightGenuine : Option (Bool)
  lanternNightManual : Option (Bool)
  lanternNightNextNightIsGenuine : Option (Bool)
  treeTopsVariations : Option (List Int)
  forceHalloweenForToday : Option (Bool)
  forceXMasForToday : Option (Bool)
  savedOreTierCopper : Option (Int)
  savedOreTierIron : Option (Int)
  savedOreTierSilver : Option (Int)
  savedOreTierGold : Option (Int)
  boughtCat : Option (Bool)
  boughtDog : Option (Bool)
  boughtBunny : Option (Bool)
  downedEmpressOfLight : Option (Bool)
  downedQueenSlime : Option (Bool)
deriving Repr, DecidableEq

def hdrPart6Some (r : HdrPart6Body) : HdrPart6 :=
  ⟨some r.setBG8, some r.setBG9, some r.setBG10, some r.setBG11, some r.setBG12, some r.combatBookWasUsed, some r.lanternNightCooldown, some r.lanternNightGenuine, some r.lanternNightManual, some r.lanternNightNextNightIsGenuine, some r.treeTopsVariations, some r.forceHalloweenForToday, some r.forceXMasForToday, some r.savedOreTierCopper, some r.savedOreTierIron, some r.savedOreTierSilver, some r.savedOreTierGold, some r.boughtCat, some r.boughtDog, some r.boughtBunny, some r.downedEmpressOfLight, some r.downedQueenSlime⟩

def hdrPart6None : HdrPart6 :=
  ⟨none, none, none, none, none, none, none, none, none, none, none, none, none, none, none, none, none, none, none, none, none, none⟩

def hdrPart6 (v : Int) : M HdrPart6 :=
  if 225 ≤ v then hdrPart6Body >>= fun r => pure (hdrPart6Some r)
  else pure hdrPart6None


/-- Lines 489-510, gated on version 269 (field values, read when the gate holds). -/
structure HdrPart8Body where
  unlockedSlimeBlueSpawn : Bool
  unlockedMerchantSpawn : Bool
  unlockedDemolitionistSpawn : Bool
  unlockedPartyGirlSpawn : Bool
  unlockedDyeTraderSpawn : Bool
  unlockedTruffleSpawn : Bool
  unlockedArmsDealerSpawn : Bool
  unlockedNurseSpawn : Bool
  unlockedPrincessSpawn : Bool
  combatBookVolumeTwoWasUsed : Bool
  peddlersSatchelWasUsed : Bool
  unlockedSlimeGreenSpawn : Bool
  unlockedSlimeOldSpawn : Bool
  unlockedSlimePurpleSpawn : Bool
  unlockedSlimeRainbowSpawn : Bool
  unlockedSlimeRedSpawn : Bool
  unlockedSlimeYellowSpawn : Bool
  unlockedSlimeCopperSpawn : Bool
  fastForwardTimeToDusk : Bool
  moondialCooldown : Nat
deriving Repr, DecidableEq

def hdrPart8Body : M HdrPart8Body := do
  let unlockedSlimeBlueSpawn ← readBoolean
  let unlockedMerchantSpawn ← readBoolean
  let unlockedDemolitionistSpawn ← readBoolean
  let unlockedPartyGirlSpawn ← readBoolean
  let unlockedDyeTraderSpawn ← readBoolean
  let unlockedTruffleSpawn ← readBoolean
  let unlockedArmsDealerSpawn ← readBoolean
  let unlockedNurseSpawn ← readBoolean
  let unlockedPrincessSpawn ← readBoolean
  let combatBookVolumeTwoWasUsed ← readBoolean
  let peddlersSatchelWasUsed ← readBoolean
  let unlockedSlimeGreenSpawn ← readBoolean
  let unlockedSlimeOldSpawn ← readBoolean
  let unlockedSlimePurpleSpawn ← readBoolean
  let unlockedSlimeRainbowSpawn ← readBoolean
  let unlockedSlimeRedSpawn ← readBoolean
  let unlockedSlimeYellowSpawn ← readBoolean
  let unlockedSlimeCopperSpawn ← readBoolean
  let fastForwardTimeToDusk ← readBoolean
  let moondialCooldown ← readUInt8
  pure ⟨unlockedSlimeBlueSpawn, unlockedMerchantSpawn, unlockedDemolitionistSpawn, unlockedPartyGirlSpawn, unlockedDyeTraderSpawn, unlockedTruffleSpawn, unlockedArmsDealerSpawn, unlockedNurseSpawn, unlockedPrincessSpawn, combatBookVolumeTwoWasUsed, peddlersSatchelWasUsed, unlockedSlimeGreenSpawn, unlockedSlimeOldSpawn, unlockedSlimePurpleSpawn, unlockedSlimeRainbowSpawn, unlockedSlimeRedSpawn, unlockedSlimeYellowSpawn, unlockedSlimeCopperSpawn, fastForwardTimeToDusk, moondialCooldown⟩

/-- Lines 489-510, gated on version 269: every field gated together. -/
structure HdrPart8 where
  unlockedSlimeBlueSpawn : Option (Bool)
  unlockedMerchantSpawn : Option (Bool)
  unlockedDemolitionistSpawn : Option (Bool)
  unlockedPartyGirlSpawn : Option (Bool)
  unlockedDyeTraderSpawn : Option (Bool)
  unlockedTruffleSpawn : Option (Bool)
  unlockedArmsDealerSpawn : Option (Bool)
  unlockedNurseSpawn : Option (Bool)
  unlockedPrincessSpawn : Option (Bool)
  combatBookVolumeTwoWasUsed : Option (Bool)
  peddlersSatchelWasUsed : Option (Bool)
  unlockedSlimeGreenSpawn : Option (Bool)
  unlockedSlimeOldSpawn : Option (Bool)
  unlockedSlimePurpleSpawn : Option (Bool)
  unlockedSlimeRainbowSpawn : Option (Bool)
  unlockedSlimeRedSpawn : Option (Bool)
  unlockedSlimeYellowSpawn : Option (Bool)
  unlockedSlimeCopperSpawn : Option (Bool)
  fastForwardTimeToDusk : Option (Bool)
  moondialCooldown : Option (Nat)
deriving Repr, DecidableEq

def hdrPart8Some (r : HdrPart8Body) : HdrPart8 :=
  ⟨some r.unlockedSlimeBlueSpawn, some r.unlockedMerchantSpawn, some r.unlockedDemolitionistSpawn, some r.unlockedPartyGirlSpawn, some r.unlockedDyeTraderSpawn, some r.unlockedTruffleSpawn, some r.unlockedArmsDealerSpawn, some r.unlockedNurseSpawn, some r.unlockedPrincessSpawn, some r.combatBookVolumeTwoWasUsed, some r.peddlersSatchelWasUsed, some r.unlockedSlimeGreenSpawn, some r.unlockedSlimeOldSpawn, some r.unlockedSlimePurpleSpawn, some r.unlockedSlimeRainbowSpawn, some r.unlockedSlimeRedSpawn, some r.unlockedSlimeYellowSpawn, some r.unlockedSlimeCopperSpawn, some r.fastForwardTimeToDusk, some r.moondialCooldown⟩

def hdrPart8None : HdrPart8 :=
  ⟨none, none, none, none, none, none, none, none, none, none, none, none, none, none, none, none, none, none, none, none⟩

def hdrPart8 (v : Int) : M HdrPart8 :=
  if 269 ≤ v then hdrPart8Body >>= fun r => pure (hdrPart8Some r)
  else pure hdrPart8None


/-- The decoded world header: the eleven chunks in stream order. -/
structure WorldHeader where
  p1 : HdrPart1
  p2 : HdrPart2
  p3a : HdrPart3a
  afterPartyOfDoom : Option Bool
  p3b : HdrPart3b
  p4a : HdrPart4a
  savedGolfer : Option Bool
  p4b : HdrPart4b
  p5 : HdrPart5
  p6 : HdrPart6
  downedDeerclops : Option Bool
  p8 : HdrPart8
deriving Repr, DecidableEq

/-- `parseHeader`, as the strictly ordered single pass over the chunks. -/
def parseHeader (v : Int) : M WorldHeader := do
  let p1 ← hdrPart1
  let p2 ← hdrPart2 v
  let p3a ← hdrPart3a
  let ap ← afterPartyStep v
  let p3b ← hdrPart3b
  let p4a ← hdrPart4a
  let golfer ← gatedField (225 ≤ v) readBoolean
  let p4b ← hdrPart4b
  let p5 ← hdrPart5
  let p6 ← hdrPart6 v
  let deerclops ← gatedField (240 ≤ v) readBoolean
  let p8 ← hdrPart8 v
  pure ⟨p1, p2, p3a, ap, p3b, p4a, golfer, p4b, p5, p6, deerclops, p8⟩

theorem gatedField_spec {β : Type} {c : Prop} [Decidable c] {x : M β} {s s' : PState}
    {o : Option β} (h : gatedField c x s = (Except.ok o, s')) :
    (o.isSome = true ↔ c) ∧ (¬ c → o = none) := by
  unfold gatedField at h
  split at h
  · rename_i hc
    obtain ⟨w, s₁, hx, h⟩ := bind_ok h
    rw [pure_def] at h
    cases h
    exact ⟨iff_of_true rfl hc, fun hn => absurd hc hn⟩
  · rename_i hc
    rw [pure_def] at h
    cases h
    exact ⟨iff_of_false (by simp) hc, fun _ => rfl⟩

theorem hdrPart2_spec {v : Int} {s s' : PState} {p2 : HdrPart2}
    (h : hdrPart2 v s = (Except.ok p2, s')) :
    (p2.gameMode.isSome = true ↔ 225 ≤ v) ∧
    (p2.drunkWorld.isSome = true ↔ 225 ≤ v) ∧
    (p2.getGoodWorld.isSome = true ↔ 227 ≤ v) ∧
    (p2.getTenthAnniversaryWorld.isSome = true ↔ 238 ≤ v) ∧
    (p2.dontStarveWorld.isSome = true ↔ 239 ≤ v) ∧
    (p2.notTheBeesWorld.isSome = true ↔ 241 ≤ v) ∧
    (p2.remixWorld.isSome = true ↔ 249 ≤ v) ∧
    (p2.noTrapsWorld.isSome = true ↔ 266 ≤ v) ∧
    (p2.zenithWorld.isSome = true ↔ 267 ≤ v) ∧
    (p2.expertMode.isSome = true ↔ v < 225) := by
  unfold hdrPart2 at h
  split at h
  · rename_i hv
    obtain ⟨gm, s1, h1, h⟩ := bind_ok h
    obtain ⟨dr, s2, h2, h⟩ := bind_ok h
    obtain ⟨gg, s3, h3, h⟩ := bind_ok h
    obtain ⟨ta, s4, h4, h⟩ := bind_ok h
    obtain ⟨ds, s5, h5, h⟩ := bind_ok h
    obtain ⟨nb, s6, h6, h⟩ := bind_ok h
    obtain ⟨rx, s7, h7, h⟩ := bind_ok h
    obtain ⟨nt, s8, h8, h⟩ := bind_ok h
    obtain ⟨zw, s9, h9, h⟩ := bind_ok h
    rw [pure_def] at h
    cases h
    exact ⟨iff_of_true rfl hv, iff_of_true rfl hv,
      (gatedField_spec h3).1, (gatedField_spec h4).1, (gatedField_spec h5).1,
      (gatedField_spec h6).1, (gatedField_spec h7).1, (gatedField_spec h8).1,
      (gatedField_spec h9).1, iff_of_false (by simp) (by omega)⟩
  · rename_i hv
    obtain ⟨e, s1, h1, h⟩ := bind_ok h
    rw [pure_def] at h
    cases h
    exact ⟨iff_of_false (by simp) hv, iff_of_false (by simp) hv,
      iff_of_false (by simp) (by omega), iff_of_false (by simp) (by omega),
      iff_of_false (by simp) (by omega), iff_of_false (by simp) (by omega),
      iff_of_false (by simp) (by omega), iff_of_false (by simp) (by omega),
      iff_of_false (by simp) (by omega), iff_of_true rfl (by omega)⟩

theorem afterPartyStep_spec {v : Int} {s s' : PState} {o : Option Bool}
    (h : afterPartyStep v s = (Except.ok o, s')) :
    o.isSome = true ∧ (v < 257 → o = some false) := by
  unfold afterPartyStep at h
  obtain ⟨b, s1, hb, h⟩ := bind_ok h
  rw [pure_def] at h
  cases h
  refine ⟨rfl, ?_⟩
  intro hv
  rw [if_neg (by omega), pure_def] at hb
  cases hb
  rfl

theorem hdrPart6_spec {v : Int} {s s' : PState} {p : HdrPart6}
    (h : hdrPart6 v s = (Except.ok p, s')) :
    (225 ≤ v → ∃ r, p = hdrPart6Some r) ∧ (v < 225 → p = hdrPart6None) := by
  unfold hdrPart6 at h
  split at h
  · rename_i hv
    obtain ⟨r, s1, hr, h⟩ := bind_ok h
    rw [pure_def] at h
    cases h
    exact ⟨fun _ => ⟨r, rfl⟩, fun hlt => absurd hv (by omega)⟩
  · rename_i hv
    rw [pure_def] at h
    cases h
    exact ⟨fun hge => absurd hge hv, fun _ => rfl⟩

theorem hdrPart8_spec {v : Int} {s s' : PState} {p : HdrPart8}
    (h : hdrPart8 v s = (Except.ok p, s')) :
    (269 ≤ v → ∃ r, p = hdrPart8Some r) ∧ (v < 269 → p = hdrPart8None) := by
  unfold hdrPart8 at h
  split at h
  · rename_i hv
    obtain ⟨r, s1, hr, h⟩ := bind_ok h
    rw [pure_def] at h
    cases h
    exact ⟨fun _ => ⟨r, rfl⟩, fun hlt => absurd hv (by omega)⟩
  · rename_i hv
    rw [pure_def] at h
    cases h
    exact ⟨fun hge => absurd hge hv, fun _ => rfl⟩

/-- C4 (amended). Header version gating without default substitution
holds for every gated field except `afterPartyOfDoom`: for any successful
header decode, each gated field is present exactly when the structural
version reaches its gate (and absent — `none`, no default — below it),
while `afterPartyOfDoom` is always present and carries the substituted
default `false` below version 257. -/
theorem c4_version_gating_amended {v : Int} {s s' : PState} {h : WorldHeader}
    (hp : parseHeader v s = (Except.ok h, s')) :
    ((h.p2.gameMode.isSome = true ↔ 225 ≤ v) ∧
      (h.p2.drunkWorld.isSome = true ↔ 225 ≤ v) ∧
      (h.p2.getGoodWorld.isSome = true ↔ 227 ≤ v) ∧
      (h.p2.getTenthAnniversaryWorld.isSome = true ↔ 238 ≤ v) ∧
      (h.p2.dontStarveWorld.isSome = true ↔ 239 ≤ v) ∧
      (h.p2.notTheBeesWorld.isSome = true ↔ 241 ≤ v) ∧
      (h.p2.remixWorld.isSome = true ↔ 249 ≤ v) ∧
      (h.p2.noTrapsWorld.isSome = true ↔ 266 ≤ v) ∧
      (h.p2.zenithWorld.isSome = true ↔ 267 ≤ v) ∧
      (h.p2.expertMode.isSome = true ↔ v < 225)) ∧
    (h.savedGolfer.isSome = true ↔ 225 ≤ v) ∧
    (225 ≤ v → ∃ r, h.p6 = hdrPart6Some r) ∧
    (v < 225 → h.p6 = hdrPart6None) ∧
    (h.downedDeerclops.isSome = true ↔ 240 ≤ v) ∧
    (269 ≤ v → ∃ r, h.p8 = hdrPart8Some r) ∧
    (v < 269 → h.p8 = hdrPart8None) ∧
    h.afterPartyOfDoom.isSome = true ∧
    (v < 257 → h.afterPartyOfDoom = some false) := by
  unfold parseHeader at hp
  obtain ⟨p1, t1, e1, hp⟩ := bind_ok hp
  obtain ⟨p2, t2, e2, hp⟩ := bind_ok hp
  obtain ⟨p3a, t3, e3, hp⟩ := bind_ok hp
  obtain ⟨ap, t4, e4, hp⟩ := bind_ok hp
  obtain ⟨p3b, t5, e5, hp⟩ := bind_ok hp
  obtain ⟨p4a, t6, e6, hp⟩ := bind_ok hp
  obtain ⟨golfer, t7, e7, hp⟩ := bind_ok hp
  obtain ⟨p4b, t8, e8, hp⟩ := bind_ok hp
  obtain ⟨p5, t9, e9, hp⟩ := bind_ok hp
  obtain ⟨p6, t10, e10, hp⟩ := bind_ok hp
  obtain ⟨deerclops, t11, e11, hp⟩ := bind_ok hp
  obtain ⟨p8, t12, e12, hp⟩ := bind_ok hp
  rw [pure_def] at hp
  cases hp
  obtain ⟨hap1, hap2⟩ := afterPartyStep_spec e4
  exact ⟨hdrPart2_spec e2, (gatedField_spec e7).1,
    (hdrPart6_spec e10).1, fun hlt => (hdrPart6_spec e10).2 hlt,
    (gatedField_spec e11).1,
    (hdrPart8_spec e12).1, fun hlt => (hdrPart8_spec e12).2 hlt,
    hap1, hap2⟩

/-! ### Decoding over an all-zero stream

Concrete witnesses for the header claims use buffers of zero bytes.  The
following "zero-buffer" calculus proves, symbolically, that each reader
succeeds on such a buffer, consumes a fixed number of bytes, and leaves a
plain strict-mode state — avoiding any heavyweight kernel evaluation of
the 400-byte header parse. -/

/-- A strict-mode state over `buf` at offset `k`. -/
def mkZ (buf : List Nat) (k : Nat) : PState :=
  { buf := buf, off := k, ignoreBounds := false, rle := 0,
    hasCb := false, onePct := 0, nextPct := 0, percent := 0, plog := [] }

theorem st0_eq_mkZ (buf : List Nat) : st0 buf = mkZ buf 0 := rfl

theorem setOff_mkZ (buf : List Nat) (k n : Nat) : setOff n (mkZ buf k) = mkZ buf n := rfl

/-- An all-zero buffer: every in-range byte (and the `getD` default) is 0. -/
def AllZero (buf : List Nat) : Prop := ∀ i, buf.getD i 0 = 0

theorem allZero_replicate (n : Nat) : AllZero (List.replicate n 0) := by
  intro i
  rw [List.getD_eq_getElem?_getD, List.getElem?_replicate]
  split <;> rfl

/-- `x` succeeds on an all-zero buffer with enough room, consuming
exactly `n` bytes. -/
def ZC {α : Type} (x : M α) (n : Nat) : Prop :=
  ∀ buf k, AllZero buf → k + n ≤ buf.length →
    ∃ a, x (mkZ buf k) = (Except.ok a, mkZ buf (k + n))

theorem zc_eq {α : Type} {x : M α} {n m : Nat} (h : ZC x n) (he : n = m) : ZC x m :=
  he ▸ h

theorem zc_bind {α β : Type} {x : M α} {f : α → M β} {n m : Nat}
    (hx : ZC x n) (hf : ∀ a, ZC (f a) m) : ZC (x >>= f) (n + m) := by
  intro buf k hz hlen
  obtain ⟨a, ha⟩ := hx buf k hz (by omega)
  obtain ⟨b, hb⟩ := hf a buf (k + n) hz (by omega)
  refine ⟨b, ?_⟩
  rw [bind_ok_fwd _ ha, hb, Nat.add_assoc]

theorem zc_pure {α : Type} (a : α) : ZC (pure a : M α) 0 := by
  intro buf k hz hlen
  exact ⟨a, by rw [pure_def, Nat.add_zero]⟩

theorem leU_allZero {buf : List Nat} (hz : AllZero buf) :
    ∀ (w k : Nat), leU buf k w = 0 := by
  intro w
  induction w with
  | zero => intro k; rfl
  | succ u ih =>
    intro k
    rw [leU, hz k, ih (k + 1)]

theorem zcv_readPrim {buf : List Nat} (w k : Nat) (hz : AllZero buf)
    (hlen : k + w ≤ buf.length) :
    readPrim w (mkZ buf k) = (Except.ok 0, mkZ buf (k + w)) := by
  unfold readPrim
  have hb : ¬ buf.length < k + w := by omega
  have hib : (mkZ buf k).ignoreBounds = false := rfl
  rw [if_neg (by rw [hib]; simp [hb]), if_neg (by exact hb)]
  rw [show (mkZ buf k).buf = buf from rfl, show (mkZ buf k).off = k from rfl,
    leU_allZero hz, setOff_mkZ]

theorem zcv_readUInt8 {buf : List Nat} (k : Nat) (hz : AllZero buf)
    (hlen : k + 1 ≤ buf.length) :
    readUInt8 (mkZ buf k) = (Except.ok 0, mkZ buf (k + 1)) :=
  zcv_readPrim 1 k hz hlen

theorem zcv_readInt16 {buf : List Nat} (k : Nat) (hz : AllZero buf)
    (hlen : k + 2 ≤ buf.length) :
    readInt16 (mkZ buf k) = (Except.ok 0, mkZ buf (k + 2)) := by
  unfold readInt16
  rw [zcv_readPrim 2 k hz hlen]
  norm_num [toSigned]

theorem zcv_readInt32 {buf : List Nat} (k : Nat) (hz : AllZero buf)
    (hlen : k + 4 ≤ buf.length) :
    readInt32 (mkZ buf k) = (Except.ok 0, mkZ buf (k + 4)) := by
  unfold readInt32
  rw [zcv_readPrim 4 k hz hlen]
  norm_num [toSigned]

theorem zcv_readBoolean {buf : List Nat} (k : Nat) (hz : AllZero buf)
    (hlen : k + 1 ≤ buf.length) :
    readBoolean (mkZ buf k) = (Except.ok false, mkZ buf (k + 1)) := by
  unfold readBoolean
  rw [bind_ok_fwd _ (zcv_readUInt8 k hz hlen), pure_def]
  rfl

theorem zcv_readVarLen {buf : List Nat} (k : Nat) (hz : AllZero buf)
    (hlen : k + 1 ≤ buf.length) :
    readVarLen (mkZ buf k) = (Except.ok 0, mkZ buf (k + 1)) := by
  unfold readVarLen
  show readVarLenAux (buf.length + 1 + 1) 0 0 (mkZ buf k) = _
  rw [readVarLenAux]
  rw [bind_ok_fwd _ (zcv_readUInt8 k hz hlen)]
  norm_num
  rfl

theorem zc_readUInt8 : ZC readUInt8 1 := fun buf k hz hlen =>
  ⟨0, zcv_readUInt8 k hz hlen⟩

theorem zc_readUInt16 : ZC readUInt16 2 := fun buf k hz hlen =>
  ⟨0, zcv_readPrim 2 k hz hlen⟩

theorem zc_readUInt32 : ZC readUInt32 4 := fun buf k hz hlen =>
  ⟨0, zcv_readPrim 4 k hz hlen⟩

theorem zc_readFloat32 : ZC readFloat32 4 := fun buf k hz hlen =>
  ⟨0, zcv_readPrim 4 k hz hlen⟩

theorem zc_readFloat64 : ZC readFloat64 8 := fun buf k hz hlen =>
  ⟨0, zcv_readPrim 8 k hz hlen⟩

theorem zc_readInt16 : ZC readInt16 2 := fun buf k hz hlen =>
  ⟨0, zcv_readInt16 k hz hlen⟩

theorem zc_readInt32 : ZC readInt32 4 := fun buf k hz hlen =>
  ⟨0, zcv_readInt32 k hz hlen⟩

theorem zc_readBoolean : ZC readBoolean 1 := fun buf k hz hlen =>
  ⟨false, zcv_readBoolean k hz hlen⟩

theorem zc_readBytes : ∀ c, ZC (readBytes c) c := by
  intro c
  induction c with
  | zero => exact zc_pure []
  | succ u ih =>
    have : ZC (readBytes (u + 1)) (1 + (u + 0)) := by
      rw [readBytes]
      exact zc_bind zc_readUInt8 fun b => zc_bind ih fun rest => zc_pure _
    exact zc_eq this (by omega)

theorem zc_readStringVar : ZC readStringVar 1 := by
  intro buf k hz hlen
  unfold readStringVar
  rw [bind_ok_fwd _ (zcv_readVarLen k hz hlen)]
  exact zc_readBytes 0 buf (k + 1) hz (by omega)

theorem zc_readIntList : ∀ c, ZC (readIntList c) (4 * c) := by
  intro c
  induction c with
  | zero => exact zc_pure []
  | succ u ih =>
    have : ZC (readIntList (u + 1)) (4 + (4 * u + 0)) := by
      rw [readIntList]
      exact zc_bind zc_readInt32 fun v => zc_bind ih fun rest => zc_pure _
    exact zc_eq this (by ring)

theorem zc_readStrList : ∀ c, ZC (readStrList c) c := by
  intro c
  induction c with
  | zero => exact zc_pure []
  | succ u ih =>
    have : ZC (readStrList (u + 1)) (1 + (u + 0)) := by
      rw [readStrList]
      exact zc_bind zc_readStringVar fun v => zc_bind ih fun rest => zc_pure _
    exact zc_eq this (by omega)

theorem zc_readStrListCounted : ZC readStrListCounted 4 := by
  intro buf k hz hlen
  unfold readStrListCounted
  rw [bind_ok_fwd _ (zcv_readInt32 k hz (by omega))]
  exact zc_readStrList (Int.toNat 0) buf (k + 4) hz (by omega)

theorem zc_readIntListCounted32 : ZC readIntListCounted32 4 := by
  intro buf k hz hlen
  unfold readIntListCounted32
  rw [bind_ok_fwd _ (zcv_readInt32 k hz (by omega))]
  exact zc_readIntList (Int.toNat 0) buf (k + 4) hz (by omega)

theorem zc_readKillCounts : ZC readKillCounts 2 := by
  intro buf k hz hlen
  unfold readKillCounts
  rw [bind_ok_fwd _ (zcv_readInt16 k hz (by omega))]
  exact zc_readIntList (Int.toNat 0) buf (k + 2) hz (by omega)

theorem zc_gatedField_pos {β : Type} {c : Prop} [Decidable c] {x : M β} {n : Nat}
    (hc : c) (hx : ZC x n) : ZC (gatedField c x) n := by
  unfold gatedField
  rw [if_pos hc]
  exact zc_eq (zc_bind hx fun v => zc_pure (some v)) (by omega)

theorem zc_gatedField_neg {β : Type} {c : Prop} [Decidable c] {x : M β}
    (hc : ¬ c) : ZC (gatedField c x) 0 := by
  unfold gatedField
  rw [if_neg hc]
  exact zc_pure none

theorem zc_hdrPart1 : ZC hdrPart1 54 := by
  have hch : ZC hdrPart1 (1 + (1 + (8 + (16 + (4 + (4 + (4 + (4 + (4 + (4 + (4 + 0))))))))))) := by
    unfold hdrPart1
    exact zc_bind zc_readStringVar fun a0 =>
      zc_bind zc_readStringVar fun a1 =>
      zc_bind (zc_readBytes 8) fun a2 =>
      zc_bind (zc_readBytes 16) fun a3 =>
      zc_bind zc_readInt32 fun a4 =>
      zc_bind zc_readInt32 fun a5 =>
      zc_bind zc_readInt32 fun a6 =>
      zc_bind zc_readInt32 fun a7 =>
      zc_bind zc_readInt32 fun a8 =>
      zc_bind zc_readInt32 fun a9 =>
      zc_bind zc_readInt32 fun a10 =>
      zc_pure _
  exact zc_eq hch (by norm_num)

theorem zc_hdrPart3a : ZC hdrPart3a 151 := by
  have hch : ZC hdrPart3a (8 + (1 + (4 * 3 + (4 * 4 + (4 * 3 + (4 * 4 + (4 + (4 + (4 + (4 + (4 + (8 + (8 + (8 + (1 + (4 + (1 + (1 + (4 + (4 + (1 + (1 + (1 + (1 + (1 + (1 + (1 + (1 + (1 + (1 + (1 + (1 + (1 + (1 + (1 + (1 + (1 + (1 + (1 + (1 + (1 + (1 + (4 + (1 + 0)))))))))))))))))))))))))))))))))))))))))))) := by
    unfold hdrPart3a
    exact zc_bind (zc_readBytes 8) fun a0 =>
      zc_bind zc_readUInt8 fun a1 =>
      zc_bind (zc_readIntList 3) fun a2 =>
      zc_bind (zc_readIntList 4) fun a3 =>
      zc_bind (zc_readIntList 3) fun a4 =>
      zc_bind (zc_readIntList 4) fun a5 =>
      zc_bind zc_readInt32 fun a6 =>
      zc_bind zc_readInt32 fun a7 =>
      zc_bind zc_readInt32 fun a8 =>
      zc_bind zc_readInt32 fun a9 =>
      zc_bind zc_readInt32 fun a10 =>
      zc_bind zc_readFloat64 fun a11 =>
      zc_bind zc_readFloat64 fun a12 =>
      zc_bind zc_readFloat64 fun a13 =>
      zc_bind zc_readBoolean fun a14 =>
      zc_bind zc_readInt32 fun a15 =>
      zc_bind zc_readBoolean fun a16 =>
      zc_bind zc_readBoolean fun a17 =>
      zc_bind zc_readInt32 fun a18 =>
      zc_bind zc_readInt32 fun a19 =>
      zc_bind zc_readBoolean fun a20 =>
      zc_bind zc_readBoolean fun a21 =>
      zc_bind zc_readBoolean fun a22 =>
      zc_bind zc_readBoolean fun a23 =>
      zc_bind zc_readBoolean fun a24 =>
      zc_bind zc_readBoolean fun a25 =>
      zc_bind zc_readBoolean fun a26 =>
      zc_bind zc_readBoolean fun a27 =>
      zc_bind zc_readBoolean fun a28 =>
      zc_bind zc_readBoolean fun a29 =>
      zc_bind zc_readBoolean fun a30 =>
      zc_bind zc_readBoolean fun a31 =>
      zc_bind zc_readBoolean fun a32 =>
      zc_bind zc_readBoolean fun a33 =>
      zc_bind zc_readBoolean fun a34 =>
      zc_bind zc_readBoolean fun a35 =>
      zc_bind zc_readBoolean fun a36 =>
      zc_bind zc_readBoolean fun a37 =>
      zc_bind zc_readBoolean fun a38 =>
      zc_bind zc_readBoolean fun a39 =>
      zc_bind zc_readBoolean fun a40 =>
      zc_bind zc_readUInt8 fun a41 =>
      zc_bind zc_readInt32 fun a42 =>
      zc_bind zc_readBoolean fun a43 =>
      zc_pure _
  exact zc_eq hch (by norm_num)

theorem zc_hdrPart3b : ZC hdrPart3b 68 := by
  have hch : ZC hdrPart3b (4 + (4 + (4 + (8 + (8 + (1 + (1 + (4 + (4 + (4 + (4 + (4 + (1 + (1 + (1 + (1 + (1 + (1 + (1 + (1 + (4 + (2 + (4 + 0))))))))))))))))))))))) := by
    unfold hdrPart3b
    exact zc_bind zc_readInt32 fun a0 =>
      zc_bind zc_readInt32 fun a1 =>
      zc_bind zc_readInt32 fun a2 =>
      zc_bind zc_readFloat64 fun a3 =>
      zc_bind zc_readFloat64 fun a4 =>
      zc_bind zc_readUInt8 fun a5 =>
      zc_bind zc_readBoolean fun a6 =>
      zc_bind zc_readInt32 fun a7 =>
      zc_bind zc_readFloat32 fun a8 =>
      zc_bind zc_readInt32 fun a9 =>
      zc_bind zc_readInt32 fun a10 =>
      zc_bind zc_readInt32 fun a11 =>
      zc_bind zc_readUInt8 fun a12 =>
      zc_bind zc_readUInt8 fun a13 =>
      zc_bind zc_readUInt8 fun a14 =>
      zc_bind zc_readUInt8 fun a15 =>
      zc_bind zc_readUInt8 fun a16 =>
      zc_bind zc_readUInt8 fun a17 =>
      zc_bind zc_readUInt8 fun a18 =>
      zc_bind zc_readUInt8 fun a19 =>
      zc_bind zc_readInt32 fun a20 =>
      zc_bind zc_readInt16 fun a21 =>
      zc_bind zc_readFloat32 fun a22 =>
      zc_pure _
  exact zc_eq hch (by norm_num)

theorem zc_hdrPart4a : ZC hdrPart4a 11 := by
  have hch : ZC hdrPart4a (4 + (1 + (4 + (1 + (1 + 0))))) := by
    unfold hdrPart4a
    exact zc_bind zc_readStrListCounted fun a0 =>
      zc_bind zc_readBoolean fun a1 =>
      zc_bind zc_readInt32 fun a2 =>
      zc_bind zc_readBoolean fun a3 =>
      zc_bind zc_readBoolean fun a4 =>
      zc_pure _
  exact zc_eq hch (by norm_num)

theorem zc_hdrPart4b : ZC hdrPart4b 10 := by
  have hch : ZC hdrPart4b (4 + (4 + (2 + 0))) := by
    unfold hdrPart4b
    exact zc_bind zc_readInt32 fun a0 =>
      zc_bind zc_readInt32 fun a1 =>
      zc_bind zc_readKillCounts fun a2 =>
      zc_pure _
  exact zc_eq hch (by norm_num)

theorem zc_hdrPart5 : ZC hdrPart5 46 := by
  have hch : ZC hdrPart5 (1 + (1 + (1 + (1 + (1 + (1 + (1 + (1 + (1 + (1 + (1 + (1 + (1 + (1 + (1 + (1 + (1 + (1 + (1 + (1 + (1 + (4 + (4 + (1 + (4 + (4 + (4 + (1 + (1 + (1 + (1 + 0))))))))))))))))))))))))))))))) := by
    unfold hdrPart5
    exact zc_bind zc_readBoolean fun a0 =>
      zc_bind zc_readBoolean fun a1 =>
      zc_bind zc_readBoolean fun a2 =>
      zc_bind zc_readBoolean fun a3 =>
      zc_bind zc_readBoolean fun a4 =>
      zc_bind zc_readBoolean fun a5 =>
      zc_bind zc_readBoolean fun a6 =>
      zc_bind zc_readBoolean fun a7 =>
      zc_bind zc_readBoolean fun a8 =>
      zc_bind zc_readBoolean fun a9 =>
      zc_bind zc_readBoolean fun a10 =>
      zc_bind zc_readBoolean fun a11 =>
      zc_bind zc_readBoolean fun a12 =>
      zc_bind zc_readBoolean fun a13 =>
      zc_bind zc_readBoolean fun a14 =>
      zc_bind zc_readBoolean fun a15 =>
      zc_bind zc_readBoolean fun a16 =>
      zc_bind zc_readBoolean fun a17 =>
      zc_bind zc_readBoolean fun a18 =>
      zc_bind zc_readBoolean fun a19 =>
      zc_bind zc_readBoolean fun a20 =>
      zc_bind zc_readInt32 fun a21 =>
      zc_bind zc_readIntListCounted32 fun a22 =>
      zc_bind zc_readBoolean fun a23 =>
      zc_bind zc_readInt32 fun a24 =>
      zc_bind zc_readFloat32 fun a25 =>
      zc_bind zc_readFloat32 fun a26 =>
      zc_bind zc_readBoolean fun a27 =>
      zc_bind zc_readBoolean fun a28 =>
      zc_bind zc_readBoolean fun a29 =>
      zc_bind zc_readBoolean fun a30 =>
      zc_pure _
  exact zc_eq hch (by norm_num)

theorem zc_hdrPart6Body : ZC hdrPart6Body 40 := by
  have hch : ZC hdrPart6Body (1 + (1 + (1 + (1 + (1 + (1 + (4 + (1 + (1 + (1 + (4 + (1 + (1 + (4 + (4 + (4 + (4 + (1 + (1 + (1 + (1 + (1 + 0)))))))))))))))))))))) := by
    unfold hdrPart6Body
    exact zc_bind zc_readUInt8 fun a0 =>
      zc_bind zc_readUInt8 fun a1 =>
      zc_bind zc_readUInt8 fun a2 =>
      zc_bind zc_readUInt8 fun a3 =>
      zc_bind zc_readUInt8 fun a4 =>
      zc_bind zc_readBoolean fun a5 =>
      zc_bind zc_readInt32 fun a6 =>
      zc_bind zc_readBoolean fun a7 =>
      zc_bind zc_readBoolean fun a8 =>
      zc_bind zc_readBoolean fun a9 =>
      zc_bind zc_readIntListCounted32 fun a10 =>
      zc_bind zc_readBoolean fun a11 =>
      zc_bind zc_readBoolean fun a12 =>
      zc_bind zc_readInt32 fun a13 =>
      zc_bind zc_readInt32 fun a14 =>
      zc_bind zc_readInt32 fun a15 =>
      zc_bind zc_readInt32 fun a16 =>
      zc_bind zc_readBoolean fun a17 =>
      zc_bind zc_readBoolean fun a18 =>
      zc_bind zc_readBoolean fun a19 =>
      zc_bind zc_readBoolean fun a20 =>
      zc_bind zc_readBoolean fun a21 =>
      zc_pure _
  exact zc_eq hch (by norm_num)

theorem zc_hdrPart8Body : ZC hdrPart8Body 20 := by
  have hch : ZC hdrPart8Body (1 + (1 + (1 + (1 + (1 + (1 + (1 + (1 + (1 + (1 + (1 + (1 + (1 + (1 + (1 + (1 + (1 + (1 + (1 + (1 + 0)))))))))))))))))))) := by
    unfold hdrPart8Body
    exact zc_bind zc_readBoolean fun a0 =>
      zc_bind zc_readBoolean fun a1 =>
      zc_bind zc_readBoolean fun a2 =>
      zc_bind zc_readBoolean fun a3 =>
      zc_bind zc_readBoolean fun a4 =>
      zc_bind zc_readBoolean fun a5 =>
      zc_bind zc_readBoolean fun a6 =>
      zc_bind zc_readBoolean fun a7 =>
      zc_bind zc_readBoolean fun a8 =>
      zc_bind zc_readBoolean fun a9 =>
      zc_bind zc_readBoolean fun a10 =>
      zc_bind zc_readBoolean fun a11 =>
      zc_bind zc_readBoolean fun a12 =>
      zc_bind zc_readBoolean fun a13 =>
      zc_bind zc_readBoolean fun a14 =>
      zc_bind zc_readBoolean fun a15 =>
      zc_bind zc_readBoolean fun a16 =>
      zc_bind zc_readBoolean fun a17 =>
      zc_bind zc_readBoolean fun a18 =>
      zc_bind zc_readUInt8 fun a19 =>
      zc_pure _
  exact zc_eq hch (by norm_num)

theorem zc_hdrPart2_256 : ZC (hdrPart2 256) 10 := by
  have hch : ZC (hdrPart2 256)
      (4 + (1 + (1 + (1 + (1 + (1 + (1 + (0 + (0 + 0))))))))) := by
    unfold hdrPart2
    rw [if_pos (by norm_num)]
    exact zc_bind zc_readInt32 fun a0 =>
      zc_bind zc_readBoolean fun a1 =>
      zc_bind (zc_gatedField_pos (by norm_num) zc_readBoolean) fun a2 =>
      zc_bind (zc_gatedField_pos (by norm_num) zc_readBoolean) fun a3 =>
      zc_bind (zc_gatedField_pos (by norm_num) zc_readBoolean) fun a4 =>
      zc_bind (zc_gatedField_pos (by norm_num) zc_readBoolean) fun a5 =>
      zc_bind (zc_gatedField_pos (by norm_num) zc_readBoolean) fun a6 =>
      zc_bind (zc_gatedField_neg (by norm_num)) fun a7 =>
      zc_bind (zc_gatedField_neg (by norm_num)) fun a8 =>
      zc_pure _
  exact zc_eq hch (by norm_num)

theorem zc_hdrPart2_257 : ZC (hdrPart2 257) 10 := by
  have hch : ZC (hdrPart2 257)
      (4 + (1 + (1 + (1 + (1 + (1 + (1 + (0 + (0 + 0))))))))) := by
    unfold hdrPart2
    rw [if_pos (by norm_num)]
    exact zc_bind zc_readInt32 fun a0 =>
      zc_bind zc_readBoolean fun a1 =>
      zc_bind (zc_gatedField_pos (by norm_num) zc_readBoolean) fun a2 =>
      zc_bind (zc_gatedField_pos (by norm_num) zc_readBoolean) fun a3 =>
      zc_bind (zc_gatedField_pos (by norm_num) zc_readBoolean) fun a4 =>
      zc_bind (zc_gatedField_pos (by norm_num) zc_readBoolean) fun a5 =>
      zc_bind (zc_gatedField_pos (by norm_num) zc_readBoolean) fun a6 =>
      zc_bind (zc_gatedField_neg (by norm_num)) fun a7 =>
      zc_bind (zc_gatedField_neg (by norm_num)) fun a8 =>
      zc_pure _
  exact zc_eq hch (by norm_num)

theorem zc_hdrPart2_269 : ZC (hdrPart2 269) 12 := by
  have hch : ZC (hdrPart2 269)
      (4 + (1 + (1 + (1 + (1 + (1 + (1 + (1 + (1 + 0))))))))) := by
    unfold hdrPart2
    rw [if_pos (by norm_num)]
    exact zc_bind zc_readInt32 fun a0 =>
      zc_bind zc_readBoolean fun a1 =>
      zc_bind (zc_gatedField_pos (by norm_num) zc_readBoolean) fun a2 =>
      zc_bind (zc_gatedField_pos (by norm_num) zc_readBoolean) fun a3 =>
      zc_bind (zc_gatedField_pos (by norm_num) zc_readBoolean) fun a4 =>
      zc_bind (zc_gatedField_pos (by norm_num) zc_readBoolean) fun a5 =>
      zc_bind (zc_gatedField_pos (by norm_num) zc_readBoolean) fun a6 =>
      zc_bind (zc_gatedField_pos (by norm_num) zc_readBoolean) fun a7 =>
      zc_bind (zc_gatedField_pos (by norm_num) zc_readBoolean) fun a8 =>
      zc_pure _
  exact zc_eq hch (by norm_num)

theorem zc_afterPartyStep_lo {v : Int} (hv : ¬ 257 ≤ v) : ZC (afterPartyStep v) 0 := by
  unfold afterPartyStep
  rw [if_neg hv]
  exact zc_eq (zc_bind (zc_pure false) fun b => zc_pure (some b)) (by norm_num)

theorem zc_afterPartyStep_hi {v : Int} (hv : 257 ≤ v) : ZC (afterPartyStep v) 1 := by
  unfold afterPartyStep
  rw [if_pos hv]
  exact zc_eq (zc_bind zc_readBoolean fun b => zc_pure (some b)) (by norm_num)

theorem zc_hdrPart6_pos {v : Int} (hv : 225 ≤ v) : ZC (hdrPart6 v) 40 := by
  unfold hdrPart6
  rw [if_pos hv]
  exact zc_eq (zc_bind zc_hdrPart6Body fun r => zc_pure (hdrPart6Some r)) (by norm_num)

theorem zc_hdrPart8_pos {v : Int} (hv : 269 ≤ v) : ZC (hdrPart8 v) 20 := by
  unfold hdrPart8
  rw [if_pos hv]
  exact zc_eq (zc_bind zc_hdrPart8Body fun r => zc_pure (hdrPart8Some r)) (by norm_num)

theorem zc_hdrPart8_neg {v : Int} (hv : ¬ 269 ≤ v) : ZC (hdrPart8 v) 0 := by
  unfold hdrPart8
  rw [if_neg hv]
  exact zc_pure hdrPart8None

theorem zc_parseHeader_256 : ZC (parseHeader 256) 392 := by
  have hch : ZC (parseHeader 256)
      (54 + (10 + (151 + (0 + (68 + (11 + (1 + (10 + (46 + (40 + (1 + (0 + 0)))))))))))) := by
    unfold parseHeader
    exact zc_bind zc_hdrPart1 fun p1 =>
      zc_bind zc_hdrPart2_256 fun p2 =>
      zc_bind zc_hdrPart3a fun p3a =>
      zc_bind (zc_afterPartyStep_lo (by norm_num)) fun ap =>
      zc_bind zc_hdrPart3b fun p3b =>
      zc_bind zc_hdrPart4a fun p4a =>
      zc_bind (zc_gatedField_pos (by norm_num) zc_readBoolean) fun golfer =>
      zc_bind zc_hdrPart4b fun p4b =>
      zc_bind zc_hdrPart5 fun p5 =>
      zc_bind (zc_hdrPart6_pos (by norm_num)) fun p6 =>
      zc_bind (zc_gatedField_pos (by norm_num) zc_readBoolean) fun dc =>
      zc_bind (zc_hdrPart8_neg (by norm_num)) fun p8 =>
      zc_pure _
  exact zc_eq hch (by norm_num)

theorem zc_parseHeader_257 : ZC (parseHeader 257) 393 := by
  have hch : ZC (parseHeader 257)
      (54 + (10 + (151 + (1 + (68 + (11 + (1 + (10 + (46 + (40 + (1 + (0 + 0)))))))))))) := by
    unfold parseHeader
    exact zc_bind zc_hdrPart1 fun p1 =>
      zc_bind zc_hdrPart2_257 fun p2 =>
      zc_bind zc_hdrPart3a fun p3a =>
      zc_bind (zc_afterPartyStep_hi (by norm_num)) fun ap =>
      zc_bind zc_hdrPart3b fun p3b =>
      zc_bind zc_hdrPart4a fun p4a =>
      zc_bind (zc_gatedField_pos (by norm_num) zc_readBoolean) fun golfer =>
      zc_bind zc_hdrPart4b fun p4b =>
      zc_bind zc_hdrPart5 fun p5 =>
      zc_bind (zc_hdrPart6_pos (by norm_num)) fun p6 =>
      zc_bind (zc_gatedField_pos (by norm_num) zc_readBoolean) fun dc =>
      zc_bind (zc_hdrPart8_neg (by norm_num)) fun p8 =>
      zc_pure _
  exact zc_eq hch (by norm_num)

theorem zc_parseHeader_269 : ZC (parseHeader 269) 415 := by
  have hch : ZC (parseHeader 269)
      (54 + (12 + (151 + (1 + (68 + (11 + (1 + (10 + (46 + (40 + (1 + (20 + 0)))))))))))) := by
    unfold parseHeader
    exact zc_bind zc_hdrPart1 fun p1 =>
      zc_bind zc_hdrPart2_269 fun p2 =>
      zc_bind zc_hdrPart3a fun p3a =>
      zc_bind (zc_afterPartyStep_hi (by norm_num)) fun ap =>
      zc_bind zc_hdrPart3b fun p3b =>
      zc_bind zc_hdrPart4a fun p4a =>
      zc_bind (zc_gatedField_pos (by norm_num) zc_readBoolean) fun golfer =>
      zc_bind zc_hdrPart4b fun p4b =>
      zc_bind zc_hdrPart5 fun p5 =>
      zc_bind (zc_hdrPart6_pos (by norm_num)) fun p6 =>
      zc_bind (zc_gatedField_pos (by norm_num) zc_readBoolean) fun dc =>
      zc_bind (zc_hdrPart8_pos (by norm_num)) fun p8 =>
      zc_pure _
  exact zc_eq hch (by norm_num)

/-- C4 (counterexample). Two header decodes over the same all-zero byte
stream, at versions 256 and 257 (either side of the `afterPartyOfDoom`
gate): both succeed, but the below-gate decode at version 256 still
carries the field — present, with the substituted default `false` — where
the claim requires every gated field to be absent below its gate with no
default substituted. -/
theorem c4_counterexample :
    (∃ h sf, parseHeader 256 (st0 (List.replicate 600 0)) = (Except.ok h, sf) ∧
      h.afterPartyOfDoom = some false) ∧
    (∃ h sf, parseHeader 257 (st0 (List.replicate 600 0)) = (Except.ok h, sf) ∧
      h.afterPartyOfDoom.isSome = true) ∧
    (256 : Int) < 257 := by
  refine ⟨?_, ?_, by norm_num⟩
  · obtain ⟨h, hEq⟩ := zc_parseHeader_256 (List.replicate 600 0) 0 (allZero_replicate 600)
      (by rw [List.length_replicate]; omega)
    rw [st0_eq_mkZ]
    have c4 := c4_version_gating_amended hEq
    exact ⟨h, _, hEq, c4.2.2.2.2.2.2.2.2 (by norm_num)⟩
  · obtain ⟨h, hEq⟩ := zc_parseHeader_257 (List.replicate 600 0) 0 (allZero_replicate 600)
      (by rw [List.length_replicate]; omega)
    rw [st0_eq_mkZ]
    have c4 := c4_version_gating_amended hEq
    exact ⟨h, _, hEq, c4.2.2.2.2.2.2.2.1⟩

theorem c4_witness :
    ∃ h sf, parseHeader 269 (st0 (List.replicate 600 0)) = (Except.ok h, sf) ∧
      h.p2.gameMode.isSome = true ∧ h.p2.expertMode = none ∧
      h.savedGolfer.isSome = true ∧ h.afterPartyOfDoom.isSome = true ∧
      (∃ r, h.p8 = hdrPart8Some r) := by
  obtain ⟨h, hEq⟩ := zc_parseHeader_269 (List.replicate 600 0) 0 (allZero_replicate 600)
    (by rw [List.length_replicate]; omega)
  rw [st0_eq_mkZ]
  have c4 := c4_version_gating_amended hEq
  refine ⟨h, _, hEq, c4.1.1.mpr (by norm_num), ?_, c4.2.1.mpr (by norm_num),
    c4.2.2.2.2.2.2.2.1, c4.2.2.2.2.2.1 (by norm_num)⟩
  have hem := c4.1.2.2.2.2.2.2.2.2.2
  rcases hh : h.p2.expertMode with _ | b
  · rfl
  · rw [hh] at hem
    simp at hem

/-! ## The decode entry point (`parse`, lines 608-652)

`parse` merges its options (sections lowercased, both sections decoded by
default), installs the progress interceptor when a callback is supplied
(modelled by the `hasCb` flag consulted by `setOff`), runs the validator,
then for each selected section jumps to its pointer and decodes it.
Pointer-table entries are `Int`s; a missing or negative pointer is
clamped to 0 here (JavaScript would produce NaN/RangeError offsets in
those pathological cases, which no claim depends on). -/

/-- Lines 617-633: install the progress bookkeeping when a callback was
supplied: `onePercentSize = floor(len/100)`, first threshold at one
percent, counter at 0. -/
def installProgress : M Unit := fun s =>
  (Except.ok (),
    if s.hasCb then
      { s with onePct := s.buf.length / 100, nextPct := s.buf.length / 100, percent := 0 }
    else s)

/-- The structured result of `parse`: the decoded sections by name. -/
structure ParseResult where
  header : Option WorldHeader
  tiles : Option (List (List (Option Tile) × List (Nat × Tile × Nat) × Nat))
deriving Repr, DecidableEq

def parse (secs : List String) : M ParseResult :=
  let sections := secs.map String.toLower
  installProgress >>= fun _ =>
  parseNecessaryData >>= fun w =>
  (if "header" ∈ sections then
      jumpTo (w.pointers.getD 1 0).toNat >>= fun _ =>
      parseHeader w.version >>= fun h => pure (some h)
    else pure none) >>= fun hdr =>
  (if "tiles" ∈ sections then
      jumpTo (w.pointers.getD 2 0).toNat >>= fun _ =>
      parseWorldTiles w.importants w.width.toNat w.height.toNat >>= fun t => pure (some t)
    else pure none) >>= fun tiles =>
  pure ⟨hdr, tiles⟩

/-! ### Noninterference of the progress bookkeeping

`NI x` states that the result value and the decode-relevant core of the
final state of `x` depend only on the core of the initial state — never
on the progress-callback bookkeeping.  It is proved for every reader and
parser in this file, composed up to `parse`. -/

def NI {α : Type} (x : M α) : Prop :=
  ∀ s t, coreOf s = coreOf t → (x s).1 = (x t).1 ∧ coreOf (x s).2 = coreOf (x t).2

theorem coreOf_parts {s t : PState} (h : coreOf s = coreOf t) :
    s.buf = t.buf ∧ s.off = t.off ∧ s.ignoreBounds = t.ignoreBounds ∧ s.rle = t.rle := by
  unfold coreOf at h
  exact ⟨congrArg (fun p => p.1) h, congrArg (fun p => p.2.1) h,
    congrArg (fun p => p.2.2.1) h, congrArg (fun p => p.2.2.2) h⟩

theorem ni_pure {α : Type} (a : α) : NI (pure a : M α) := by
  intro s t hc
  exact ⟨rfl, hc⟩

theorem ni_bind {α β : Type} {x : M α} {f : α → M β}
    (hx : NI x) (hf : ∀ a, NI (f a)) : NI (x >>= f) := by
  intro s t hc
  obtain ⟨hv, hcore⟩ := hx s t hc
  rw [bind_def]
  unfold mbind
  rcases hxs : x s with ⟨vs, s₁⟩
  rcases hxt : x t with ⟨vt, t₁⟩
  rw [hxs, hxt] at hv hcore
  simp only [] at hv hcore
  cases vs with
  | ok a =>
    cases vt with
    | ok b =>
      have hab : a = b := by
        cases hv
        rfl
      subst hab
      exact hf a s₁ t₁ hcore
    | error e => exact absurd hv (by simp)
  | error e =>
    cases vt with
    | ok b => exact absurd hv (by simp)
    | error e' =>
      have : e = e' := by
        cases hv
        rfl
      subst this
      exact ⟨rfl, hcore⟩

theorem ni_ite {α : Type} {c : Prop} [Decidable c] {x y : M α}
    (hx : NI x) (hy : NI y) : NI (if c then x else y) := by
  by_cases hc : c
  · rw [if_pos hc]; exact hx
  · rw [if_neg hc]; exact hy

theorem ni_readPrim (w : Nat) : NI (readPrim w) := by
  intro s t hc
  obtain ⟨hbuf, hoff, hib, hrle⟩ := coreOf_parts hc
  unfold readPrim
  rw [hbuf, hoff, hib]
  constructor
  · split
    · rfl
    · split <;> rfl
  · split
    · rw [setOff_core, setOff_core, hbuf, hib, hrle]
    · split <;> rw [setOff_core, setOff_core, hbuf, hib, hrle]

theorem ni_readUInt8 : NI readUInt8 := ni_readPrim 1

theorem ni_readUInt16 : NI readUInt16 := ni_readPrim 2

theorem ni_readUInt32 : NI readUInt32 := ni_readPrim 4

theorem ni_readFloat32 : NI readFloat32 := ni_readPrim 4

theorem ni_readFloat64 : NI readFloat64 := ni_readPrim 8

theorem ni_readSigned (w : Nat) (rd : M Int)
    (h : rd = fun s => match readPrim w s with
      | (Except.ok n, s') => (Except.ok (toSigned w n), s')
      | (Except.error e, s') => (Except.error e, s')) : NI rd := by
  subst h
  intro s t hc
  obtain ⟨hv, hcore⟩ := ni_readPrim w s t hc
  rcases hxs : readPrim w s with ⟨vs, s₁⟩
  rcases hxt : readPrim w t with ⟨vt, t₁⟩
  rw [hxs, hxt] at hv hcore
  simp only [] at hv hcore ⊢
  rw [hxs, hxt]
  cases vs with
  | ok n =>
    cases vt with
    | ok n' =>
      have hn : n = n' := by
        have hv' : Except.ok n = Except.ok n' := hv
        cases hv'
        rfl
      subst hn
      exact ⟨rfl, hcore⟩
    | error e =>
      exact absurd (show Except.ok n = Except.error e from hv) (by simp)
  | error e =>
    cases vt with
    | ok n =>
      exact absurd (show Except.error e = Except.ok n from hv) (by simp)
    | error e' =>
      have he : e = e' := by
        have hv' : (Except.error e : Except String Nat) = Except.error e' := hv
        cases hv'
        rfl
      subst he
      exact ⟨rfl, hcore⟩

theorem ni_readInt16 : NI readInt16 := ni_readSigned 2 readInt16 rfl

theorem ni_readInt32 : NI readInt32 := ni_readSigned 4 readInt32 rfl

theorem ni_readBoolean : NI readBoolean :=
  ni_bind ni_readUInt8 fun b => ni_pure _

theorem ni_skipBytes (n : Nat) : NI (skipBytes n) := by
  intro s t hc
  obtain ⟨hbuf, hoff, hib, hrle⟩ := coreOf_parts hc
  unfold skipBytes
  exact ⟨rfl, by rw [setOff_core, setOff_core, hbuf, hoff, hib, hrle]⟩

theorem ni_jumpTo (n : Nat) : NI (jumpTo n) := by
  intro s t hc
  obtain ⟨hbuf, hoff, hib, hrle⟩ := coreOf_parts hc
  unfold jumpTo
  exact ⟨rfl, by rw [setOff_core, setOff_core, hbuf, hib, hrle]⟩

theorem ni_getRLE : NI getRLE := by
  intro s t hc
  obtain ⟨hbuf, hoff, hib, hrle⟩ := coreOf_parts hc
  unfold getRLE
  exact ⟨by rw [hrle], hc⟩

theorem ni_setRLE (v : Int) : NI (setRLE v) := by
  intro s t hc
  obtain ⟨hbuf, hoff, hib, hrle⟩ := coreOf_parts hc
  unfold setRLE coreOf
  exact ⟨rfl, by simp [hbuf, hoff, hib]⟩

theorem ni_installProgress : NI installProgress := by
  intro s t hc
  unfold installProgress
  refine ⟨rfl, ?_⟩
  obtain ⟨hbuf, hoff, hib, hrle⟩ := coreOf_parts hc
  unfold coreOf
  split <;> split <;> simp [hbuf, hoff, hib, hrle]

theorem ni_readBytes : ∀ n, NI (readBytes n) := by
  intro n
  induction n with
  | zero => exact ni_pure []
  | succ k ih =>
    rw [readBytes]
    exact ni_bind ni_readUInt8 fun b => ni_bind ih fun rest => ni_pure _

theorem ni_readVarLenAux : ∀ fuel acc shift, NI (readVarLenAux fuel acc shift) := by
  intro fuel
  induction fuel with
  | zero =>
    intro acc shift s t hc
    exact ⟨rfl, hc⟩
  | succ k ih =>
    intro acc shift
    rw [readVarLenAux]
    exact ni_bind ni_readUInt8 fun b => ni_ite (ih _ _) (ni_pure _)

theorem ni_readVarLen : NI readVarLen := by
  intro s t hc
  obtain ⟨hbuf, _, _, _⟩ := coreOf_parts hc
  unfold readVarLen
  have := ni_readVarLenAux (s.buf.length + 2) 0 0 s t hc
  rw [hbuf] at this ⊢
  exact this

theorem ni_readStringLen (n : Nat) : NI (readStringLen n) := ni_readBytes n

theorem ni_readStringVar : NI readStringVar :=
  ni_bind ni_readVarLen fun len => ni_readBytes len

theorem ni_parseBitsByte (size : Int) : NI (parseBitsByte size) :=
  ni_bind (ni_readBytes _) fun bytes => ni_pure _

theorem ni_readPtrLoop : ∀ n, NI (readPtrLoop n) := by
  intro n
  induction n with
  | zero => exact ni_pure []
  | succ k ih =>
    rw [readPtrLoop]
    exact ni_bind ni_readInt32 fun p => ni_bind ih fun rest => ni_pure _

theorem ni_parseNecessaryTail : NI parseNecessaryTail := by
  unfold parseNecessaryTail
  exact ni_bind (ni_skipBytes 12) fun _ =>
    ni_bind ni_readInt16 fun n =>
    ni_bind (ni_readPtrLoop n.toNat) fun ptrs =>
    ni_bind ni_readInt16 fun m =>
    ni_bind (ni_parseBitsByte m) fun imps =>
    ni_bind ni_readStringVar fun _ =>
    ni_bind ni_readStringVar fun _ =>
    ni_bind (ni_skipBytes 44) fun _ =>
    ni_bind ni_readInt32 fun hh =>
    ni_bind ni_readInt32 fun ww =>
    ni_pure _

theorem ni_parseNecessaryBody : NI parseNecessaryBody := by
  unfold parseNecessaryBody
  exact ni_bind ni_readInt32 fun v =>
    ni_bind (ni_readStringLen 7) fun m =>
    ni_bind ni_readUInt8 fun ft =>
    ni_bind ni_parseNecessaryTail fun r =>
    ni_pure _

theorem coreOf_setOff_eq {s t : PState} (n : Nat) (h : coreOf s = coreOf t) :
    coreOf (setOff n s) = coreOf (setOff n t) := by
  obtain ⟨hbuf, _, hib, hrle⟩ := coreOf_parts h
  rw [setOff_core, setOff_core, hbuf, hib, hrle]

theorem ni_parseNecessaryData : NI parseNecessaryData := by
  intro s t hc
  have hc0 : coreOf (setOff 0 s) = coreOf (setOff 0 t) := coreOf_setOff_eq 0 hc
  obtain ⟨hv, hcore⟩ := ni_parseNecessaryBody (setOff 0 s) (setOff 0 t) hc0
  rcases hxs : parseNecessaryBody (setOff 0 s) with ⟨vs, s₁⟩
  rcases hxt : parseNecessaryBody (setOff 0 t) with ⟨vt, t₁⟩
  rw [hxs, hxt] at hv hcore
  simp only [] at hv hcore
  cases vs with
  | ok a =>
    cases vt with
    | ok b =>
      have hab : a = b := by
        have hv' : Except.ok a = Except.ok b := hv
        cases hv'
        rfl
      subst hab
      obtain ⟨v, m, ft, ptrs, imps, hh, ww⟩ := a
      rw [parseNecessaryData_ok_case hxs, parseNecessaryData_ok_case hxt]
      have hfin := coreOf_setOff_eq 0 hcore
      by_cases h1 : m ≠ relogicBytes ∨ ft ≠ 2
      · simp only [if_pos h1]
        exact ⟨by trivial, hfin⟩
      · simp only [if_neg h1]
        by_cases h2 : v < 194
        · simp only [if_pos h2]
          exact ⟨by trivial, hfin⟩
        · simp only [if_neg h2]
          exact ⟨by trivial, hfin⟩
    | error e =>
      exact absurd (show Except.ok a = Except.error e from hv) (by simp)
  | error e =>
    cases vt with
    | ok b =>
      exact absurd (show Except.error e = Except.ok b from hv) (by simp)
    | error e' =>
      have he : e = e' := by
        have hv' : (Except.error e : Except String _) = Except.error e' := hv
        cases hv'
        rfl
      subst he
      rw [parseNecessaryData_err_case hxs, parseNecessaryData_err_case hxt]
      exact ⟨rfl, hcore⟩


theorem ni_readTileFlags : NI readTileFlags := by
  unfold readTileFlags
  exact ni_bind ni_readUInt8 fun f1 =>
    ni_ite
      (ni_bind ni_readUInt8 fun f2 =>
        ni_ite
          (ni_bind ni_readUInt8 fun f3 =>
            ni_ite (ni_bind ni_readUInt8 fun f4 => ni_pure _) (ni_pure _))
          (ni_pure _))
      (ni_pure _)

theorem ni_blockStep (imps : List Bool) (f1 f3 : Nat) (t : Tile) :
    NI (blockStep imps f1 f3 t) := by
  unfold blockStep
  exact ni_ite
    (ni_bind (ni_ite ni_readUInt16 ni_readUInt8) fun bid =>
      ni_bind
        (ni_ite
          (ni_bind ni_readInt16 fun fx => ni_bind ni_readInt16 fun fy => ni_pure _)
          (ni_pure _)) fun t1 =>
      ni_ite (ni_bind ni_readUInt8 fun bc => ni_pure _) (ni_pure _))
    (ni_pure _)

theorem ni_wallStep (f1 f3 : Nat) (t : Tile) : NI (wallStep f1 f3 t) := by
  unfold wallStep
  exact ni_ite
    (ni_bind ni_readUInt8 fun w =>
      ni_ite (ni_bind ni_readUInt8 fun wc => ni_pure _) (ni_pure _))
    (ni_pure _)

theorem ni_liquidStep (f1 f3 : Nat) (t : Tile) : NI (liquidStep f1 f3 t) := by
  unfold liquidStep
  exact ni_ite
    (ni_bind ni_readUInt8 fun amt => ni_ite (ni_pure _) (ni_pure _))
    (ni_pure _)

theorem ni_mainStep (imps : List Bool) (f1 f3 : Nat) (t : Tile) :
    NI (mainStep imps f1 f3 t) := by
  unfold mainStep
  exact ni_ite
    (ni_bind (ni_blockStep imps f1 f3 t) fun t1 =>
      ni_bind (ni_wallStep f1 f3 t1) fun t2 => ni_liquidStep f1 f3 t2)
    (ni_pure _)

theorem ni_flags2Step (f2 f3 f4 : Nat) (t : Tile) : NI (flags2Step f2 f3 f4 t) := by
  unfold flags2Step
  exact ni_ite
    (ni_ite
      (ni_bind
        (ni_ite (ni_bind ni_readUInt8 fun hb => ni_pure _) (ni_pure _)) fun t1 =>
        ni_ite (ni_pure _) (ni_pure _))
      (ni_pure _))
    (ni_pure _)

theorem ni_rleStep (f1 : Nat) : NI (rleStep f1) := by
  unfold rleStep
  split
  · exact ni_bind ni_readUInt8 fun v => ni_setRLE _
  · exact ni_bind ni_readInt16 fun v => ni_setRLE _
  · exact ni_pure _

theorem ni_parseTileData (imps : List Bool) : NI (parseTileData imps) := by
  unfold parseTileData
  exact ni_bind ni_readTileFlags fun fs =>
    ni_bind (ni_mainStep imps fs.1 fs.2.2.1 emptyTile) fun t =>
    ni_bind (ni_flags2Step fs.2.1 fs.2.2.1 fs.2.2.2 t) fun t1 =>
    ni_bind (ni_rleStep fs.1) fun _ => ni_pure _

theorem ni_colFill (imps : List Bool) (hh : Nat) :
    ∀ fuel col y, NI (colFill imps hh fuel col y) := by
  intro fuel
  induction fuel with
  | zero =>
    intro col y
    rw [colFill]
    exact ni_ite (ni_pure _) (fun s t hc => ⟨rfl, hc⟩)
  | succ k ih =>
    intro col y
    rw [colFill]
    refine ni_ite (ni_pure _) ?_
    exact ni_bind (ni_parseTileData imps) fun t =>
      ni_bind ni_getRLE fun r =>
      ni_bind (ni_setRLE (r - r.toNat)) fun _ =>
      ni_bind (ih _ _) fun res => ni_pure _

theorem ni_worldFill (imps : List Bool) (hh : Nat) : ∀ n, NI (worldFill imps hh n) := by
  intro n
  induction n with
  | zero => exact ni_pure _
  | succ k ih =>
    rw [worldFill]
    exact ni_bind (ni_colFill imps hh hh _ 0) fun c =>
      ni_bind ih fun rest => ni_pure _

theorem ni_parseWorldTiles (imps : List Bool) (w hh : Nat) :
    NI (parseWorldTiles imps w hh) := by
  unfold parseWorldTiles
  exact ni_bind (ni_setRLE 0) fun _ => ni_worldFill imps hh w

theorem ni_readIntList : ∀ n, NI (readIntList n) := by
  intro n
  induction n with
  | zero => exact ni_pure _
  | succ k ih =>
    rw [readIntList]
    exact ni_bind ni_readInt32 fun v => ni_bind ih fun rest => ni_pure _

theorem ni_readStrList : ∀ n, NI (readStrList n) := by
  intro n
  induction n with
  | zero => exact ni_pure _
  | succ k ih =>
    rw [readStrList]
    exact ni_bind ni_readStringVar fun v => ni_bind ih fun rest => ni_pure _

theorem ni_readStrListCounted : NI readStrListCounted := by
  unfold readStrListCounted
  exact ni_bind ni_readInt32 fun n => ni_readStrList n.toNat

theorem ni_readIntListCounted32 : NI readIntListCounted32 := by
  unfold readIntListCounted32
  exact ni_bind ni_readInt32 fun n => ni_readIntList n.toNat

theorem ni_readKillCounts : NI readKillCounts := by
  unfold readKillCounts
  exact ni_bind ni_readInt16 fun n => ni_readIntList n.toNat

theorem ni_gatedField {β : Type} {c : Prop} [Decidable c] {x : M β}
    (hx : NI x) : NI (gatedField c x) := by
  unfold gatedField
  exact ni_ite (ni_bind hx fun v => ni_pure _) (ni_pure _)

theorem ni_hdrPart1 : NI hdrPart1 := by
  unfold hdrPart1
  repeat
    first
    | exact ni_pure _
    | exact ni_readUInt8
    | exact ni_readUInt16
    | exact ni_readInt16
    | exact ni_readInt32
    | exact ni_readBoolean
    | exact ni_readStringVar
    | exact ni_readBytes _
    | refine ni_bind ?_ fun a => ?_

theorem ni_hdrPart2 (v : Int) : NI (hdrPart2 v) := by
  unfold hdrPart2
  refine ni_ite ?_ ?_ <;>
  repeat
    first
    | exact ni_pure _
    | exact ni_readInt32
    | exact ni_readBoolean
    | exact ni_gatedField ni_readBoolean
    | refine ni_bind ?_ fun a => ?_

theorem ni_hdrPart3a : NI hdrPart3a := by
  unfold hdrPart3a
  repeat
    first
    | exact ni_pure _
    | exact ni_readUInt8
    | exact ni_readUInt16
    | exact ni_readInt16
    | exact ni_readInt32
    | exact ni_readFloat64
    | exact ni_readBoolean
    | exact ni_readBytes _
    | exact ni_readIntList _
    | refine ni_bind ?_ fun a => ?_

theorem ni_afterPartyStep (v : Int) : NI (afterPartyStep v) := by
  unfold afterPartyStep
  exact ni_bind (ni_ite ni_readBoolean (ni_pure _)) fun b => ni_pure _

theorem ni_hdrPart3b : NI hdrPart3b := by
  unfold hdrPart3b
  repeat
    first
    | exact ni_pure _
    | exact ni_readUInt8
    | exact ni_readUInt16
    | exact ni_readInt16
    | exact ni_readInt32
    | exact ni_readFloat32
    | exact ni_readFloat64
    | exact ni_readBoolean
    | refine ni_bind ?_ fun a => ?_

theorem ni_hdrPart4a : NI hdrPart4a := by
  unfold hdrPart4a
  repeat
    first
    | exact ni_pure _
    | exact ni_readUInt8
    | exact ni_readUInt16
    | exact ni_readInt16
    | exact ni_readInt32
    | exact ni_readFloat32
    | exact ni_readBoolean
    | exact ni_readStrListCounted
    | refine ni_bind ?_ fun a => ?_

theorem ni_hdrPart4b : NI hdrPart4b := by
  unfold hdrPart4b
  repeat
    first
    | exact ni_pure _
    | exact ni_readInt32
    | exact ni_readKillCounts
    | refine ni_bind ?_ fun a => ?_

theorem ni_hdrPart5 : NI hdrPart5 := by
  unfold hdrPart5
  repeat
    first
    | exact ni_pure _
    | exact ni_readInt16
    | exact ni_readInt32
    | exact ni_readFloat32
    | exact ni_readBoolean
    | exact ni_readIntListCounted32
    | refine ni_bind ?_ fun a => ?_

theorem ni_hdrPart6Body : NI hdrPart6Body := by
  unfold hdrPart6Body
  repeat
    first
    | exact ni_pure _
    | exact ni_readUInt8
    | exact ni_readUInt16
    | exact ni_readInt16
    | exact ni_readInt32
    | exact ni_readBoolean
    | exact ni_readIntListCounted32
    | refine ni_bind ?_ fun a => ?_

theorem ni_hdrPart6 (v : Int) : NI (hdrPart6 v) := by
  unfold hdrPart6
  exact ni_ite (ni_bind ni_hdrPart6Body fun r => ni_pure _) (ni_pure _)

theorem ni_hdrPart8Body : NI hdrPart8Body := by
  unfold hdrPart8Body
  repeat
    first
    | exact ni_pure _
    | exact ni_readUInt8
    | exact ni_readBoolean
    | refine ni_bind ?_ fun a => ?_

theorem ni_hdrPart8 (v : Int) : NI (hdrPart8 v) := by
  unfold hdrPart8
  exact ni_ite (ni_bind ni_hdrPart8Body fun r => ni_pure _) (ni_pure _)

theorem ni_parseHeader (v : Int) : NI (parseHeader v) := by
  unfold parseHeader
  repeat
    first
    | exact ni_pure _
    | exact ni_hdrPart1
    | exact ni_hdrPart2 v
    | exact ni_hdrPart3a
    | exact ni_afterPartyStep v
    | exact ni_hdrPart3b
    | exact ni_hdrPart4a
    | exact ni_gatedField ni_readBoolean
    | exact ni_hdrPart4b
    | exact ni_hdrPart5
    | exact ni_hdrPart6 v
    | exact ni_hdrPart8 v
    | refine ni_bind ?_ fun a => ?_

theorem ni_parse (secs : List String) : NI (parse secs) := by
  unfold parse
  exact ni_bind ni_installProgress fun _ =>
    ni_bind ni_parseNecessaryData fun w =>
    ni_bind
      (ni_ite
        (ni_bind (ni_jumpTo _) fun _ =>
          ni_bind (ni_parseHeader w.version) fun h => ni_pure _)
        (ni_pure _)) fun hdr =>
    ni_bind
      (ni_ite
        (ni_bind (ni_jumpTo _) fun _ =>
          ni_bind (ni_parseWorldTiles w.importants w.width.toNat w.height.toNat) fun t =>
          ni_pure _)
        (ni_pure _)) fun tiles =>
    ni_pure _

/-- The initial parser state over a buffer: cursor at 0, strict bounds, no
run-length pending; `cb` records whether a progress callback was supplied. -/
def initParse (buf : List Nat) (cb : Bool) : PState :=
  { buf := buf, off := 0, ignoreBounds := false, rle := 0,
    hasCb := cb, onePct := 0, nextPct := 0, percent := 0, plog := [] }

/-- C9: progress-callback noninterference.  For every input buffer and
section selection, running `parse` with a progress callback supplied
(`cb = true`, which installs the threshold bookkeeping consulted on every
cursor move) returns exactly the same outcome — the same decoded header
and tile grid on success, the same error otherwise — and the same
decode-relevant final state (buffer, cursor, bounds mode, RLE counter) as
running it with no callback: progress reporting is advisory only. -/
theorem c9_progress_noninterference (buf : List Nat) (secs : List String) (cb cb' : Bool) :
    (parse secs (initParse buf cb)).1 = (parse secs (initParse buf cb')).1 ∧
    coreOf (parse secs (initParse buf cb)).2 = coreOf (parse secs (initParse buf cb')).2 :=
  ni_parse secs (initParse buf cb) (initParse buf cb') rfl

end Wld
